import Mathlib

/-!
# Verification of the mech3ax binary codec core

A shallow embedding of the mech3ax reader/writer primitives and the
animation sequence-event variant codecs, together with proofs of the
round-trip, sentinel, flag-validation and offset-tracking properties.

Conventions of the embedding:

* A byte stream is a `List Nat`; bytes produced by the encoders are `< 256`
  by construction.  All multi-byte scalars are little-endian, mirroring the
  `from_le_bytes`/`to_le_bytes` calls in the source.
* `f32` fields are carried as their 32-bit IEEE-754 bit patterns (a `Nat`
  below `2 ^ 32`).  The source only ever compares floats (`== 0.0`,
  `> 0.0`, range checks); these comparisons are modelled bit-accurately on
  the patterns (`f32Eq`, `f32Lt`, ...), including the identification of the
  two IEEE zeros and the incomparability of NaN.
* Machine-integer overflow is modelled with explicit `% 2 ^ 32` where the
  source does wrapping `u32` arithmetic (the reader offset).
* Fallible Rust functions returning `Result` become `Except Error`.
-/

namespace Mech3ax

/-! ## Little-endian bytes -/

/-- Combine a little-endian byte list into a natural number.  Each entry is
reduced `% 256`, so the value only depends on the byte content. -/
def leVal : List Nat → Nat
  | [] => 0
  | b :: bs => b % 256 + 256 * leVal bs

/-- Split a value into `k` little-endian bytes (each `< 256`), as
`to_le_bytes` does; values `≥ 2 ^ (8 * k)` are truncated. -/
def leBytes : Nat → Nat → List Nat
  | 0, _ => []
  | k + 1, v => v % 256 :: leBytes k (v / 256)

/-- Extract the `len`-byte little-endian field at byte offset `off`. -/
def field (bs : List Nat) (off len : Nat) : Nat :=
  leVal ((bs.drop off).take len)

/-- Extract `len` raw bytes at offset `off` (used for the fixed-length name
fields), normalised to byte range. -/
def bytesAt (bs : List Nat) (off len : Nat) : List Nat :=
  ((bs.drop off).take len).map (· % 256)

/-! ## IEEE-754 single-precision comparisons on bit patterns -/

/-- `2 ^ 32`, the modulus for `u32` arithmetic. -/
def U32 : Nat := 4294967296

/-- A bit pattern denotes an IEEE-754 NaN iff the exponent field is all-ones
and the mantissa is non-zero. -/
def f32IsNan (b : Nat) : Bool :=
  decide ((b / 2 ^ 23) % 256 = 255) && decide (b % 2 ^ 23 ≠ 0)

/-- Monotone key for the IEEE-754 total order on non-NaN bit patterns;
both zeros map to the same key. -/
def f32Key (b : Nat) : Nat :=
  if b < 2 ^ 31 then 2 ^ 31 + b else 2 ^ 32 - b

/-- IEEE-754 `==` on bit patterns (false on NaN; `-0.0 == 0.0`). -/
def f32Eq (a b : Nat) : Bool :=
  !f32IsNan a && !f32IsNan b && decide (f32Key a = f32Key b)

/-- IEEE-754 `<` on bit patterns (false whenever either side is NaN). -/
def f32Lt (a b : Nat) : Bool :=
  !f32IsNan a && !f32IsNan b && decide (f32Key a < f32Key b)

/-- IEEE-754 `<=` on bit patterns (false whenever either side is NaN). -/
def f32Le (a b : Nat) : Bool :=
  !f32IsNan a && !f32IsNan b && decide (f32Key a ≤ f32Key b)

/-- IEEE-754 `>` on bit patterns. -/
def f32Gt (a b : Nat) : Bool := f32Lt b a

/-- IEEE-754 `>=` on bit patterns. -/
def f32Ge (a b : Nat) : Bool := f32Le b a

/-- Bit pattern of `0.0`. -/
def fZero : Nat := 0

/-- Bit pattern of `1.0`. -/
def fOne : Nat := 0x3F800000

/-- Bit pattern of `5.0`. -/
def fFive : Nat := 0x40A00000

/-- Bit pattern of `-5.0`. -/
def fNegFive : Nat := 0xC0A00000

/-! ## Errors

The error taxonomy follows §7 of the specification: `assertion` is a failed
`assert_that!` (label + offset), `unknownDiscriminant` is a variant tag or
flag bitmask with no known mapping (raw value + offset, produced in the
source by the `from_bits(..).ok_or_else(..)` and `from_u32` `None` paths),
and `transport` is a failed underlying read. -/

inductive Error where
  | transport : Error
  | assertion : String → Nat → Error
  | unknownDiscriminant : Nat → Nat → Error
deriving Repr, DecidableEq

/-- `assert_that!(label, cond, offset)`: succeed iff the condition holds. -/
def guardA (label : String) (p : Prop) [Decidable p] (off : Nat) :
    Except Error Unit :=
  if p then .ok () else .error (.assertion label off)

/-- `assert_that!(label, bool v, offset)`: a strict boolean, only `0` and
`1` are accepted. -/
def assertBool (label : String) (v off : Nat) : Except Error Bool :=
  if v = 0 then .ok false
  else if v = 1 then .ok true
  else .error (.assertion label off)

/-- `bool_c!`: encode a boolean as `0`/`1`. -/
def boolC (b : Bool) : Nat := if b then 1 else 0

/-! ## CountingReader

`CountingReader` owns a byte stream (`inner`), the cumulative offset of the
next byte, and the offset at the start of the most recent transfer
(`prev`).  `read_exact` first performs the underlying transfer and only on
success sets `prev` to the old offset and advances `offset` (wrapping `u32`
arithmetic). -/

structure CountingReader where
  inner : List Nat
  offset : Nat
  prev : Nat
deriving Repr, DecidableEq

/-- `CountingReader::read_exact`, state-passing form: on failure of the
underlying transfer the error is returned and the reader is unchanged. -/
def CountingReader.readExactSt (r : CountingReader) (n : Nat) :
    Except Error (List Nat) × CountingReader :=
  if n ≤ r.inner.length then
    (.ok (r.inner.take n),
      ⟨r.inner.drop n, (r.offset + n % U32) % U32, r.offset⟩)
  else
    (.error .transport, r)

/-- `CountingReader::read_exact` in the `Except` convention used by the
decoders. -/
def CountingReader.readExact (r : CountingReader) (n : Nat) :
    Except Error (List Nat × CountingReader) :=
  match r.readExactSt n with
  | (.ok bs, r') => .ok (bs, r')
  | (.error e, _) => .error e

/-- `read_u32`. -/
def CountingReader.readU32 (r : CountingReader) :
    Except Error (Nat × CountingReader) := do
  let (bs, r') ← r.readExact 4
  .ok (leVal bs, r')

/-- `read_i32` (two's-complement bit pattern as a `Nat`). -/
def CountingReader.readI32 (r : CountingReader) :
    Except Error (Nat × CountingReader) := do
  let (bs, r') ← r.readExact 4
  .ok (leVal bs, r')

/-- `read_f32` (IEEE-754 bit pattern as a `Nat`). -/
def CountingReader.readF32 (r : CountingReader) :
    Except Error (Nat × CountingReader) := do
  let (bs, r') ← r.readExact 4
  .ok (leVal bs, r')

/-- `read_u16`. -/
def CountingReader.readU16 (r : CountingReader) :
    Except Error (Nat × CountingReader) := do
  let (bs, r') ← r.readExact 2
  .ok (leVal bs, r')

/-- `read_i16` (two's-complement bit pattern as a `Nat`). -/
def CountingReader.readI16 (r : CountingReader) :
    Except Error (Nat × CountingReader) := do
  let (bs, r') ← r.readExact 2
  .ok (leVal bs, r')

/-- `assert_end`: succeed iff no unconsumed bytes remain. -/
def CountingReader.assertEnd (r : CountingReader) : Except Error Unit :=
  match r.inner with
  | [] => .ok ()
  | _ => .error (.assertion "Expected all data to be read" r.offset)

/-! ## Fixed-string codec

Modelled from the spec: the fixed-string codec (`str_from_c_padded`,
`str_to_c_padded`, `str_from_c_suffix`, `str_to_c_suffix` of
`mech3ax-common/src/string.rs`) is not among the provided sources.  Per
§4.3: decoding takes the bytes before the first NUL (or the whole field if
none) and validates them as UTF-8, failing with a labeled, offset-tagged
error otherwise; encoding copies the string left-aligned and zero-fills the
remainder, overlong strings being a construction-time error.  Strings are
modelled as their UTF-8 byte lists. -/

/-- Bytes before the first NUL (the whole list if none). -/
def takeUntilNul : List Nat → List Nat
  | [] => []
  | b :: bs => if b = 0 then [] else b :: takeUntilNul bs

/-- Standard UTF-8 validity of a byte list (surrogates and overlong
encodings rejected). -/
def utf8Valid : List Nat → Bool
  | [] => true
  | b :: bs =>
    if b ≤ 0x7F then utf8Valid bs
    else
      match bs with
      | [] => false
      | c1 :: bs1 =>
        if 0xC2 ≤ b ∧ b ≤ 0xDF then
          decide (0x80 ≤ c1 ∧ c1 ≤ 0xBF) && utf8Valid bs1
        else
          match bs1 with
          | [] => false
          | c2 :: bs2 =>
            if b = 0xE0 then
              decide (0xA0 ≤ c1 ∧ c1 ≤ 0xBF) &&
                decide (0x80 ≤ c2 ∧ c2 ≤ 0xBF) && utf8Valid bs2
            else if (0xE1 ≤ b ∧ b ≤ 0xEC) ∨ b = 0xEE ∨ b = 0xEF then
              decide (0x80 ≤ c1 ∧ c1 ≤ 0xBF) &&
                decide (0x80 ≤ c2 ∧ c2 ≤ 0xBF) && utf8Valid bs2
            else if b = 0xED then
              decide (0x80 ≤ c1 ∧ c1 ≤ 0x9F) &&
                decide (0x80 ≤ c2 ∧ c2 ≤ 0xBF) && utf8Valid bs2
            else
              match bs2 with
              | [] => false
              | c3 :: bs3 =>
                if b = 0xF0 then
                  decide (0x90 ≤ c1 ∧ c1 ≤ 0xBF) &&
                    decide (0x80 ≤ c2 ∧ c2 ≤ 0xBF) &&
                    decide (0x80 ≤ c3 ∧ c3 ≤ 0xBF) && utf8Valid bs3
                else if 0xF1 ≤ b ∧ b ≤ 0xF3 then
                  decide (0x80 ≤ c1 ∧ c1 ≤ 0xBF) &&
                    decide (0x80 ≤ c2 ∧ c2 ≤ 0xBF) &&
                    decide (0x80 ≤ c3 ∧ c3 ≤ 0xBF) && utf8Valid bs3
                else if b = 0xF4 then
                  decide (0x80 ≤ c1 ∧ c1 ≤ 0x8F) &&
                    decide (0x80 ≤ c2 ∧ c2 ≤ 0xBF) &&
                    decide (0x80 ≤ c3 ∧ c3 ≤ 0xBF) && utf8Valid bs3
                else false

/-- Modelled from the spec: `str_from_c_padded` wrapped in `assert_utf8` —
take the bytes before the first NUL and require them to be valid UTF-8. -/
def strFromC (label : String) (off : Nat) (bs : List Nat) :
    Except Error (List Nat) :=
  let n := takeUntilNul bs
  if utf8Valid n then .ok n else .error (.assertion label off)

/-- Modelled from the spec: `str_to_c_padded` — copy the name left-aligned
into a `size`-byte buffer and zero-fill the remainder.  (Names longer than
the buffer were rejected at construction time; `take` keeps this total.) -/
def strToC (n : List Nat) (size : Nat) : List Nat :=
  (n ++ List.replicate (size - n.length) 0).take size

/-- A legally constructed fixed-field name: fits the field with its NUL
padding, has no NUL byte, bytes are in range and form valid UTF-8. -/
def WfName (n : List Nat) (size : Nat) : Prop :=
  n.length < size ∧ (∀ b ∈ n, 0 < b ∧ b < 256) ∧ utf8Valid n = true

instance (n : List Nat) (size : Nat) : Decidable (WfName n size) := by
  unfold WfName; infer_instance

/-! ## Cross-Reference Context

Modelled from the spec: `AnimDef` itself is not among the provided sources;
per §4.5 it exposes three ordered, index-stable name tables (nodes, lights,
sounds) with index→name lookups that fail on an out-of-range index (naming
the offset where the bad index was read) and name→index lookups that fail
for absent names. -/

structure AnimDef where
  nodes : List (List Nat)
  lights : List (List Nat)
  sounds : List (List Nat)
deriving Repr, DecidableEq

/-- Index→name lookup: a miss is a decode failure naming the offset. -/
def lookupName (tbl : List (List Nat)) (label : String) (i off : Nat) :
    Except Error (List Nat) :=
  match tbl[i]? with
  | some n => .ok n
  | none => .error (.assertion label off)

/-- Index of the first occurrence of a name in a table. -/
def idxOf (tbl : List (List Nat)) (n : List Nat) : Nat :=
  match tbl with
  | [] => 0
  | m :: rest => if m = n then 0 else idxOf rest n + 1

/-- Name→index lookup (encode side): fails for a name not in the table. -/
def nameToIndex (tbl : List (List Nat)) (label : String) (n : List Nat) :
    Except Error Nat :=
  if n ∈ tbl then .ok (idxOf tbl n) else .error (.assertion label 0)

/-- Modelled from the spec: the special "input node" sentinel name
(`INPUT_NODE` of `sequence_event/types.rs`, not among the provided
sources). -/
def INPUT_NODE : List Nat := [73, 78, 80, 85, 84, 95, 78, 79, 68, 69]

/-! ## Object opacity state (`sequence_event/object_opacity_state.rs`)

12-byte record: `is_set: u16, state: u16, opacity: f32, node_index: u32`. -/

structure ObjectOpacityState where
  node : List Nat
  is_set : Bool
  state : Bool
  opacity : Nat
deriving Repr, DecidableEq

/-- `ObjectOpacityState::read`. -/
def ObjectOpacityState.read (r : CountingReader) (ad : AnimDef)
    (size : Nat) : Except Error (ObjectOpacityState × CountingReader) := do
  let _ ← guardA "object opacity state size" (size = 12) r.offset
  let (bs, r) ← r.readExact 12
  let is_set ← assertBool "object opacity state is set" (field bs 0 2)
    (r.prev + 0)
  let state ← assertBool "object opacity state state" (field bs 2 2)
    (r.prev + 2)
  let _ ← guardA "object opacity state opacity"
    (f32Le fZero (field bs 4 4) ∧ f32Le (field bs 4 4) fOne) (r.prev + 4)
  let node ← lookupName ad.nodes "object opacity state node" (field bs 8 4)
    (r.prev + 8)
  .ok (⟨node, is_set, state, field bs 4 4⟩, r)

/-- `ObjectOpacityState::write`. -/
def ObjectOpacityState.write (v : ObjectOpacityState) (ad : AnimDef) :
    Except Error (List Nat) := do
  let idx ← nameToIndex ad.nodes "node to index" v.node
  .ok (leBytes 2 (boolC v.is_set) ++ leBytes 2 (boolC v.state) ++
    leBytes 4 v.opacity ++ leBytes 4 (idx % U32))

/-- A legally constructed object-opacity-state value: the node is in the
context's node table (which fits `u32` indices), and the opacity is a
32-bit pattern within `[0.0, 1.0]` as the decoder demands. -/
def ObjectOpacityState.Wf (ad : AnimDef) (v : ObjectOpacityState) : Prop :=
  v.node ∈ ad.nodes ∧ ad.nodes.length ≤ U32 ∧ v.opacity < U32 ∧
    f32Le fZero v.opacity = true ∧ f32Le v.opacity fOne = true

instance (ad : AnimDef) (v : ObjectOpacityState) :
    Decidable (ObjectOpacityState.Wf ad v) := by
  unfold ObjectOpacityState.Wf; infer_instance

/-! ## Bit-flag infrastructure

A `bitflags!` set is embedded as a structure of `Bool`s plus a
`toBits`/`ofBits` pair; `ofBits` mirrors `from_bits`, returning `none` when
any bit outside the known set is set. -/

/-- Pack a list of bits (LSB first) into a natural number. -/
def bitsOf : List Bool → Nat
  | [] => 0
  | b :: bs => boolC b + 2 * bitsOf bs

/-- `u32` truncation (`as u32` casts and wrapping stores). -/
def m32 (x : Nat) : Nat := x % U32

/-! ## Vectors -/

structure Vec3 where
  x : Nat
  y : Nat
  z : Nat
deriving Repr, DecidableEq

/-- `Vec3::EMPTY`. -/
def Vec3.EMPTY : Vec3 := ⟨0, 0, 0⟩

/-- `v == Vec3::EMPTY` (componentwise IEEE float equality). -/
def vec3EqZero (v : Vec3) : Bool :=
  f32Eq v.x fZero && f32Eq v.y fZero && f32Eq v.z fZero

/-- All components are 32-bit patterns. -/
def Vec3.wf (v : Vec3) : Prop := v.x < U32 ∧ v.y < U32 ∧ v.z < U32

instance (v : Vec3) : Decidable v.wf := by unfold Vec3.wf; infer_instance

def leVec3 (v : Vec3) : List Nat :=
  leBytes 4 v.x ++ leBytes 4 v.y ++ leBytes 4 v.z

def vec3At (bs : List Nat) (off : Nat) : Vec3 :=
  ⟨field bs off 4, field bs (off + 4) 4, field bs (off + 8) 4⟩

def Vec3.mod32 (v : Vec3) : Vec3 := ⟨m32 v.x, m32 v.y, m32 v.z⟩

/-- Presence of an optional group's payload predicate. -/
def OptWf {α : Type} (p : α → Prop) : Option α → Prop
  | none => True
  | some a => p a

instance {α : Type} (p : α → Prop) [DecidablePred p] (o : Option α) :
    Decidable (OptWf p o) := by
  cases o <;> unfold OptWf <;> infer_instance

/-! ## Object motion from-to (`sequence_event/object_motion_from_to.rs`)

132-byte record, four flag bits (translate/rotate/scale/morph), each
guarding a from/to/delta triple; the runtime is always required `> 0.0`. -/

structure ObjectMotionFromToFlags where
  translate : Bool
  rotate : Bool
  scale : Bool
  morph : Bool
deriving Repr, DecidableEq

def ObjectMotionFromToFlags.toBits (f : ObjectMotionFromToFlags) : Nat :=
  bitsOf [f.translate, f.rotate, f.scale, f.morph]

/-- `ObjectMotionFromToFlags::from_bits`: any bit outside the known set (the
low four bits) makes the whole word invalid. -/
def ObjectMotionFromToFlags.ofBits (raw : Nat) :
    Option ObjectMotionFromToFlags :=
  if raw &&& 0xFFFFFFF0 = 0 then
    some ⟨raw.testBit 0, raw.testBit 1, raw.testBit 2, raw.testBit 3⟩
  else none

/-- The `from_bits(..).ok_or_else(..)` pattern of the source, with the
spec's `UnknownDiscriminant` error. -/
def ObjectMotionFromToFlags.parse (raw off : Nat) :
    Except Error ObjectMotionFromToFlags :=
  match ObjectMotionFromToFlags.ofBits raw with
  | some fm => .ok fm
  | none => .error (.unknownDiscriminant raw off)

structure FloatFromTo where
  from_ : Nat
  to_ : Nat
  delta : Nat
deriving Repr, DecidableEq

structure Vec3FromTo where
  from_ : Vec3
  to_ : Vec3
  delta : Vec3
deriving Repr, DecidableEq

def FloatFromTo.wf (m : FloatFromTo) : Prop :=
  m.from_ < U32 ∧ m.to_ < U32 ∧ m.delta < U32

instance (m : FloatFromTo) : Decidable m.wf := by
  unfold FloatFromTo.wf; infer_instance

def Vec3FromTo.wf (m : Vec3FromTo) : Prop :=
  m.from_.wf ∧ m.to_.wf ∧ m.delta.wf

instance (m : Vec3FromTo) : Decidable m.wf := by
  unfold Vec3FromTo.wf; infer_instance

structure ObjectMotionFromTo where
  node : List Nat
  run_time : Nat
  morph : Option FloatFromTo
  translate : Option Vec3FromTo
  rotate : Option Vec3FromTo
  scale : Option Vec3FromTo
deriving Repr, DecidableEq

/-- The raw 132-byte layout of `ObjectMotionFromToC` (offsets as in the
source comments). -/
structure ObjectMotionFromToC where
  flags : Nat
  node_index : Nat
  morph_from : Nat
  morph_to : Nat
  morph_delta : Nat
  translate_from : Vec3
  translate_to : Vec3
  translate_delta : Vec3
  rotate_from : Vec3
  rotate_to : Vec3
  rotate_delta : Vec3
  scale_from : Vec3
  scale_to : Vec3
  scale_delta : Vec3
  run_time : Nat
deriving Repr, DecidableEq

def ObjectMotionFromToC.toBytes (c : ObjectMotionFromToC) : List Nat :=
  leBytes 4 c.flags ++ leBytes 4 c.node_index ++
  leBytes 4 c.morph_from ++ leBytes 4 c.morph_to ++ leBytes 4 c.morph_delta ++
  leVec3 c.translate_from ++ leVec3 c.translate_to ++
  leVec3 c.translate_delta ++
  leVec3 c.rotate_from ++ leVec3 c.rotate_to ++ leVec3 c.rotate_delta ++
  leVec3 c.scale_from ++ leVec3 c.scale_to ++ leVec3 c.scale_delta ++
  leBytes 4 c.run_time

def ObjectMotionFromToC.ofBytes (bs : List Nat) : ObjectMotionFromToC where
  flags := field bs 0 4
  node_index := field bs 4 4
  morph_from := field bs 8 4
  morph_to := field bs 12 4
  morph_delta := field bs 16 4
  translate_from := vec3At bs 20
  translate_to := vec3At bs 32
  translate_delta := vec3At bs 44
  rotate_from := vec3At bs 56
  rotate_to := vec3At bs 68
  rotate_delta := vec3At bs 80
  scale_from := vec3At bs 92
  scale_to := vec3At bs 104
  scale_delta := vec3At bs 116
  run_time := field bs 128 4

def ObjectMotionFromToC.mod32 (c : ObjectMotionFromToC) :
    ObjectMotionFromToC where
  flags := m32 c.flags
  node_index := m32 c.node_index
  morph_from := m32 c.morph_from
  morph_to := m32 c.morph_to
  morph_delta := m32 c.morph_delta
  translate_from := c.translate_from.mod32
  translate_to := c.translate_to.mod32
  translate_delta := c.translate_delta.mod32
  rotate_from := c.rotate_from.mod32
  rotate_to := c.rotate_to.mod32
  rotate_delta := c.rotate_delta.mod32
  scale_from := c.scale_from.mod32
  scale_to := c.scale_to.mod32
  scale_delta := c.scale_delta.mod32
  run_time := m32 c.run_time

/-- The morph group of `ObjectMotionFromTo::read`. -/
def readFtMorph (fm : ObjectMotionFromToFlags) (c : ObjectMotionFromToC)
    (prev : Nat) : Except Error (Option FloatFromTo) :=
  if fm.morph then
    .ok (some ⟨c.morph_from, c.morph_to, c.morph_delta⟩)
  else do
    let _ ← guardA "object motion morph from" (f32Eq c.morph_from fZero)
      (prev + 8)
    let _ ← guardA "object motion morph to" (f32Eq c.morph_to fZero)
      (prev + 12)
    let _ ← guardA "object motion morph delta" (f32Eq c.morph_delta fZero)
      (prev + 16)
    .ok none

/-- The translate group of `ObjectMotionFromTo::read`. -/
def readFtTranslate (fm : ObjectMotionFromToFlags) (c : ObjectMotionFromToC)
    (prev : Nat) : Except Error (Option Vec3FromTo) :=
  if fm.translate then
    .ok (some ⟨c.translate_from, c.translate_to, c.translate_delta⟩)
  else do
    let _ ← guardA "object motion translate from"
      (vec3EqZero c.translate_from) (prev + 20)
    let _ ← guardA "object motion translate to"
      (vec3EqZero c.translate_to) (prev + 32)
    let _ ← guardA "object motion translate delta"
      (vec3EqZero c.translate_delta) (prev + 44)
    .ok none

/-- The rotate group of `ObjectMotionFromTo::read`. -/
def readFtRotate (fm : ObjectMotionFromToFlags) (c : ObjectMotionFromToC)
    (prev : Nat) : Except Error (Option Vec3FromTo) :=
  if fm.rotate then
    .ok (some ⟨c.rotate_from, c.rotate_to, c.rotate_delta⟩)
  else do
    let _ ← guardA "object motion rotate from" (vec3EqZero c.rotate_from)
      (prev + 56)
    let _ ← guardA "object motion rotate to" (vec3EqZero c.rotate_to)
      (prev + 68)
    let _ ← guardA "object motion rotate delta" (vec3EqZero c.rotate_delta)
      (prev + 80)
    .ok none

/-- The scale group of `ObjectMotionFromTo::read`. -/
def readFtScale (fm : ObjectMotionFromToFlags) (c : ObjectMotionFromToC)
    (prev : Nat) : Except Error (Option Vec3FromTo) :=
  if fm.scale then
    .ok (some ⟨c.scale_from, c.scale_to, c.scale_delta⟩)
  else do
    let _ ← guardA "object motion scale from" (vec3EqZero c.scale_from)
      (prev + 92)
    let _ ← guardA "object motion scale to" (vec3EqZero c.scale_to)
      (prev + 104)
    let _ ← guardA "object motion scale delta" (vec3EqZero c.scale_delta)
      (prev + 116)
    .ok none

/-- The body of `ObjectMotionFromTo::read` after the raw struct transfer
(`prev` is the offset of the record start). -/
def ObjectMotionFromTo.validate (c : ObjectMotionFromToC) (prev : Nat)
    (ad : AnimDef) : Except Error ObjectMotionFromTo := do
  let fm ← ObjectMotionFromToFlags.parse c.flags (prev + 0)
  let node ← lookupName ad.nodes "object motion from to node" c.node_index
    (prev + 4)
  let morph ← readFtMorph fm c prev
  let translate ← readFtTranslate fm c prev
  let rotate ← readFtRotate fm c prev
  let scale ← readFtScale fm c prev
  let _ ← guardA "object motion from to runtime" (f32Gt c.run_time fZero)
    (prev + 128)
  .ok ⟨node, c.run_time, morph, translate, rotate, scale⟩

/-- `ObjectMotionFromTo::read`. -/
def ObjectMotionFromTo.read (r : CountingReader) (ad : AnimDef)
    (size : Nat) : Except Error (ObjectMotionFromTo × CountingReader) := do
  let _ ← guardA "object motion from to size" (size = 132) r.offset
  let (bs, r) ← r.readExact 132
  let v ← ObjectMotionFromTo.validate (ObjectMotionFromToC.ofBytes bs)
    r.prev ad
  .ok (v, r)

def zeroF3 : FloatFromTo := ⟨fZero, fZero, fZero⟩

def zeroV3 : Vec3FromTo := ⟨Vec3.EMPTY, Vec3.EMPTY, Vec3.EMPTY⟩

def ObjectMotionFromTo.flagsOf (v : ObjectMotionFromTo) :
    ObjectMotionFromToFlags :=
  ⟨v.translate.isSome, v.rotate.isSome, v.scale.isSome, v.morph.isSome⟩

/-- The raw struct built by `ObjectMotionFromTo::write` (given the resolved
node index). -/
def ObjectMotionFromTo.mkC (v : ObjectMotionFromTo) (idx : Nat) :
    ObjectMotionFromToC where
  flags := (ObjectMotionFromTo.flagsOf v).toBits
  node_index := m32 idx
  morph_from := (v.morph.getD zeroF3).from_
  morph_to := (v.morph.getD zeroF3).to_
  morph_delta := (v.morph.getD zeroF3).delta
  translate_from := (v.translate.getD zeroV3).from_
  translate_to := (v.translate.getD zeroV3).to_
  translate_delta := (v.translate.getD zeroV3).delta
  rotate_from := (v.rotate.getD zeroV3).from_
  rotate_to := (v.rotate.getD zeroV3).to_
  rotate_delta := (v.rotate.getD zeroV3).delta
  scale_from := (v.scale.getD zeroV3).from_
  scale_to := (v.scale.getD zeroV3).to_
  scale_delta := (v.scale.getD zeroV3).delta
  run_time := v.run_time

/-- `ObjectMotionFromTo::write`. -/
def ObjectMotionFromTo.write (v : ObjectMotionFromTo) (ad : AnimDef) :
    Except Error (List Nat) := do
  let idx ← nameToIndex ad.nodes "node to index" v.node
  .ok (ObjectMotionFromTo.mkC v idx).toBytes

/-- A legally constructed object-motion-from-to value: node resolvable,
all float patterns 32-bit, runtime positive. -/
def ObjectMotionFromTo.Wf (ad : AnimDef) (v : ObjectMotionFromTo) : Prop :=
  v.node ∈ ad.nodes ∧ ad.nodes.length ≤ U32 ∧
    OptWf FloatFromTo.wf v.morph ∧ OptWf Vec3FromTo.wf v.translate ∧
    OptWf Vec3FromTo.wf v.rotate ∧ OptWf Vec3FromTo.wf v.scale ∧
    v.run_time < U32 ∧ f32Gt v.run_time fZero = true

instance (ad : AnimDef) (v : ObjectMotionFromTo) :
    Decidable (ObjectMotionFromTo.Wf ad v) := by
  unfold ObjectMotionFromTo.Wf; infer_instance

/-! ## Object connector (`sequence_event/object_connector.rs`)

76-byte record, nine known flag bits; each endpoint is one of: a resolved
node index, the input-node sentinel, or absent (with a separate literal
position group), validated mutually exclusive. -/

structure ObjectConnectorFlags where
  from_node : Bool
  from_input_node : Bool
  from_pos : Bool
  from_input_pos : Bool
  to_node : Bool
  to_input_node : Bool
  to_pos : Bool
  to_input_pos : Bool
  max_length : Bool
deriving Repr, DecidableEq

/-- Known bits: 0, 1, 3, 4, 5, 6, 8, 9, 15 (bits 2, 7 and 10–14 unused). -/
def ObjectConnectorFlags.toBits (f : ObjectConnectorFlags) : Nat :=
  bitsOf [f.from_node, f.from_input_node, false, f.from_pos,
    f.from_input_pos, f.to_node, f.to_input_node, false, f.to_pos,
    f.to_input_pos, false, false, false, false, false, f.max_length]

/-- `ObjectConnectorFlags::from_bits` (mask complement of `0x837B`). -/
def ObjectConnectorFlags.ofBits (raw : Nat) : Option ObjectConnectorFlags :=
  if raw &&& 0xFFFF7C84 = 0 then
    some ⟨raw.testBit 0, raw.testBit 1, raw.testBit 3, raw.testBit 4,
      raw.testBit 5, raw.testBit 6, raw.testBit 8, raw.testBit 9,
      raw.testBit 15⟩
  else none

def ObjectConnectorFlags.parse (raw off : Nat) :
    Except Error ObjectConnectorFlags :=
  match ObjectConnectorFlags.ofBits raw with
  | some fm => .ok fm
  | none => .error (.unknownDiscriminant raw off)

structure ObjectConnector where
  node : List Nat
  from_node : Option (List Nat)
  to_node : Option (List Nat)
  from_pos : Option Vec3
  to_pos : Option Vec3
  max_length : Option Nat
deriving Repr, DecidableEq

/-- The raw 76-byte layout of `ObjectConnectorC`. -/
structure ObjectConnectorC where
  flags : Nat
  node_index : Nat
  from_index : Nat
  to_index : Nat
  pad10 : Nat
  from_pos : Vec3
  to_pos : Vec3
  zero36 : Nat
  zero40 : Nat
  zero44 : Nat
  zero48 : Nat
  one52 : Nat
  one56 : Nat
  zero60 : Nat
  zero64 : Nat
  zero68 : Nat
  max_length : Nat
deriving Repr, DecidableEq

def ObjectConnectorC.toBytes (c : ObjectConnectorC) : List Nat :=
  leBytes 4 c.flags ++ leBytes 2 c.node_index ++ leBytes 2 c.from_index ++
  leBytes 2 c.to_index ++ leBytes 2 c.pad10 ++ leVec3 c.from_pos ++
  leVec3 c.to_pos ++ leBytes 4 c.zero36 ++ leBytes 4 c.zero40 ++
  leBytes 4 c.zero44 ++ leBytes 4 c.zero48 ++ leBytes 4 c.one52 ++
  leBytes 4 c.one56 ++ leBytes 4 c.zero60 ++ leBytes 4 c.zero64 ++
  leBytes 4 c.zero68 ++ leBytes 4 c.max_length

def ObjectConnectorC.ofBytes (bs : List Nat) : ObjectConnectorC where
  flags := field bs 0 4
  node_index := field bs 4 2
  from_index := field bs 6 2
  to_index := field bs 8 2
  pad10 := field bs 10 2
  from_pos := vec3At bs 12
  to_pos := vec3At bs 24
  zero36 := field bs 36 4
  zero40 := field bs 40 4
  zero44 := field bs 44 4
  zero48 := field bs 48 4
  one52 := field bs 52 4
  one56 := field bs 56 4
  zero60 := field bs 60 4
  zero64 := field bs 64 4
  zero68 := field bs 68 4
  max_length := field bs 72 4

def m16 (x : Nat) : Nat := x % 65536

def ObjectConnectorC.modW (c : ObjectConnectorC) : ObjectConnectorC where
  flags := m32 c.flags
  node_index := m16 c.node_index
  from_index := m16 c.from_index
  to_index := m16 c.to_index
  pad10 := m16 c.pad10
  from_pos := c.from_pos.mod32
  to_pos := c.to_pos.mod32
  zero36 := m32 c.zero36
  zero40 := m32 c.zero40
  zero44 := m32 c.zero44
  zero48 := m32 c.zero48
  one52 := m32 c.one52
  one56 := m32 c.one56
  zero60 := m32 c.zero60
  zero64 := m32 c.zero64
  zero68 := m32 c.zero68
  max_length := m32 c.max_length

/-- The from-endpoint block of `ObjectConnector::read`. -/
def readConnFromNode (fm : ObjectConnectorFlags) (c : ObjectConnectorC)
    (ad : AnimDef) (prev : Nat) : Except Error (Option (List Nat)) :=
  if fm.from_node then do
    let _ ← guardA "object connector from input node"
      (fm.from_input_node = false) (prev + 0)
    let _ ← guardA "object connector from input pos"
      (fm.from_input_pos = false) (prev + 0)
    let n ← lookupName ad.nodes "object connector from node" c.from_index
      (prev + 6)
    .ok (some n)
  else if fm.from_input_node then do
    let _ ← guardA "object connector from input pos"
      (fm.from_input_pos = false) (prev + 0)
    .ok (some INPUT_NODE)
  else do
    let _ ← guardA "object connector from input pos"
      (fm.from_input_pos = true) (prev + 0)
    .ok none

/-- The to-endpoint block of `ObjectConnector::read`. -/
def readConnToNode (fm : ObjectConnectorFlags) (c : ObjectConnectorC)
    (ad : AnimDef) (prev : Nat) : Except Error (Option (List Nat)) :=
  if fm.to_node then do
    let _ ← guardA "object connector to input node"
      (fm.to_input_node = false) (prev + 0)
    let _ ← guardA "object connector to input pos"
      (fm.to_input_pos = false) (prev + 0)
    let n ← lookupName ad.nodes "object connector to node" c.to_index
      (prev + 8)
    .ok (some n)
  else if fm.to_input_node then do
    let _ ← guardA "object connector to input pos"
      (fm.to_input_pos = false) (prev + 0)
    .ok (some INPUT_NODE)
  else do
    let _ ← guardA "object connector to input pos"
      (fm.to_input_pos = true) (prev + 0)
    .ok none

/-- The from-position block of `ObjectConnector::read`. -/
def readConnFromPos (fm : ObjectConnectorFlags) (c : ObjectConnectorC)
    (prev : Nat) : Except Error (Option Vec3) :=
  if fm.from_pos then do
    let _ ← guardA "object connector from input pos"
      (fm.from_input_pos = false) (prev + 0)
    .ok (some c.from_pos)
  else do
    let _ ← guardA "object connector from pos" (vec3EqZero c.from_pos)
      (prev + 12)
    .ok none

/-- The to-position block of `ObjectConnector::read` (the source reuses the
"from input pos" label here). -/
def readConnToPos (fm : ObjectConnectorFlags) (c : ObjectConnectorC)
    (prev : Nat) : Except Error (Option Vec3) :=
  if fm.to_pos then do
    let _ ← guardA "object connector from input pos"
      (fm.to_input_pos = false) (prev + 0)
    .ok (some c.to_pos)
  else do
    let _ ← guardA "object connector to pos" (vec3EqZero c.to_pos)
      (prev + 24)
    .ok none

/-- The max-length block of `ObjectConnector::read`. -/
def readConnMaxLength (fm : ObjectConnectorFlags) (c : ObjectConnectorC)
    (prev : Nat) : Except Error (Option Nat) :=
  if fm.max_length then do
    let _ ← guardA "object connector max length" (f32Gt c.max_length fZero)
      (prev + 72)
    .ok (some c.max_length)
  else do
    let _ ← guardA "object connector max length" (f32Eq c.max_length fZero)
      (prev + 72)
    .ok none

/-- The body of `ObjectConnector::read` after the raw transfer. -/
def ObjectConnector.validate (c : ObjectConnectorC) (prev : Nat)
    (ad : AnimDef) : Except Error ObjectConnector := do
  let fm ← ObjectConnectorFlags.parse c.flags (prev + 0)
  let _ ← guardA "object connector field 10" (c.pad10 = 0) (prev + 10)
  let node ← lookupName ad.nodes "object connector node" c.node_index
    (prev + 4)
  let from_node ← readConnFromNode fm c ad prev
  let to_node ← readConnToNode fm c ad prev
  let from_pos ← readConnFromPos fm c prev
  let to_pos ← readConnToPos fm c prev
  let _ ← guardA "object connector field 36" (f32Eq c.zero36 fZero)
    (prev + 36)
  let _ ← guardA "object connector field 40" (f32Eq c.zero40 fZero)
    (prev + 40)
  let _ ← guardA "object connector field 44" (f32Eq c.zero44 fZero)
    (prev + 44)
  let _ ← guardA "object connector field 48" (f32Eq c.zero48 fZero)
    (prev + 48)
  let _ ← guardA "object connector field 52" (f32Eq c.one52 fOne)
    (prev + 52)
  let _ ← guardA "object connector field 56" (f32Eq c.one56 fOne)
    (prev + 56)
  let _ ← guardA "object connector field 60" (f32Eq c.zero60 fZero)
    (prev + 60)
  let _ ← guardA "object connector field 64" (f32Eq c.zero64 fZero)
    (prev + 64)
  let _ ← guardA "object connector field 68" (f32Eq c.zero68 fZero)
    (prev + 68)
  let max_length ← readConnMaxLength fm c prev
  .ok ⟨node, from_node, to_node, from_pos, to_pos, max_length⟩

/-- `ObjectConnector::read`. -/
def ObjectConnector.read (r : CountingReader) (ad : AnimDef) (size : Nat) :
    Except Error (ObjectConnector × CountingReader) := do
  let _ ← guardA "object connector size" (size = 76) r.offset
  let (bs, r) ← r.readExact 76
  let v ← ObjectConnector.validate (ObjectConnectorC.ofBytes bs) r.prev ad
  .ok (v, r)

def ObjectConnector.flagsOf (v : ObjectConnector) : ObjectConnectorFlags
    where
  from_node := match v.from_node with
    | some n => decide (n ≠ INPUT_NODE)
    | none => false
  from_input_node := match v.from_node with
    | some n => decide (n = INPUT_NODE)
    | none => false
  from_pos := v.from_pos.isSome
  from_input_pos := v.from_node.isNone
  to_node := match v.to_node with
    | some n => decide (n ≠ INPUT_NODE)
    | none => false
  to_input_node := match v.to_node with
    | some n => decide (n = INPUT_NODE)
    | none => false
  to_pos := v.to_pos.isSome
  to_input_pos := v.to_node.isNone
  max_length := v.max_length.isSome

/-- Endpoint index resolution of `ObjectConnector::write`. -/
def connEndpointIndex (o : Option (List Nat)) (ad : AnimDef) :
    Except Error Nat :=
  match o with
  | some n =>
    if n = INPUT_NODE then .ok 0
    else nameToIndex ad.nodes "node to index" n
  | none => .ok 0

/-- The raw struct built by `ObjectConnector::write` (with the resolved
indices). -/
def ObjectConnector.mkC (v : ObjectConnector) (ni fi ti : Nat) :
    ObjectConnectorC where
  flags := (ObjectConnector.flagsOf v).toBits
  node_index := m16 ni
  from_index := m16 fi
  to_index := m16 ti
  pad10 := 0
  from_pos := v.from_pos.getD Vec3.EMPTY
  to_pos := v.to_pos.getD Vec3.EMPTY
  zero36 := fZero
  zero40 := fZero
  zero44 := fZero
  zero48 := fZero
  one52 := fOne
  one56 := fOne
  zero60 := fZero
  zero64 := fZero
  zero68 := fZero
  max_length := v.max_length.getD fZero

/-- `ObjectConnector::write`. -/
def ObjectConnector.write (v : ObjectConnector) (ad : AnimDef) :
    Except Error (List Nat) := do
  let ni ← nameToIndex ad.nodes "node to index" v.node
  let fi ← connEndpointIndex v.from_node ad
  let ti ← connEndpointIndex v.to_node ad
  .ok (ObjectConnector.mkC v ni fi ti).toBytes

/-- A legally constructed object-connector value. -/
def ObjectConnector.Wf (ad : AnimDef) (v : ObjectConnector) : Prop :=
  v.node ∈ ad.nodes ∧ ad.nodes.length ≤ 65536 ∧
    OptWf (fun n => n = INPUT_NODE ∨ n ∈ ad.nodes) v.from_node ∧
    OptWf (fun n => n = INPUT_NODE ∨ n ∈ ad.nodes) v.to_node ∧
    (v.from_node = none → v.from_pos = none) ∧
    (v.to_node = none → v.to_pos = none) ∧
    OptWf Vec3.wf v.from_pos ∧ OptWf Vec3.wf v.to_pos ∧
    OptWf (fun m => m < U32 ∧ f32Gt m fZero = true) v.max_length

instance (ad : AnimDef) (v : ObjectConnector) :
    Decidable (ObjectConnector.Wf ad v) := by
  unfold ObjectConnector.Wf; infer_instance

/-! ## Light animation (`sequence_event/light_animation.rs`)

100-byte record without flags: the light name is stored both as a 32-byte
literal and as a light-table index, and the two resolutions must agree. -/

structure Vec2 where
  x : Nat
  y : Nat
deriving Repr, DecidableEq

def Vec2.wf (v : Vec2) : Prop := v.x < U32 ∧ v.y < U32

instance (v : Vec2) : Decidable v.wf := by unfold Vec2.wf; infer_instance

structure LightAnimation where
  name : List Nat
  range : Vec2
  color : Vec3
  runtime : Nat
deriving Repr, DecidableEq

/-- The raw 100-byte layout of `LightAnimationC`. -/
structure LightAnimationC where
  name : List Nat
  light_index : Nat
  range : Vec2
  zero44 : Nat
  zero48 : Nat
  zero52 : Nat
  zero56 : Nat
  color : Vec3
  zero72 : Nat
  zero76 : Nat
  zero80 : Nat
  zero84 : Nat
  zero88 : Nat
  zero92 : Nat
  runtime : Nat
deriving Repr, DecidableEq

def LightAnimationC.toBytes (c : LightAnimationC) : List Nat :=
  c.name ++ leBytes 4 c.light_index ++ leBytes 4 c.range.x ++
  leBytes 4 c.range.y ++ leBytes 4 c.zero44 ++ leBytes 4 c.zero48 ++
  leBytes 4 c.zero52 ++ leBytes 4 c.zero56 ++ leVec3 c.color ++
  leBytes 4 c.zero72 ++ leBytes 4 c.zero76 ++ leBytes 4 c.zero80 ++
  leBytes 4 c.zero84 ++ leBytes 4 c.zero88 ++ leBytes 4 c.zero92 ++
  leBytes 4 c.runtime

def LightAnimationC.ofBytes (bs : List Nat) : LightAnimationC where
  name := bytesAt bs 0 32
  light_index := field bs 32 4
  range := ⟨field bs 36 4, field bs 40 4⟩
  zero44 := field bs 44 4
  zero48 := field bs 48 4
  zero52 := field bs 52 4
  zero56 := field bs 56 4
  color := vec3At bs 60
  zero72 := field bs 72 4
  zero76 := field bs 76 4
  zero80 := field bs 80 4
  zero84 := field bs 84 4
  zero88 := field bs 88 4
  zero92 := field bs 92 4
  runtime := field bs 96 4

/-- The near/far range check of `LightAnimation::read`: the far value must
lie on the same side of the near value as the near value's sign. -/
def lightRangeCheck (range : Vec2) (prev : Nat) : Except Error Unit :=
  if f32Ge range.x fZero then
    guardA "light anim range far" (f32Ge range.y range.x) (prev + 40)
  else
    guardA "light anim range far" (f32Le range.y range.x) (prev + 40)

/-- `LightAnimation::read` body after the raw transfer. -/
def LightAnimation.validate (c : LightAnimationC) (prev : Nat)
    (ad : AnimDef) : Except Error LightAnimation := do
  let actual_name ← strFromC "light anim name" (prev + 0) c.name
  let expected_name ← lookupName ad.lights "light anim light"
    c.light_index (prev + 32)
  let _ ← guardA "light anim name" (actual_name = expected_name)
    (prev + 32)
  let _ ← lightRangeCheck c.range prev
  let _ ← guardA "light anim field 44" (c.zero44 = 0) (prev + 44)
  let _ ← guardA "light anim field 48" (c.zero48 = 0) (prev + 48)
  let _ ← guardA "light anim field 52" (c.zero52 = 0) (prev + 52)
  let _ ← guardA "light anim field 56" (c.zero56 = 0) (prev + 56)
  let _ ← guardA "light anim color red"
    (f32Le fNegFive c.color.x ∧ f32Le c.color.x fFive) (prev + 60)
  let _ ← guardA "light anim color green"
    (f32Le fNegFive c.color.y ∧ f32Le c.color.y fFive) (prev + 64)
  let _ ← guardA "light anim color blue"
    (f32Le fNegFive c.color.z ∧ f32Le c.color.z fFive) (prev + 68)
  let _ ← guardA "light anim field 72" (f32Eq c.zero72 fZero) (prev + 72)
  let _ ← guardA "light anim field 76" (f32Eq c.zero76 fZero) (prev + 76)
  let _ ← guardA "light anim field 80" (f32Eq c.zero80 fZero) (prev + 80)
  let _ ← guardA "light anim field 84" (f32Eq c.zero84 fZero) (prev + 84)
  let _ ← guardA "light anim field 88" (f32Eq c.zero88 fZero) (prev + 88)
  let _ ← guardA "light anim field 92" (f32Eq c.zero92 fZero) (prev + 92)
  let _ ← guardA "light anim runtime" (f32Gt c.runtime fZero) (prev + 96)
  .ok ⟨actual_name, c.range, c.color, c.runtime⟩

/-- `LightAnimation::read`. -/
def LightAnimation.read (r : CountingReader) (ad : AnimDef) (size : Nat) :
    Except Error (LightAnimation × CountingReader) := do
  let _ ← guardA "light animation size" (size = 100) r.offset
  let (bs, r) ← r.readExact 100
  let v ← LightAnimation.validate (LightAnimationC.ofBytes bs) r.prev ad
  .ok (v, r)

/-- The raw struct built by `LightAnimation::write`. -/
def LightAnimation.mkC (v : LightAnimation) (idx : Nat) : LightAnimationC
    where
  name := strToC v.name 32
  light_index := m32 idx
  range := v.range
  zero44 := 0
  zero48 := 0
  zero52 := 0
  zero56 := 0
  color := v.color
  zero72 := fZero
  zero76 := fZero
  zero80 := fZero
  zero84 := fZero
  zero88 := fZero
  zero92 := fZero
  runtime := v.runtime

/-- `LightAnimation::write`. -/
def LightAnimation.write (v : LightAnimation) (ad : AnimDef) :
    Except Error (List Nat) := do
  let idx ← nameToIndex ad.lights "light to index" v.name
  .ok (LightAnimation.mkC v idx).toBytes

/-- A legally constructed light-animation value. -/
def LightAnimation.Wf (ad : AnimDef) (v : LightAnimation) : Prop :=
  WfName v.name 32 ∧ v.name ∈ ad.lights ∧ ad.lights.length ≤ U32 ∧
    v.range.wf ∧
    (if f32Ge v.range.x fZero then f32Ge v.range.y v.range.x = true
      else f32Le v.range.y v.range.x = true) ∧
    v.color.wf ∧
    (f32Le fNegFive v.color.x = true ∧ f32Le v.color.x fFive = true) ∧
    (f32Le fNegFive v.color.y = true ∧ f32Le v.color.y fFive = true) ∧
    (f32Le fNegFive v.color.z = true ∧ f32Le v.color.z fFive = true) ∧
    v.runtime < U32 ∧ f32Gt v.runtime fZero = true

instance (ad : AnimDef) (v : LightAnimation) :
    Decidable (LightAnimation.Wf ad v) := by
  unfold LightAnimation.Wf; infer_instance

/-! ## Call object connector (`sequence_event/call_object_connector.rs`)

68-byte record with a single known flag constant `1024 | 512 | 2`; any
other flag word is rejected.  The to-endpoint is always the input node. -/

/-- `FLAGS: u32 = 1024 | 512 | 2`. -/
def CALL_OBJECT_CONNECTOR_FLAGS : Nat := 1538

structure CallObjectConnector where
  node : List Nat
  from_node : List Nat
  to_node : List Nat
  to_pos : Vec3
deriving Repr, DecidableEq

/-- The raw 68-byte layout of `CallObjectConnectorC`. -/
structure CallObjectConnectorC where
  flags : Nat
  node : List Nat
  node_index : Nat
  save_index : Nat
  from_index : Nat
  to_index : Nat
  from_pos : Vec3
  to_pos : Vec3
deriving Repr, DecidableEq

def CallObjectConnectorC.toBytes (c : CallObjectConnectorC) : List Nat :=
  leBytes 4 c.flags ++ c.node ++ leBytes 2 c.node_index ++
  leBytes 2 c.save_index ++ leBytes 2 c.from_index ++
  leBytes 2 c.to_index ++ leVec3 c.from_pos ++ leVec3 c.to_pos

def CallObjectConnectorC.ofBytes (bs : List Nat) : CallObjectConnectorC
    where
  flags := field bs 0 4
  node := bytesAt bs 4 32
  node_index := field bs 36 2
  save_index := field bs 38 2
  from_index := field bs 40 2
  to_index := field bs 42 2
  from_pos := vec3At bs 44
  to_pos := vec3At bs 56

/-- `CallObjectConnector::read` body after the raw transfer. -/
def CallObjectConnector.validate (c : CallObjectConnectorC) (prev : Nat)
    (ad : AnimDef) : Except Error CallObjectConnector := do
  let _ ← guardA "call object connector flags"
    (c.flags = CALL_OBJECT_CONNECTOR_FLAGS) (prev + 0)
  let node ← strFromC "call object connector node name" (prev + 4) c.node
  let _ ← guardA "call object connector node index" (c.node_index = 0)
    (prev + 36)
  let _ ← guardA "call object connector save index"
    (c.save_index = 65535) (prev + 38)
  let from_node ← lookupName ad.nodes "call object connector from node"
    c.from_index (prev + 40)
  let _ ← guardA "call object connector to index" (c.to_index = 0)
    (prev + 42)
  let _ ← guardA "call object connector from pos" (vec3EqZero c.from_pos)
    (prev + 44)
  .ok ⟨node, from_node, INPUT_NODE, c.to_pos⟩

/-- `CallObjectConnector::read`. -/
def CallObjectConnector.read (r : CountingReader) (ad : AnimDef)
    (size : Nat) : Except Error (CallObjectConnector × CountingReader) := do
  let _ ← guardA "call object connector size" (size = 68) r.offset
  let (bs, r) ← r.readExact 68
  let v ← CallObjectConnector.validate (CallObjectConnectorC.ofBytes bs)
    r.prev ad
  .ok (v, r)

/-- The raw struct built by `CallObjectConnector::write` (`-1` as `i16` is
the bit pattern `0xFFFF`). -/
def CallObjectConnector.mkC (v : CallObjectConnector) (fi : Nat) :
    CallObjectConnectorC where
  flags := CALL_OBJECT_CONNECTOR_FLAGS
  node := strToC v.node 32
  node_index := 0
  save_index := 65535
  from_index := m16 fi
  to_index := 0
  from_pos := Vec3.EMPTY
  to_pos := v.to_pos

/-- `CallObjectConnector::write`. -/
def CallObjectConnector.write (v : CallObjectConnector) (ad : AnimDef) :
    Except Error (List Nat) := do
  let fi ← nameToIndex ad.nodes "node to index" v.from_node
  .ok (CallObjectConnector.mkC v fi).toBytes

/-- A legally constructed call-object-connector value (the to-endpoint is
always the input-node sentinel: the encoder does not store it and the
decoder always restores the sentinel). -/
def CallObjectConnector.Wf (ad : AnimDef) (v : CallObjectConnector) :
    Prop :=
  WfName v.node 32 ∧ v.from_node ∈ ad.nodes ∧ ad.nodes.length ≤ 65536 ∧
    v.to_node = INPUT_NODE ∧ v.to_pos.wf

instance (ad : AnimDef) (v : CallObjectConnector) :
    Decidable (CallObjectConnector.Wf ad v) := by
  unfold CallObjectConnector.Wf; infer_instance

/-! ## Activation prerequisite (`activation_prereq.rs`)

A `u32` "optional" strict boolean (logically inverted from "required"), a
`u32` type discriminant (1 = Animation, 2 = Object, 3 = Parent), then a
40-byte payload struct.  Animation prerequisites are always required. -/

/-- Modelled from the spec: `PrereqObject` of `sequence_event/types.rs`
(not among the provided sources), as used by `activation_prereq.rs`. -/
structure PrereqObject where
  name : List Nat
  required : Bool
  active : Bool
  pointer : Nat
deriving Repr, DecidableEq

/-- Modelled from the spec: `ActivationPrereq` of
`sequence_event/types.rs` (not among the provided sources): the 3-kind
tagged union Animation/Object/Parent. -/
inductive ActivationPrereq where
  | animation : List Nat → ActivationPrereq
  | object : PrereqObject → ActivationPrereq
  | parent : PrereqObject → ActivationPrereq
deriving Repr, DecidableEq

/-- `read_activ_prereq_anim`. -/
def read_activ_prereq_anim (r : CountingReader) :
    Except Error (ActivationPrereq × CountingReader) := do
  let (bs, r) ← r.readExact 40
  let name ← strFromC "anim def activ prereq a name" (r.prev + 0)
    (bytesAt bs 0 32)
  let _ ← guardA "anim def activ prereq a field 32" (field bs 32 4 = 0)
    (r.prev + 32)
  let _ ← guardA "anim def activ prereq a field 36" (field bs 36 4 = 0)
    (r.prev + 36)
  .ok (.animation name, r)

/-- `read_activ_prereq_parent`. -/
def read_activ_prereq_parent (r : CountingReader) (required : Bool) :
    Except Error (ActivationPrereq × CountingReader) := do
  let (bs, r) ← r.readExact 40
  let _ ← guardA "anim def activ prereq p active" (field bs 0 4 = 0)
    (r.prev + 0)
  let name ← strFromC "anim def activ prereq p name" (r.prev + 4)
    (bytesAt bs 4 32)
  let _ ← guardA "anim def activ prereq p pointer" (field bs 36 4 ≠ 0)
    (r.prev + 36)
  .ok (.parent ⟨name, required, false, field bs 36 4⟩, r)

/-- `read_activ_prereq_object`. -/
def read_activ_prereq_object (r : CountingReader) (required : Bool) :
    Except Error (ActivationPrereq × CountingReader) := do
  let (bs, r) ← r.readExact 40
  let active ← assertBool "anim def activ prereq o active" (field bs 0 4)
    (r.prev + 0)
  let name ← strFromC "anim def activ prereq o name" (r.prev + 4)
    (bytesAt bs 4 32)
  let _ ← guardA "anim def activ prereq o pointer" (field bs 36 4 ≠ 0)
    (r.prev + 36)
  .ok (.object ⟨name, required, active, field bs 36 4⟩, r)

/-- `read_activ_prereq`. -/
def read_activ_prereq (r : CountingReader) :
    Except Error (ActivationPrereq × CountingReader) := do
  let (optionalV, r) ← r.readU32
  let ob ← assertBool "anim def activ prereq optional" optionalV r.prev
  let required := !ob
  let (ptype, r) ← r.readU32
  if ptype = 1 then do
    let _ ← guardA "anim def activ prereq required" (required = true)
      (r.prev - 4)
    read_activ_prereq_anim r
  else if ptype = 3 then read_activ_prereq_parent r required
  else if ptype = 2 then read_activ_prereq_object r required
  else .error (.unknownDiscriminant ptype r.prev)

/-- `write_activ_prereq_anim` (one prerequisite of
`write_activ_prereqs`). -/
def write_activ_prereq_anim (name : List Nat) : List Nat :=
  leBytes 4 (boolC false) ++ leBytes 4 1 ++ strToC name 32 ++
  leBytes 4 0 ++ leBytes 4 0

/-- `write_activ_prereq_object` (shared by Object and Parent, with the
type discriminant). -/
def write_activ_prereq_object (obj : PrereqObject) (ptype : Nat) :
    List Nat :=
  leBytes 4 (boolC !obj.required) ++ leBytes 4 ptype ++
  leBytes 4 (boolC obj.active) ++ strToC obj.name 32 ++
  leBytes 4 obj.pointer

/-- One prerequisite of `write_activ_prereqs`. -/
def write_activ_prereq : ActivationPrereq → List Nat
  | .animation name => write_activ_prereq_anim name
  | .object obj => write_activ_prereq_object obj 2
  | .parent obj => write_activ_prereq_object obj 3

/-- A legally constructed activation prerequisite: names fit their fields,
pointers are non-zero 32-bit values, Animation implies nothing further
(always required), Parent is always inactive. -/
def ActivationPrereq.Wf : ActivationPrereq → Prop
  | .animation name => WfName name 32
  | .object obj => WfName obj.name 32 ∧ 0 < obj.pointer ∧ obj.pointer < U32
  | .parent obj => WfName obj.name 32 ∧ 0 < obj.pointer ∧
      obj.pointer < U32 ∧ obj.active = false

instance (v : ActivationPrereq) : Decidable v.Wf := by
  cases v <;> unfold ActivationPrereq.Wf <;> infer_instance

/-! ## Object motion (`sequence_event/object_motion.rs`)

320-byte record, 14 known flag bits controlling ten logical groups. -/

structure ObjectMotionFlags where
  gravity : Bool
  impact_force : Bool
  translation : Bool
  translation_min : Bool
  translation_max : Bool
  xyz_rotation : Bool
  forward_rotation_distance : Bool
  forward_rotation_time : Bool
  scale : Bool
  runtime : Bool
  bounce_seq : Bool
  bounce_sound : Bool
  gravity_complex : Bool
  gravity_no_altitude : Bool
deriving Repr, DecidableEq

/-- Known bits: 0–8, 10–14 (bit 9 unused). -/
def ObjectMotionFlags.toBits (f : ObjectMotionFlags) : Nat :=
  bitsOf [f.gravity, f.impact_force, f.translation, f.translation_min,
    f.translation_max, f.xyz_rotation, f.forward_rotation_distance,
    f.forward_rotation_time, f.scale, false, f.runtime, f.bounce_seq,
    f.bounce_sound, f.gravity_complex, f.gravity_no_altitude]

/-- `ObjectMotionFlags::from_bits` (mask complement of `0x7DFF`). -/
def ObjectMotionFlags.ofBits (raw : Nat) : Option ObjectMotionFlags :=
  if raw &&& 0xFFFF8200 = 0 then
    some ⟨raw.testBit 0, raw.testBit 1, raw.testBit 2, raw.testBit 3,
      raw.testBit 4, raw.testBit 5, raw.testBit 6, raw.testBit 7,
      raw.testBit 8, raw.testBit 10, raw.testBit 11, raw.testBit 12,
      raw.testBit 13, raw.testBit 14⟩
  else none

def ObjectMotionFlags.parse (raw off : Nat) :
    Except Error ObjectMotionFlags :=
  match ObjectMotionFlags.ofBits raw with
  | some fm => .ok fm
  | none => .error (.unknownDiscriminant raw off)

inductive GravityMode where
  | Local : GravityMode
  | Complex : GravityMode
  | NoAltitude : GravityMode
deriving Repr, DecidableEq

structure Gravity where
  mode : GravityMode
  value : Nat
deriving Repr, DecidableEq

inductive ForwardRotation where
  | Time : Nat → Nat → ForwardRotation
  | Distance : Nat → ForwardRotation
deriving Repr, DecidableEq

structure BounceSound where
  name : List Nat
  volume : Nat
deriving Repr, DecidableEq

structure Vec4 where
  a : Nat
  b : Nat
  c : Nat
  d : Nat
deriving Repr, DecidableEq

def Vec4.EMPTY : Vec4 := ⟨0, 0, 0, 0⟩

def Vec4.wf (v : Vec4) : Prop :=
  v.a < U32 ∧ v.b < U32 ∧ v.c < U32 ∧ v.d < U32

instance (v : Vec4) : Decidable v.wf := by unfold Vec4.wf; infer_instance

structure ObjectMotion where
  node : List Nat
  impact_force : Bool
  gravity : Option Gravity
  translation_range_min : Option Vec4
  translation_range_max : Option Vec4
  translation : Option (Vec3 × Vec3 × Vec3)
  forward_rotation : Option ForwardRotation
  xyz_rotation : Option (Vec3 × Vec3)
  scale : Option (Vec3 × Vec3)
  bounce_sequence :
    Option (Option (List Nat) × Option (List Nat) × Option (List Nat))
  bounce_sound : Option BounceSound
  runtime : Option Nat
deriving Repr, DecidableEq

/-- The raw 320-byte layout of `ObjectMotionC` (offsets as in the source
comments). -/
structure ObjectMotionC where
  flags : Nat
  node_index : Nat
  zero008 : Nat
  gravity : Nat
  zero016 : Nat
  trans_range_min_1 : Nat
  trans_range_max_1 : Nat
  trans_range_min_2 : Nat
  trans_range_max_2 : Nat
  trans_range_min_3 : Nat
  trans_range_max_3 : Nat
  trans_range_min_4 : Nat
  trans_range_max_4 : Nat
  trans_delta : Vec3
  trans_initial : Vec3
  trans_delta_copy : Vec3
  trans_initial_copy : Vec3
  unk100 : Vec3
  forward_rotation_1 : Nat
  forward_rotation_2 : Nat
  zero120 : Nat
  xyz_rotation : Vec3
  unk136 : Vec3
  xyz_rotation_copy : Vec3
  scale : Vec3
  unk172 : Vec3
  scale_copy : Vec3
  bounce_seq0_name : List Nat
  bounce_seq0_sentinel : Nat
  bounce_snd0_index : Nat
  bounce_snd0_volume : Nat
  bounce_seq1_name : List Nat
  bounce_seq1_sentinel : Nat
  bounce_snd1_index : Nat
  bounce_snd1_volume : Nat
  bounce_seq2_name : List Nat
  bounce_seq2_sentinel : Nat
  bounce_snd2_index : Nat
  bounce_snd2_volume : Nat
  runtime : Nat
deriving Repr, DecidableEq

def ObjectMotionC.toBytes (c : ObjectMotionC) : List Nat :=
  leBytes 4 c.flags ++ leBytes 4 c.node_index ++ leBytes 4 c.zero008 ++
  leBytes 4 c.gravity ++ leBytes 4 c.zero016 ++
  leBytes 4 c.trans_range_min_1 ++ leBytes 4 c.trans_range_max_1 ++
  leBytes 4 c.trans_range_min_2 ++ leBytes 4 c.trans_range_max_2 ++
  leBytes 4 c.trans_range_min_3 ++ leBytes 4 c.trans_range_max_3 ++
  leBytes 4 c.trans_range_min_4 ++ leBytes 4 c.trans_range_max_4 ++
  leVec3 c.trans_delta ++ leVec3 c.trans_initial ++
  leVec3 c.trans_delta_copy ++ leVec3 c.trans_initial_copy ++
  leVec3 c.unk100 ++
  leBytes 4 c.forward_rotation_1 ++ leBytes 4 c.forward_rotation_2 ++
  leBytes 4 c.zero120 ++
  leVec3 c.xyz_rotation ++ leVec3 c.unk136 ++ leVec3 c.xyz_rotation_copy ++
  leVec3 c.scale ++ leVec3 c.unk172 ++ leVec3 c.scale_copy ++
  c.bounce_seq0_name ++ leBytes 2 c.bounce_seq0_sentinel ++
  leBytes 2 c.bounce_snd0_index ++ leBytes 4 c.bounce_snd0_volume ++
  c.bounce_seq1_name ++ leBytes 2 c.bounce_seq1_sentinel ++
  leBytes 2 c.bounce_snd1_index ++ leBytes 4 c.bounce_snd1_volume ++
  c.bounce_seq2_name ++ leBytes 2 c.bounce_seq2_sentinel ++
  leBytes 2 c.bounce_snd2_index ++ leBytes 4 c.bounce_snd2_volume ++
  leBytes 4 c.runtime

def ObjectMotionC.ofBytes (bs : List Nat) : ObjectMotionC where
  flags := field bs 0 4
  node_index := field bs 4 4
  zero008 := field bs 8 4
  gravity := field bs 12 4
  zero016 := field bs 16 4
  trans_range_min_1 := field bs 20 4
  trans_range_max_1 := field bs 24 4
  trans_range_min_2 := field bs 28 4
  trans_range_max_2 := field bs 32 4
  trans_range_min_3 := field bs 36 4
  trans_range_max_3 := field bs 40 4
  trans_range_min_4 := field bs 44 4
  trans_range_max_4 := field bs 48 4
  trans_delta := vec3At bs 52
  trans_initial := vec3At bs 64
  trans_delta_copy := vec3At bs 76
  trans_initial_copy := vec3At bs 88
  unk100 := vec3At bs 100
  forward_rotation_1 := field bs 112 4
  forward_rotation_2 := field bs 116 4
  zero120 := field bs 120 4
  xyz_rotation := vec3At bs 124
  unk136 := vec3At bs 136
  xyz_rotation_copy := vec3At bs 148
  scale := vec3At bs 160
  unk172 := vec3At bs 172
  scale_copy := vec3At bs 184
  bounce_seq0_name := bytesAt bs 196 32
  bounce_seq0_sentinel := field bs 228 2
  bounce_snd0_index := field bs 230 2
  bounce_snd0_volume := field bs 232 4
  bounce_seq1_name := bytesAt bs 236 32
  bounce_seq1_sentinel := field bs 268 2
  bounce_snd1_index := field bs 270 2
  bounce_snd1_volume := field bs 272 4
  bounce_seq2_name := bytesAt bs 276 32
  bounce_seq2_sentinel := field bs 308 2
  bounce_snd2_index := field bs 310 2
  bounce_snd2_volume := field bs 312 4
  runtime := field bs 316 4

/-- The gravity group of `ObjectMotion::read`. -/
def readGravity (fm : ObjectMotionFlags) (c : ObjectMotionC)
    (prev : Nat) : Except Error (Option Gravity) :=
  if fm.gravity then do
    let mode ←
      if fm.gravity_no_altitude then do
        let _ ← guardA "object motion gravity complex"
          (fm.gravity_complex = false) (prev + 0)
        Except.ok GravityMode.NoAltitude
      else if fm.gravity_complex then Except.ok GravityMode.Complex
      else Except.ok GravityMode.Local
    Except.ok (some ⟨mode, c.gravity⟩)
  else do
    let _ ← guardA "object motion gravity complex"
      (fm.gravity_complex = false) (prev + 0)
    let _ ← guardA "object motion gravity no altitude"
      (fm.gravity_no_altitude = false) (prev + 0)
    let _ ← guardA "object motion gravity value" (f32Eq c.gravity fZero)
      (prev + 12)
    Except.ok none

/-- The translation-range-min group of `ObjectMotion::read`. -/
def readTransRangeMin (fm : ObjectMotionFlags) (c : ObjectMotionC)
    (prev : Nat) : Except Error (Option Vec4) :=
  if fm.translation_min then
    .ok (some ⟨c.trans_range_min_1, c.trans_range_min_2,
      c.trans_range_min_3, c.trans_range_min_4⟩)
  else do
    let _ ← guardA "object motion trans range min 1"
      (f32Eq c.trans_range_min_1 fZero) (prev + 20)
    let _ ← guardA "object motion trans range min 2"
      (f32Eq c.trans_range_min_2 fZero) (prev + 28)
    let _ ← guardA "object motion trans range min 3"
      (f32Eq c.trans_range_min_3 fZero) (prev + 36)
    let _ ← guardA "object motion trans range min 4"
      (f32Eq c.trans_range_min_4 fZero) (prev + 44)
    .ok none

/-- The translation-range-max group of `ObjectMotion::read`. -/
def readTransRangeMax (fm : ObjectMotionFlags) (c : ObjectMotionC)
    (prev : Nat) : Except Error (Option Vec4) :=
  if fm.translation_max then
    .ok (some ⟨c.trans_range_max_1, c.trans_range_max_2,
      c.trans_range_max_3, c.trans_range_max_4⟩)
  else do
    let _ ← guardA "object motion trans range max 1"
      (f32Eq c.trans_range_max_1 fZero) (prev + 24)
    let _ ← guardA "object motion trans range max 2"
      (f32Eq c.trans_range_max_2 fZero) (prev + 32)
    let _ ← guardA "object motion trans range max 3"
      (f32Eq c.trans_range_max_3 fZero) (prev + 40)
    let _ ← guardA "object motion trans range max 4"
      (f32Eq c.trans_range_max_4 fZero) (prev + 48)
    .ok none

/-- The translation group of `ObjectMotion::read`. -/
def readTranslation (fm : ObjectMotionFlags) (c : ObjectMotionC)
    (prev : Nat) : Except Error (Option (Vec3 × Vec3 × Vec3)) :=
  if fm.translation then
    .ok (some (c.trans_delta, c.trans_initial, c.unk100))
  else do
    let _ ← guardA "object motion trans delta" (vec3EqZero c.trans_delta)
      (prev + 52)
    let _ ← guardA "object motion trans initial"
      (vec3EqZero c.trans_initial) (prev + 64)
    let _ ← guardA "object motion field 100" (vec3EqZero c.unk100)
      (prev + 100)
    .ok none

/-- The forward-rotation group of `ObjectMotion::read` (Time and Distance
are mutually exclusive). -/
def readForwardRotation (fm : ObjectMotionFlags) (c : ObjectMotionC)
    (prev : Nat) : Except Error (Option ForwardRotation) :=
  if fm.forward_rotation_time then do
    let _ ← guardA "object motion fwd rot dist"
      (fm.forward_rotation_distance = false) (prev + 0)
    .ok (some (.Time c.forward_rotation_1 c.forward_rotation_2))
  else if fm.forward_rotation_distance then do
    let _ ← guardA "object motion fwd rot 2"
      (f32Eq c.forward_rotation_2 fZero) (prev + 116)
    .ok (some (.Distance c.forward_rotation_1))
  else do
    let _ ← guardA "object motion fwd rot 1"
      (f32Eq c.forward_rotation_1 fZero) (prev + 112)
    let _ ← guardA "object motion fwd rot 2"
      (f32Eq c.forward_rotation_2 fZero) (prev + 116)
    .ok none

/-- The xyz-rotation group of `ObjectMotion::read`. -/
def readXyzRotation (fm : ObjectMotionFlags) (c : ObjectMotionC)
    (prev : Nat) : Except Error (Option (Vec3 × Vec3)) :=
  if fm.xyz_rotation then
    .ok (some (c.xyz_rotation, c.unk136))
  else do
    let _ ← guardA "object motion xyz rot" (vec3EqZero c.xyz_rotation)
      (prev + 124)
    let _ ← guardA "object motion field 136" (vec3EqZero c.unk136)
      (prev + 136)
    .ok none

/-- The scale group of `ObjectMotion::read`. -/
def readScaleGroup (fm : ObjectMotionFlags) (c : ObjectMotionC)
    (prev : Nat) : Except Error (Option (Vec3 × Vec3)) :=
  if fm.scale then
    .ok (some (c.scale, c.unk172))
  else do
    let _ ← guardA "object motion scale" (vec3EqZero c.scale) (prev + 160)
    let _ ← guardA "object motion field 172" (vec3EqZero c.unk172)
      (prev + 172)
    .ok none

/-- One optional bounce-sequence name slot of `ObjectMotion::read` (slots
1 and 2). -/
def readBounceSeqOpt (label : String) (name : List Nat) (off : Nat) :
    Except Error (Option (List Nat)) :=
  if name.headD 0 ≠ 0 then do
    let n ← strFromC label off name
    .ok (some n)
  else
    .ok none

/-- The bounce-sequence group of `ObjectMotion::read`: with the flag set,
the first name slot must be non-empty; without it, all three 32-byte slots
must be all-zero. -/
def readBounceSeq (fm : ObjectMotionFlags) (c : ObjectMotionC)
    (prev : Nat) :
    Except Error
      (Option (Option (List Nat) × Option (List Nat) ×
        Option (List Nat))) :=
  if fm.bounce_seq then do
    let bounce_seq0 ←
      if c.bounce_seq0_name.headD 0 ≠ 0 then do
        let n ← strFromC "object motion bounce seq 0 name" (prev + 196)
          c.bounce_seq0_name
        Except.ok (some n)
      else
        Except.error (.assertion "Expected at least one bounce sequence"
          (prev + 196))
    let bounce_seq1 ← readBounceSeqOpt "object motion bounce seq 1 name"
      c.bounce_seq1_name (prev + 236)
    let bounce_seq2 ← readBounceSeqOpt "object motion bounce seq 2 name"
      c.bounce_seq2_name (prev + 276)
    .ok (some (bounce_seq0, bounce_seq1, bounce_seq2))
  else do
    let _ ← guardA "object motion bounce seq 0"
      (c.bounce_seq0_name.all (fun b => b == 0)) (prev + 196)
    let _ ← guardA "object motion bounce seq 1"
      (c.bounce_seq1_name.all (fun b => b == 0)) (prev + 236)
    let _ ← guardA "object motion bounce seq 2"
      (c.bounce_seq2_name.all (fun b => b == 0)) (prev + 276)
    .ok none

/-- The bounce-sound group of `ObjectMotion::read`. -/
def readBounceSound (fm : ObjectMotionFlags) (c : ObjectMotionC)
    (ad : AnimDef) (prev : Nat) : Except Error (Option BounceSound) :=
  if fm.bounce_sound then do
    let _ ← guardA "object motion bounce snd 0 vol"
      (f32Gt c.bounce_snd0_volume fZero) (prev + 232)
    let sound_name ← lookupName ad.sounds "object motion bounce snd"
      c.bounce_snd0_index (prev + 230)
    .ok (some ⟨sound_name, c.bounce_snd0_volume⟩)
  else do
    let _ ← guardA "object motion bounce snd 0 index"
      (c.bounce_snd0_index = 0) (prev + 230)
    let _ ← guardA "object motion bounce snd 0 vol"
      (f32Eq c.bounce_snd0_volume fZero) (prev + 232)
    .ok none

/-- The runtime group of `ObjectMotion::read`. -/
def readRuntime (fm : ObjectMotionFlags) (c : ObjectMotionC)
    (prev : Nat) : Except Error (Option Nat) :=
  if fm.runtime then do
    let _ ← guardA "object motion runtime" (f32Gt c.runtime fZero)
      (prev + 316)
    .ok (some c.runtime)
  else do
    let _ ← guardA "object motion runtime" (f32Eq c.runtime fZero)
      (prev + 316)
    .ok none

/-- The body of `ObjectMotion::read` after the raw transfer (the source's
"scale copy" assertion reports offset `prev + 182`, kept verbatim). -/
def ObjectMotion.validate (c : ObjectMotionC) (prev : Nat) (ad : AnimDef) :
    Except Error ObjectMotion := do
  let fm ← ObjectMotionFlags.parse c.flags (prev + 0)
  let node ← lookupName ad.nodes "object motion node" c.node_index
    (prev + 4)
  let _ ← guardA "object motion field 008" (f32Eq c.zero008 fZero)
    (prev + 8)
  let _ ← guardA "object motion field 016" (f32Eq c.zero016 fZero)
    (prev + 16)
  let gravity ← readGravity fm c prev
  let translation_range_min ← readTransRangeMin fm c prev
  let translation_range_max ← readTransRangeMax fm c prev
  let translation ← readTranslation fm c prev
  let _ ← guardA "object motion trans delta copy"
    (vec3EqZero c.trans_delta_copy) (prev + 76)
  let _ ← guardA "object motion trans initial copy"
    (vec3EqZero c.trans_initial_copy) (prev + 88)
  let forward_rotation ← readForwardRotation fm c prev
  let _ ← guardA "object motion field 120" (f32Eq c.zero120 fZero)
    (prev + 120)
  let xyz_rotation ← readXyzRotation fm c prev
  let _ ← guardA "object motion xyz rot copy"
    (vec3EqZero c.xyz_rotation_copy) (prev + 148)
  let scale ← readScaleGroup fm c prev
  let _ ← guardA "object motion scale copy" (vec3EqZero c.scale_copy)
    (prev + 182)
  let _ ← guardA "object motion bounce seq 0 sentinel"
    (c.bounce_seq0_sentinel = 65535) (prev + 228)
  let _ ← guardA "object motion bounce seq 1 sentinel"
    (c.bounce_seq1_sentinel = 65535) (prev + 268)
  let _ ← guardA "object motion bounce seq 2 sentinel"
    (c.bounce_seq2_sentinel = 65535) (prev + 308)
  let bounce_sequence ← readBounceSeq fm c prev
  let bounce_sound ← readBounceSound fm c ad prev
  let _ ← guardA "object motion bounce snd 1 index"
    (c.bounce_snd1_index = 0) (prev + 270)
  let _ ← guardA "object motion bounce snd 1 vol"
    (f32Eq c.bounce_snd1_volume fZero) (prev + 272)
  let _ ← guardA "object motion bounce snd 2 index"
    (c.bounce_snd2_index = 0) (prev + 310)
  let _ ← guardA "object motion bounce snd 2 vol"
    (f32Eq c.bounce_snd2_volume fZero) (prev + 312)
  let runtime ← readRuntime fm c prev
  .ok ⟨node, fm.impact_force, gravity, translation_range_min,
    translation_range_max, translation, forward_rotation, xyz_rotation,
    scale, bounce_sequence, bounce_sound, runtime⟩

/-- `ObjectMotion::read`. -/
def ObjectMotion.read (r : CountingReader) (ad : AnimDef) (size : Nat) :
    Except Error (ObjectMotion × CountingReader) := do
  let _ ← guardA "object motion size" (size = 320) r.offset
  let (bs, r) ← r.readExact 320
  let v ← ObjectMotion.validate (ObjectMotionC.ofBytes bs) r.prev ad
  .ok (v, r)

def ObjectMotion.flagsOf (v : ObjectMotion) : ObjectMotionFlags where
  gravity := v.gravity.isSome
  impact_force := v.impact_force
  translation := v.translation.isSome
  translation_min := v.translation_range_min.isSome
  translation_max := v.translation_range_max.isSome
  xyz_rotation := v.xyz_rotation.isSome
  forward_rotation_distance :=
    match v.forward_rotation with
    | some (.Distance _) => true
    | _ => false
  forward_rotation_time :=
    match v.forward_rotation with
    | some (.Time _ _) => true
    | _ => false
  scale := v.scale.isSome
  runtime := v.runtime.isSome
  bounce_seq := v.bounce_sequence.isSome
  bounce_sound := v.bounce_sound.isSome
  gravity_complex :=
    match v.gravity with
    | some g => decide (g.mode = .Complex)
    | none => false
  gravity_no_altitude :=
    match v.gravity with
    | some g => decide (g.mode = .NoAltitude)
    | none => false

/-- Forward-rotation field 1 of `ObjectMotion::write`. -/
def fwd1Of (v : ObjectMotion) : Nat :=
  match v.forward_rotation with
  | some (.Time a _) => a
  | some (.Distance a) => a
  | none => fZero

/-- Forward-rotation field 2 of `ObjectMotion::write`. -/
def fwd2Of (v : ObjectMotion) : Nat :=
  match v.forward_rotation with
  | some (.Time _ b) => b
  | some (.Distance _) => fZero
  | none => fZero

/-- One encoded bounce-sequence name slot (zero-filled when absent). -/
def bounceName (x : Option (List Nat)) : List Nat :=
  match x with
  | some n => strToC n 32
  | none => List.replicate 32 0

def bounceSeq0Of (v : ObjectMotion) : List Nat :=
  match v.bounce_sequence with
  | some (s0, _, _) => bounceName s0
  | none => List.replicate 32 0

def bounceSeq1Of (v : ObjectMotion) : List Nat :=
  match v.bounce_sequence with
  | some (_, s1, _) => bounceName s1
  | none => List.replicate 32 0

def bounceSeq2Of (v : ObjectMotion) : List Nat :=
  match v.bounce_sequence with
  | some (_, _, s2) => bounceName s2
  | none => List.replicate 32 0

def zeroVec3Pair : Vec3 × Vec3 := (Vec3.EMPTY, Vec3.EMPTY)

def zeroVec3Triple : Vec3 × Vec3 × Vec3 := (Vec3.EMPTY, Vec3.EMPTY, Vec3.EMPTY)

/-- The raw struct built by `ObjectMotion::write` (given the resolved node
and sound indices). -/
def ObjectMotion.mkC (v : ObjectMotion) (ni si : Nat) : ObjectMotionC where
  flags := (ObjectMotion.flagsOf v).toBits
  node_index := m32 ni
  zero008 := fZero
  gravity := (v.gravity.getD ⟨.Local, fZero⟩).value
  zero016 := fZero
  trans_range_min_1 := (v.translation_range_min.getD Vec4.EMPTY).a
  trans_range_max_1 := (v.translation_range_max.getD Vec4.EMPTY).a
  trans_range_min_2 := (v.translation_range_min.getD Vec4.EMPTY).b
  trans_range_max_2 := (v.translation_range_max.getD Vec4.EMPTY).b
  trans_range_min_3 := (v.translation_range_min.getD Vec4.EMPTY).c
  trans_range_max_3 := (v.translation_range_max.getD Vec4.EMPTY).c
  trans_range_min_4 := (v.translation_range_min.getD Vec4.EMPTY).d
  trans_range_max_4 := (v.translation_range_max.getD Vec4.EMPTY).d
  trans_delta := (v.translation.getD zeroVec3Triple).1
  trans_initial := (v.translation.getD zeroVec3Triple).2.1
  trans_delta_copy := Vec3.EMPTY
  trans_initial_copy := Vec3.EMPTY
  unk100 := (v.translation.getD zeroVec3Triple).2.2
  forward_rotation_1 := fwd1Of v
  forward_rotation_2 := fwd2Of v
  zero120 := fZero
  xyz_rotation := (v.xyz_rotation.getD zeroVec3Pair).1
  unk136 := (v.xyz_rotation.getD zeroVec3Pair).2
  xyz_rotation_copy := Vec3.EMPTY
  scale := (v.scale.getD zeroVec3Pair).1
  unk172 := (v.scale.getD zeroVec3Pair).2
  scale_copy := Vec3.EMPTY
  bounce_seq0_name := bounceSeq0Of v
  bounce_seq0_sentinel := 65535
  bounce_snd0_index := if v.bounce_sound.isSome then m16 si else 0
  bounce_snd0_volume := (v.bounce_sound.getD ⟨[], fZero⟩).volume
  bounce_seq1_name := bounceSeq1Of v
  bounce_seq1_sentinel := 65535
  bounce_snd1_index := 0
  bounce_snd1_volume := fZero
  bounce_seq2_name := bounceSeq2Of v
  bounce_seq2_sentinel := 65535
  bounce_snd2_index := 0
  bounce_snd2_volume := fZero
  runtime := v.runtime.getD fZero

/-- Sound-index resolution of `ObjectMotion::write`. -/
def motionSoundIndex (v : ObjectMotion) (ad : AnimDef) :
    Except Error Nat :=
  match v.bounce_sound with
  | some bs => nameToIndex ad.sounds "sound to index" bs.name
  | none => .ok 0

/-- `ObjectMotion::write`. -/
def ObjectMotion.write (v : ObjectMotion) (ad : AnimDef) :
    Except Error (List Nat) := do
  let ni ← nameToIndex ad.nodes "node to index" v.node
  let si ← motionSoundIndex v ad
  .ok (ObjectMotion.mkC v ni si).toBytes

/-- A legal forward-rotation payload (32-bit patterns). -/
def FwdRotWf : ForwardRotation → Prop
  | .Time a b => a < U32 ∧ b < U32
  | .Distance a => a < U32

instance (fr : ForwardRotation) : Decidable (FwdRotWf fr) := by
  cases fr <;> unfold FwdRotWf <;> infer_instance

/-- A bounce-sequence name slot payload: a legal non-empty name. -/
def BSeqWf : Option (List Nat) → Prop :=
  OptWf (fun n => WfName n 32 ∧ n ≠ [])

instance (o : Option (List Nat)) : Decidable (BSeqWf o) := by
  unfold BSeqWf; infer_instance

/-- A legally constructed object-motion value. -/
def ObjectMotion.Wf (ad : AnimDef) (v : ObjectMotion) : Prop :=
  v.node ∈ ad.nodes ∧ ad.nodes.length ≤ U32 ∧
    ad.sounds.length ≤ 65536 ∧
    OptWf (fun g => g.value < U32) v.gravity ∧
    OptWf Vec4.wf v.translation_range_min ∧
    OptWf Vec4.wf v.translation_range_max ∧
    OptWf (fun t => t.1.wf ∧ t.2.1.wf ∧ t.2.2.wf) v.translation ∧
    OptWf FwdRotWf v.forward_rotation ∧
    OptWf (fun t => t.1.wf ∧ t.2.wf) v.xyz_rotation ∧
    OptWf (fun t => t.1.wf ∧ t.2.wf) v.scale ∧
    OptWf (fun t => t.1.isSome = true ∧ BSeqWf t.1 ∧ BSeqWf t.2.1 ∧
      BSeqWf t.2.2) v.bounce_sequence ∧
    OptWf (fun bs => bs.name ∈ ad.sounds ∧ bs.volume < U32 ∧
      f32Gt bs.volume fZero = true) v.bounce_sound ∧
    OptWf (fun t => t < U32 ∧ f32Gt t fZero = true) v.runtime

instance (ad : AnimDef) (v : ObjectMotion) :
    Decidable (ObjectMotion.Wf ad v) := by
  unfold ObjectMotion.Wf; infer_instance

/-! ## GameZ scene-graph container (`gamez/mod.rs`, `gamez/textures.rs`) -/

/-- The raw 36-byte `HeaderC` of `gamez/mod.rs`. -/
structure HeaderC where
  signature : Nat
  version : Nat
  texture_count : Nat
  textures_offset : Nat
  materials_offset : Nat
  meshes_offset : Nat
  node_array_size : Nat
  node_count : Nat
  nodes_offset : Nat
deriving Repr, DecidableEq

def HeaderC.ofBytes (bs : List Nat) : HeaderC where
  signature := field bs 0 4
  version := field bs 4 4
  texture_count := field bs 8 4
  textures_offset := field bs 12 4
  materials_offset := field bs 16 4
  meshes_offset := field bs 20 4
  node_array_size := field bs 24 4
  node_count := field bs 28 4
  nodes_offset := field bs 32 4

def SIGNATURE : Nat := 0x02971222

def VERSION_MW : Nat := 27

/-- One 40-byte `TextureInfoC` entry of `read_texture_infos`
(`gamez/textures.rs`); the 20-byte name field goes through the uniform
fixed-field text conversion. -/
def readTextureInfo (r : CountingReader) :
    Except Error (List Nat × CountingReader) := do
  let (bs, r) ← r.readExact 40
  let _ ← guardA "field 00" (field bs 0 4 = 0) (r.prev + 0)
  let _ ← guardA "field 04" (field bs 4 4 = 0) (r.prev + 4)
  let texture ← strFromC "texture" (r.prev + 8) (bytesAt bs 8 20)
  let _ ← guardA "used" (field bs 28 4 = 2) (r.prev + 28)
  let _ ← guardA "index" (field bs 32 4 = 0) (r.prev + 32)
  let _ ← guardA "field 36" (field bs 36 4 = 0xFFFFFFFF) (r.prev + 36)
  .ok (texture, r)

/-- `read_texture_infos` (`gamez/textures.rs`). -/
def readTextureInfos : Nat → CountingReader →
    Except Error (List (List Nat) × CountingReader)
  | 0, r => .ok ([], r)
  | n + 1, r => do
    let (t, r) ← readTextureInfo r
    let (ts, r) ← readTextureInfos n r
    .ok (t :: ts, r)

/-- The decoded `GameZ` value with its `Metadata` fields (`gamez/mod.rs`);
the materials, meshes and nodes payloads are abstract, see `readGamez`. -/
structure GameZ (α β γ : Type) where
  material_array_size : Nat
  meshes_array_size : Nat
  node_array_size : Nat
  node_data_count : Nat
  textures : List (List Nat)
  materials : α
  meshes : β
  nodes : γ

/-- `read_gamez` (`gamez/mod.rs`).  Modelled from the spec: the
materials, meshes and nodes section decoders live in `gamez/materials.rs`,
`gamez/meshes.rs` and `gamez/nodes.rs`, which are not among the provided
sources, so `readGamez` is parametric in the three section decoders
(`readMaterials` also returns the material array size, `readMeshes` the
mesh array size, as in the source). -/
def readGamez {α β γ : Type}
    (readMaterials : CountingReader → List (List Nat) →
      Except Error ((α × Nat) × CountingReader))
    (readMeshes : CountingReader → Nat →
      Except Error ((β × Nat) × CountingReader))
    (readNodes : CountingReader → Nat →
      Except Error (γ × CountingReader))
    (r : CountingReader) : Except Error (GameZ α β γ) := do
  let (hb, r) ← r.readExact 36
  let header := HeaderC.ofBytes hb
  let _ ← guardA "signature" (header.signature = SIGNATURE) 0
  let _ ← guardA "version" (header.version = VERSION_MW) 4
  let _ ← guardA "texture count" (header.texture_count < 4096) 8
  let _ ← guardA "node count"
    (header.node_count < header.node_array_size) 28
  let _ ← guardA "textures offset" (r.offset = header.textures_offset)
    r.offset
  let (textures, r) ← readTextureInfos header.texture_count r
  let _ ← guardA "materials offset" (r.offset = header.materials_offset)
    r.offset
  let (mats, r) ← readMaterials r textures
  let _ ← guardA "meshes offset" (r.offset = header.meshes_offset)
    r.offset
  let (meshes, r) ← readMeshes r header.nodes_offset
  let _ ← guardA "nodes offset" (r.offset = header.nodes_offset)
    r.offset
  let (nodes, r) ← readNodes r header.node_array_size
  let _ ← r.assertEnd
  .ok ⟨mats.2, meshes.2, header.node_array_size, header.node_count,
    textures, mats.1, meshes.1, nodes⟩

/-! ## Concrete instances used by the witness theorems -/

/-- A small cross-reference context: one node `"A"`, one light `"B"`,
one sound `"C"`. -/
def adW : AnimDef := ⟨[[65]], [[66]], [[67]]⟩

/-- A six-node cross-reference context (names `"A"` … `"F"`). -/
def adC5 : AnimDef := ⟨[[65], [66], [67], [68], [69], [70]], [], []⟩

def vMotionW : ObjectMotion :=
  ⟨[65], false, none, none, none, none, none, none, none, none, none,
    none⟩

def vConnW : ObjectConnector := ⟨[65], none, none, none, none, none⟩

def vFromToW : ObjectMotionFromTo := ⟨[65], fOne, none, none, none, none⟩

def vLightW : LightAnimation := ⟨[66], ⟨0, 0⟩, ⟨0, 0, 0⟩, fOne⟩

def vOpacW : ObjectOpacityState := ⟨[70], true, false, 0x3F000000⟩

def vCallW : CallObjectConnector := ⟨[68], [65], INPUT_NODE, ⟨0, 0, 0⟩⟩

/-- A 132-byte from-to record: flags zero, morph slot holding the
negative-zero bit pattern at bytes 8–11, runtime `1.0`. -/
def ce2bytes : List Nat :=
  [0, 0, 0, 0, 0, 0, 0, 0, 0, 0, 0, 128] ++ List.replicate 116 0 ++
    [0, 0, 128, 63]

/-- A 132-byte from-to record: flags zero, every slot all-zero,
runtime `1.0`. -/
def cw2bytes : List Nat :=
  List.replicate 128 0 ++ [0, 0, 128, 63]

def cw2C : ObjectMotionFromToC := ObjectMotionFromToC.ofBytes cw2bytes

/-- The serialized form of `vFromToW` (node index 0). -/
def wFromToBytes : List Nat := (ObjectMotionFromTo.mkC vFromToW 0).toBytes

/-- A reader holding 320 `0xFF` bytes. -/
def rAllOnes : CountingReader := ⟨List.replicate 320 255, 0, 0⟩

/-- A 100-byte light-animation record whose literal name is `"B"` but
whose light index 0 resolves to a different name. -/
def lightMismatchBytes : List Nat := 66 :: List.replicate 99 0

/-- A 76-byte connector record with both `FROM_NODE` and
`FROM_INPUT_NODE` set. -/
def connBothBytes : List Nat := 3 :: List.replicate 75 0

/-- An activation prerequisite: optional = 1, type = Animation. -/
def activFailBytes : List Nat := [1, 0, 0, 0, 1, 0, 0, 0]

/-- An activation prerequisite: optional = 0, type = Animation,
name `"A"`. -/
def activOkBytes : List Nat :=
  [0, 0, 0, 0, 1, 0, 0, 0] ++ strToC [65] 32 ++ List.replicate 8 0

/-- A well-formed 36-byte GameZ header: zero textures, one node slot,
every section offset 36. -/
def hdrOkBytes : List Nat :=
  [34, 18, 151, 2] ++ [27, 0, 0, 0] ++ [0, 0, 0, 0] ++ [36, 0, 0, 0] ++
    [36, 0, 0, 0] ++ [36, 0, 0, 0] ++ [1, 0, 0, 0] ++ [0, 0, 0, 0] ++
    [36, 0, 0, 0]

/-- As `hdrOkBytes` but with a wrong textures offset (35). -/
def hdrBadBytes : List Nat :=
  [34, 18, 151, 2] ++ [27, 0, 0, 0] ++ [0, 0, 0, 0] ++ [35, 0, 0, 0] ++
    [36, 0, 0, 0] ++ [36, 0, 0, 0] ++ [1, 0, 0, 0] ++ [0, 0, 0, 0] ++
    [36, 0, 0, 0]

/-- Trivial materials section decoder (consumes nothing). -/
def trivMaterials : CountingReader → List (List Nat) →
    Except Error ((Nat × Nat) × CountingReader) :=
  fun r _ => .ok ((0, 0), r)

/-- Trivial meshes section decoder (consumes nothing). -/
def trivMeshes : CountingReader → Nat →
    Except Error ((Nat × Nat) × CountingReader) :=
  fun r _ => .ok ((0, 0), r)

/-- Trivial nodes section decoder (consumes nothing). -/
def trivNodes : CountingReader → Nat →
    Except Error (Nat × CountingReader) :=
  fun r _ => .ok (0, r)

/-! ## Theorems -/

@[simp] theorem leBytes_length (k v : Nat) : (leBytes k v).length = k := by
  induction k generalizing v with
  | zero => rfl
  | succ k ih => simp [leBytes, ih]

theorem leVal_leBytes (k v : Nat) : leVal (leBytes k v) = v % 2 ^ (8 * k) := by
  induction k generalizing v with
  | zero => simp [leBytes, leVal, Nat.mod_one]
  | succ k ih =>
    show v % 256 % 256 + 256 * leVal (leBytes k (v / 256)) = v % 2 ^ (8 * (k + 1))
    rw [ih]
    have h1 : 2 ^ (8 * (k + 1)) = 256 * 2 ^ (8 * k) := by
      rw [Nat.mul_succ, Nat.pow_add]; ring
    rw [h1, Nat.mod_mul]
    omega

theorem leVal_leBytes_of_lt {k v : Nat} (h : v < 2 ^ (8 * k)) :
    leVal (leBytes k v) = v := by
  rw [leVal_leBytes, Nat.mod_eq_of_lt h]

theorem leBytes_lt (k v : Nat) : ∀ b ∈ leBytes k v, b < 256 := by
  induction k generalizing v with
  | zero => intro b hb; simp [leBytes] at hb
  | succ k ih =>
    intro b hb
    simp only [leBytes, List.mem_cons] at hb
    rcases hb with h | h
    · omega
    · exact ih _ b h

theorem field_append_ge (l1 l2 : List Nat) (off len : Nat)
    (h : l1.length ≤ off) :
    field (l1 ++ l2) off len = field l2 (off - l1.length) len := by
  unfold field
  rw [List.drop_append_eq_append_drop, List.drop_eq_nil_iff.mpr h,
    List.nil_append]

theorem bytesAt_append_ge (l1 l2 : List Nat) (off len : Nat)
    (h : l1.length ≤ off) :
    bytesAt (l1 ++ l2) off len = bytesAt l2 (off - l1.length) len := by
  unfold bytesAt
  rw [List.drop_append_eq_append_drop, List.drop_eq_nil_iff.mpr h,
    List.nil_append]

theorem field_append_lt (l1 l2 : List Nat) (off len : Nat)
    (h : off + len ≤ l1.length) :
    field (l1 ++ l2) off len = field l1 off len := by
  unfold field
  rw [List.drop_append_of_le_length (by omega), List.take_append_of_le_length]
  simp only [List.length_drop]
  omega

theorem bytesAt_append_lt (l1 l2 : List Nat) (off len : Nat)
    (h : off + len ≤ l1.length) :
    bytesAt (l1 ++ l2) off len = bytesAt l1 off len := by
  unfold bytesAt
  rw [List.drop_append_of_le_length (by omega), List.take_append_of_le_length]
  simp only [List.length_drop]
  omega

theorem field_here (l : List Nat) (len : Nat) (h : l.length = len) :
    field l 0 len = leVal l := by
  unfold field
  rw [List.drop_zero, List.take_of_length_le (by omega)]

theorem field_leBytes (k v : Nat) : field (leBytes k v) 0 k = v % 2 ^ (8 * k) := by
  rw [field_here _ _ (leBytes_length k v), leVal_leBytes]

theorem bytesAt_here (l : List Nat) (len : Nat) (h : l.length = len)
    (hb : ∀ b ∈ l, b < 256) :
    bytesAt l 0 len = l := by
  unfold bytesAt
  rw [List.drop_zero, List.take_of_length_le (by omega)]
  exact List.map_congr_left (fun b hbl => Nat.mod_eq_of_lt (hb b hbl)) |>.trans
    (List.map_id l)

theorem strToC_eq (n : List Nat) (size : Nat) (h : n.length ≤ size) :
    strToC n size = n ++ List.replicate (size - n.length) 0 := by
  unfold strToC
  rw [List.take_of_length_le]
  simp only [List.length_append, List.length_replicate]
  omega

@[simp] theorem strToC_length_eq (n : List Nat) (size : Nat) :
    (strToC n size).length = size := by
  unfold strToC
  simp only [List.length_take, List.length_append, List.length_replicate]
  omega

@[simp] theorem strToC_length (n : List Nat) (size : Nat) (h : n.length ≤ size) :
    (strToC n size).length = size := by
  rw [strToC_eq n size h]
  simp only [List.length_append, List.length_replicate]
  omega

theorem takeUntilNul_append_replicate (n : List Nat) (k : Nat)
    (h : ∀ b ∈ n, 0 < b) :
    takeUntilNul (n ++ List.replicate k 0) = n := by
  induction n with
  | nil =>
    cases k with
    | zero => rfl
    | succ k => simp [takeUntilNul, List.replicate_succ]
  | cons b bs ih =>
    have hb := h b (List.mem_cons_self ..)
    show (if b = 0 then [] else b :: takeUntilNul (bs ++ List.replicate k 0)) =
      b :: bs
    rw [if_neg (by omega), ih (fun x hx => h x (List.mem_cons_of_mem _ hx))]

theorem takeUntilNul_strToC (n : List Nat) (size : Nat)
    (h : WfName n size) : takeUntilNul (strToC n size) = n := by
  rw [strToC_eq n size (le_of_lt h.1)]
  exact takeUntilNul_append_replicate n _ (fun b hb => (h.2.1 b hb).1)

theorem strFromC_strToC (label : String) (off : Nat) (n : List Nat)
    (size : Nat) (h : WfName n size) :
    strFromC label off (strToC n size) = .ok n := by
  unfold strFromC
  rw [takeUntilNul_strToC n size h, if_pos h.2.2]

theorem strToC_bytes_lt (n : List Nat) (size : Nat) (h : WfName n size) :
    ∀ b ∈ strToC n size, b < 256 := by
  intro b hb
  rw [strToC_eq n size (le_of_lt h.1)] at hb
  rcases List.mem_append.mp hb with h' | h'
  · exact (h.2.1 b h').2
  · rw [List.eq_of_mem_replicate h']; omega

theorem getElem?_idxOf (tbl : List (List Nat)) (n : List Nat) (h : n ∈ tbl) :
    tbl[idxOf tbl n]? = some n := by
  induction tbl with
  | nil => cases h
  | cons m rest ih =>
    by_cases hm : m = n
    · subst hm; simp [idxOf]
    · have hn : n ∈ rest := by
        rcases List.mem_cons.mp h with h' | h'
        · exact absurd h'.symm hm
        · exact h'
      simp [idxOf, if_neg hm, ih hn]

theorem idxOf_lt_length (tbl : List (List Nat)) (n : List Nat) (h : n ∈ tbl) :
    idxOf tbl n < tbl.length := by
  have := getElem?_idxOf tbl n h
  by_contra hlen
  rw [List.getElem?_eq_none (by omega)] at this
  cases this

theorem lookupName_nameToIndex (tbl : List (List Nat)) (l1 l2 : String)
    (n : List Nat) (off : Nat) (h : n ∈ tbl) :
    nameToIndex tbl l1 n = .ok (idxOf tbl n) ∧
      lookupName tbl l2 (idxOf tbl n) off = .ok n := by
  constructor
  · unfold nameToIndex; rw [if_pos h]
  · unfold lookupName
    rw [getElem?_idxOf tbl n h]

/-! ## Generic `Except` plumbing -/

theorem bindOk {α β : Type} {x : Except Error α} {f : α → Except Error β}
    {b : β} (h : x >>= f = .ok b) : ∃ a, x = .ok a ∧ f a = .ok b := by
  cases x with
  | ok a => exact ⟨a, rfl, h⟩
  | error e => simp [Bind.bind, Except.bind] at h

@[simp] theorem ok_bind {α β : Type} (a : α) (f : α → Except Error β) :
    (Except.ok a >>= f) = f a := rfl

@[simp] theorem guardA_true (label : String) (p : Prop) [Decidable p]
    (off : Nat) (h : p) : guardA label p off = .ok () := by
  unfold guardA; rw [if_pos h]

theorem guardA_ok {label : String} {p : Prop} [Decidable p] {off : Nat}
    {u : Unit} (h : guardA label p off = .ok u) : p := by
  unfold guardA at h
  by_cases hp : p
  · exact hp
  · rw [if_neg hp] at h; exact absurd h (by simp)

/-! ## Field-extraction simp lemmas

These drive the computation of `field`/`bytesAt` on the concatenated output
of an encoder: skip over a leading chunk of known length, or read it off
when the offsets line up. -/

@[simp] theorem field_skip_leBytes (k v : Nat) (rest : List Nat)
    (off len : Nat) (h : k ≤ off) :
    field (leBytes k v ++ rest) off len = field rest (off - k) len := by
  rw [field_append_ge _ _ _ _ (by simp; omega), leBytes_length]

@[simp] theorem field_at_leBytes (k v : Nat) (rest : List Nat) :
    field (leBytes k v ++ rest) 0 k = v % 2 ^ (8 * k) := by
  rw [field_append_lt _ _ _ _ (by simp), field_leBytes]

@[simp] theorem bytesAt_skip_leBytes (k v : Nat) (rest : List Nat)
    (off len : Nat) (h : k ≤ off) :
    bytesAt (leBytes k v ++ rest) off len = bytesAt rest (off - k) len := by
  rw [bytesAt_append_ge _ _ _ _ (by simp; omega), leBytes_length]

theorem field_skip_chunk (c rest : List Nat) (n off len : Nat)
    (hn : c.length = n) (h : n ≤ off) :
    field (c ++ rest) off len = field rest (off - n) len := by
  rw [field_append_ge _ _ _ _ (by omega), hn]

theorem bytesAt_skip_chunk (c rest : List Nat) (n off len : Nat)
    (hn : c.length = n) (h : n ≤ off) :
    bytesAt (c ++ rest) off len = bytesAt rest (off - n) len := by
  rw [bytesAt_append_ge _ _ _ _ (by omega), hn]

theorem bytesAt_at_chunk (c rest : List Nat) (len : Nat)
    (hn : c.length = len) (hb : ∀ b ∈ c, b < 256) :
    bytesAt (c ++ rest) 0 len = c := by
  rw [bytesAt_append_lt _ _ _ _ (by omega), bytesAt_here _ _ hn hb]

@[simp] theorem assertBool_boolC (label : String) (b : Bool) (off : Nat) :
    assertBool label (boolC b) off = .ok b := by
  cases b <;> rfl

@[simp] theorem boolC_mod_u16 (b : Bool) : boolC b % 65536 = boolC b := by
  cases b <;> rfl

@[simp] theorem boolC_mod_u32 (b : Bool) : boolC b % 4294967296 = boolC b := by
  cases b <;> rfl

theorem ObjectOpacityState.roundtrip_opac (ad : AnimDef) (v : ObjectOpacityState)
    (o p : Nat) (h : ObjectOpacityState.Wf ad v) :
    ∃ bs r', ObjectOpacityState.write v ad = .ok bs ∧
      ObjectOpacityState.read ⟨bs, o, p⟩ ad 12 = .ok (v, r') := by
  obtain ⟨hmem, hlen, hop, hr1, hr2⟩ := h
  obtain ⟨hidx, hlook⟩ := lookupName_nameToIndex ad.nodes "node to index"
    "object opacity state node" v.node (o + 8) hmem
  have hsmall : idxOf ad.nodes v.node < U32 :=
    lt_of_lt_of_le (idxOf_lt_length _ _ hmem) hlen
  have hmod : idxOf ad.nodes v.node % U32 = idxOf ad.nodes v.node :=
    Nat.mod_eq_of_lt hsmall
  refine ⟨_, ⟨[], (o + 12 % U32) % U32, o⟩,
    by rw [ObjectOpacityState.write, hidx, ok_bind], ?_⟩
  rw [ObjectOpacityState.read]
  have hexact : CountingReader.readExact ⟨leBytes 2 (boolC v.is_set) ++
        leBytes 2 (boolC v.state) ++ leBytes 4 v.opacity ++
        leBytes 4 (idxOf ad.nodes v.node % U32), o, p⟩ 12 =
      .ok (leBytes 2 (boolC v.is_set) ++ leBytes 2 (boolC v.state) ++
        leBytes 4 v.opacity ++ leBytes 4 (idxOf ad.nodes v.node % U32),
        ⟨[], (o + 12 % U32) % U32, o⟩) := by
    unfold CountingReader.readExact CountingReader.readExactSt
    rw [if_pos (by simp)]
    simp [List.take_of_length_le, List.drop_eq_nil_iff]
  rw [guardA_true _ _ _ rfl, ok_bind, hexact, ok_bind, hmod]
  simp [field_skip_leBytes, field_at_leBytes, field_leBytes, guardA, U32,
    Nat.mod_eq_of_lt (show v.opacity < 4294967296 from hop),
    Nat.mod_eq_of_lt (show idxOf ad.nodes v.node < 4294967296 from hsmall),
    hlook, hr1, hr2]

/-! ## Facts about the reader primitives -/

theorem readExactSt_ok (r : CountingReader) (n : Nat)
    (h : n ≤ r.inner.length) :
    r.readExactSt n = (.ok (r.inner.take n),
      ⟨r.inner.drop n, (r.offset + n % U32) % U32, r.offset⟩) := by
  unfold CountingReader.readExactSt
  rw [if_pos h]

theorem readExactSt_err (r : CountingReader) (n : Nat)
    (h : r.inner.length < n) :
    r.readExactSt n = (.error .transport, r) := by
  unfold CountingReader.readExactSt
  rw [if_neg (by omega)]

theorem readExactSt_err_state {r : CountingReader} {n : Nat} {e : Error}
    (h : (r.readExactSt n).1 = .error e) : (r.readExactSt n).2 = r := by
  unfold CountingReader.readExactSt at *
  by_cases hn : n ≤ r.inner.length
  · rw [if_pos hn] at h; cases h
  · rw [if_neg hn]

theorem readU16_ok {r r' : CountingReader} {v : Nat}
    (h : r.readU16 = .ok (v, r')) :
    r'.inner = r.inner.drop 2 ∧ 2 ≤ r.inner.length ∧
      r'.offset = (r.offset + 2) % U32 ∧ r'.prev = r.offset ∧
      v = field r.inner 0 2 := by
  unfold CountingReader.readU16 CountingReader.readExact
    CountingReader.readExactSt at h
  by_cases hn : 2 ≤ r.inner.length
  · rw [if_pos hn] at h
    simp only [ok_bind, Except.ok.injEq, Prod.mk.injEq] at h
    obtain ⟨hv, hr⟩ := h
    subst hr
    refine ⟨rfl, hn, rfl, rfl, ?_⟩
    rw [← hv]; unfold field; rw [List.drop_zero]
  · rw [if_neg hn] at h
    simp [Bind.bind, Except.bind] at h

theorem readU32_ok {r r' : CountingReader} {v : Nat}
    (h : r.readU32 = .ok (v, r')) :
    r'.inner = r.inner.drop 4 ∧ 4 ≤ r.inner.length ∧
      r'.offset = (r.offset + 4) % U32 ∧ r'.prev = r.offset ∧
      v = field r.inner 0 4 := by
  unfold CountingReader.readU32 CountingReader.readExact
    CountingReader.readExactSt at h
  by_cases hn : 4 ≤ r.inner.length
  · rw [if_pos hn] at h
    simp only [ok_bind, Except.ok.injEq, Prod.mk.injEq] at h
    obtain ⟨hv, hr⟩ := h
    subst hr
    refine ⟨rfl, hn, rfl, rfl, ?_⟩
    rw [← hv]; unfold field; rw [List.drop_zero]
  · rw [if_neg hn] at h
    simp [Bind.bind, Except.bind] at h

theorem bitsOf_lt (l : List Bool) : bitsOf l < 2 ^ l.length := by
  induction l with
  | nil => simp [bitsOf]
  | cons b bs ih =>
    have hb : boolC b ≤ 1 := by cases b <;> simp [boolC]
    simp only [bitsOf, List.length_cons, pow_succ]
    omega

theorem testBit_bitsOf (l : List Bool) (k : Nat) :
    (bitsOf l).testBit k = l.getD k false := by
  induction l generalizing k with
  | nil => simp [bitsOf]
  | cons b bs ih =>
    cases k with
    | zero =>
      simp only [bitsOf, Nat.testBit_zero, List.getD_cons_zero]
      cases b <;> simp [boolC] <;> omega
    | succ k =>
      rw [Nat.testBit_succ]
      have hdiv : bitsOf (b :: bs) / 2 = bitsOf bs := by
        show (boolC b + 2 * bitsOf bs) / 2 = bitsOf bs
        cases b <;> simp [boolC] <;> omega
      rw [hdiv, ih, List.getD_cons_succ]

theorem land_eq_zero (x m : Nat)
    (h : ∀ i, x.testBit i = true → m.testBit i = false) : x &&& m = 0 := by
  apply Nat.eq_of_testBit_eq
  intro i
  rw [Nat.testBit_and, Nat.zero_testBit]
  cases hx : x.testBit i
  · simp
  · simp [h i hx]

theorem m32_m32 (x : Nat) : m32 (m32 x) = m32 x := by
  unfold m32
  exact Nat.mod_eq_of_lt (Nat.mod_lt _ (by unfold U32; omega))

theorem m32_eq_of_lt {x : Nat} (h : x < U32) : m32 x = x := Nat.mod_eq_of_lt h

theorem Vec3.mod32_eq {v : Vec3} (h : v.wf) : v.mod32 = v := by
  obtain ⟨h1, h2, h3⟩ := h
  unfold Vec3.mod32
  rw [m32_eq_of_lt h1, m32_eq_of_lt h2, m32_eq_of_lt h3]

@[simp] theorem vec3EqZero_EMPTY : vec3EqZero Vec3.EMPTY = true := by decide

theorem OptWf_getD {α : Type} (p : α → Prop) (o : Option α) (d : α)
    (hd : p d) (h : OptWf p o) : p (o.getD d) := by
  cases o
  · exact hd
  · exact h

theorem ObjectMotionFromToFlags.ofBits_toBits_ft (f : ObjectMotionFromToFlags) :
    ObjectMotionFromToFlags.ofBits f.toBits = some f := by
  have hlt : f.toBits < 2 ^ 4 :=
    bitsOf_lt [f.translate, f.rotate, f.scale, f.morph]
  unfold ObjectMotionFromToFlags.ofBits
  rw [if_pos]
  · unfold ObjectMotionFromToFlags.toBits
    simp only [testBit_bitsOf, List.getD]
    rfl
  · apply land_eq_zero
    intro i hx
    by_cases hi : i < 4
    · interval_cases i <;> rfl
    · rw [Nat.testBit_lt_two_pow (lt_of_lt_of_le hlt
        (Nat.pow_le_pow_right (by omega) (by omega)))] at hx
      cases hx

theorem ObjectMotionFromToC.toBytes_length_ft (c : ObjectMotionFromToC) :
    c.toBytes.length = 132 := by
  simp [ObjectMotionFromToC.toBytes, leVec3]

theorem ObjectMotionFromToC.ofBytes_toBytes_ft (c : ObjectMotionFromToC) :
    ObjectMotionFromToC.ofBytes c.toBytes = c.mod32 := by
  simp [ObjectMotionFromToC.ofBytes, ObjectMotionFromToC.toBytes,
    ObjectMotionFromToC.mod32, leVec3, vec3At, Vec3.mod32, m32, U32,
    List.append_assoc, field_skip_leBytes, field_at_leBytes, field_leBytes]

theorem zeroF3_wf : zeroF3.wf := by decide

theorem zeroV3_wf : zeroV3.wf := by decide

theorem readExact_all (bs : List Nat) (o p n : Nat) (h : bs.length = n) :
    CountingReader.readExact ⟨bs, o, p⟩ n =
      .ok (bs, ⟨[], (o + n % U32) % U32, o⟩) := by
  unfold CountingReader.readExact CountingReader.readExactSt
  rw [if_pos (by simp [h])]
  simp [List.take_of_length_le, List.drop_eq_nil_iff, h]

theorem readExact_take (r : CountingReader) (n : Nat)
    (h : n ≤ r.inner.length) :
    r.readExact n = .ok (r.inner.take n,
      ⟨r.inner.drop n, (r.offset + n % U32) % U32, r.offset⟩) := by
  unfold CountingReader.readExact CountingReader.readExactSt
  rw [if_pos h]

theorem readExact_err (r : CountingReader) (n : Nat)
    (h : r.inner.length < n) :
    r.readExact n = .error .transport := by
  unfold CountingReader.readExact CountingReader.readExactSt
  rw [if_neg (by omega)]

theorem field_take (l : List Nat) (n off len : Nat) (h : off + len ≤ n) :
    field (l.take n) off len = field l off len := by
  unfold field
  rw [List.drop_take, List.take_take]
  have hmin : len ⊓ (n - off) = len := by omega
  rw [hmin]

@[simp] theorem f32Eq_zero_zero : f32Eq fZero fZero = true := by decide

@[simp] theorem f32Eq_one_one : f32Eq fOne fOne = true := by decide

theorem readFtMorph_mkC (v : ObjectMotionFromTo) (idx prev : Nat) :
    readFtMorph (ObjectMotionFromTo.flagsOf v)
      (ObjectMotionFromTo.mkC v idx) prev = .ok v.morph := by
  rcases hv : v.morph with _ | m
  · simp [readFtMorph, ObjectMotionFromTo.flagsOf,
      ObjectMotionFromTo.mkC, hv, zeroF3, guardA]
  · simp [readFtMorph, ObjectMotionFromTo.flagsOf,
      ObjectMotionFromTo.mkC, hv]

theorem readFtTranslate_mkC (v : ObjectMotionFromTo) (idx prev : Nat) :
    readFtTranslate (ObjectMotionFromTo.flagsOf v)
      (ObjectMotionFromTo.mkC v idx) prev = .ok v.translate := by
  rcases hv : v.translate with _ | m
  · simp [readFtTranslate, ObjectMotionFromTo.flagsOf,
      ObjectMotionFromTo.mkC, hv, zeroV3, guardA]
  · simp [readFtTranslate, ObjectMotionFromTo.flagsOf,
      ObjectMotionFromTo.mkC, hv]

theorem readFtRotate_mkC (v : ObjectMotionFromTo) (idx prev : Nat) :
    readFtRotate (ObjectMotionFromTo.flagsOf v)
      (ObjectMotionFromTo.mkC v idx) prev = .ok v.rotate := by
  rcases hv : v.rotate with _ | m
  · simp [readFtRotate, ObjectMotionFromTo.flagsOf,
      ObjectMotionFromTo.mkC, hv, zeroV3, guardA]
  · simp [readFtRotate, ObjectMotionFromTo.flagsOf,
      ObjectMotionFromTo.mkC, hv]

theorem readFtScale_mkC (v : ObjectMotionFromTo) (idx prev : Nat) :
    readFtScale (ObjectMotionFromTo.flagsOf v)
      (ObjectMotionFromTo.mkC v idx) prev = .ok v.scale := by
  rcases hv : v.scale with _ | m
  · simp [readFtScale, ObjectMotionFromTo.flagsOf,
      ObjectMotionFromTo.mkC, hv, zeroV3, guardA]
  · simp [readFtScale, ObjectMotionFromTo.flagsOf,
      ObjectMotionFromTo.mkC, hv]

theorem ObjectMotionFromTo.mkC_mod32 (ad : AnimDef)
    (v : ObjectMotionFromTo) (idx : Nat) (h : ObjectMotionFromTo.Wf ad v) :
    (ObjectMotionFromTo.mkC v idx).mod32 = ObjectMotionFromTo.mkC v idx := by
  obtain ⟨-, -, hm, ht, hr, hs, hrt, -⟩ := h
  have hm' := OptWf_getD _ _ _ zeroF3_wf hm
  have ht' := OptWf_getD _ _ _ zeroV3_wf ht
  have hr' := OptWf_getD _ _ _ zeroV3_wf hr
  have hs' := OptWf_getD _ _ _ zeroV3_wf hs
  have hfl : (ObjectMotionFromTo.flagsOf v).toBits < U32 :=
    lt_of_lt_of_le (bitsOf_lt _) (by unfold U32; norm_num)
  unfold ObjectMotionFromTo.mkC ObjectMotionFromToC.mod32
  simp only [m32_m32, m32_eq_of_lt hfl, m32_eq_of_lt hrt,
    m32_eq_of_lt hm'.1, m32_eq_of_lt hm'.2.1, m32_eq_of_lt hm'.2.2,
    Vec3.mod32_eq ht'.1, Vec3.mod32_eq ht'.2.1, Vec3.mod32_eq ht'.2.2,
    Vec3.mod32_eq hr'.1, Vec3.mod32_eq hr'.2.1, Vec3.mod32_eq hr'.2.2,
    Vec3.mod32_eq hs'.1, Vec3.mod32_eq hs'.2.1, Vec3.mod32_eq hs'.2.2]

theorem ObjectMotionFromTo.validate_mkC_ft (ad : AnimDef)
    (v : ObjectMotionFromTo) (idx prev : Nat)
    (hnode : lookupName ad.nodes "object motion from to node" (m32 idx)
      (prev + 4) = .ok v.node)
    (hpos : f32Gt v.run_time fZero = true) :
    ObjectMotionFromTo.validate (ObjectMotionFromTo.mkC v idx) prev ad =
      .ok v := by
  rw [ObjectMotionFromTo.validate]
  have hparse : ObjectMotionFromToFlags.parse
      (ObjectMotionFromTo.mkC v idx).flags (prev + 0) =
      .ok (ObjectMotionFromTo.flagsOf v) := by
    show ObjectMotionFromToFlags.parse
      (ObjectMotionFromTo.flagsOf v).toBits (prev + 0) = _
    unfold ObjectMotionFromToFlags.parse
    rw [ObjectMotionFromToFlags.ofBits_toBits_ft]
  rw [hparse, ok_bind,
    show (ObjectMotionFromTo.mkC v idx).node_index = m32 idx from rfl,
    hnode, ok_bind, readFtMorph_mkC, ok_bind, readFtTranslate_mkC, ok_bind,
    readFtRotate_mkC, ok_bind, readFtScale_mkC, ok_bind,
    show (ObjectMotionFromTo.mkC v idx).run_time = v.run_time from rfl,
    guardA_true _ _ _ hpos, ok_bind]

theorem ObjectMotionFromTo.roundtrip_ft (ad : AnimDef)
    (v : ObjectMotionFromTo) (o p : Nat) (h : ObjectMotionFromTo.Wf ad v) :
    ∃ bs r', ObjectMotionFromTo.write v ad = .ok bs ∧
      ObjectMotionFromTo.read ⟨bs, o, p⟩ ad 132 = .ok (v, r') := by
  obtain ⟨hidx, hlook⟩ := lookupName_nameToIndex ad.nodes "node to index"
    "object motion from to node" v.node (o + 4) h.1
  have hsmall : idxOf ad.nodes v.node < U32 :=
    lt_of_lt_of_le (idxOf_lt_length _ _ h.1) h.2.1
  refine ⟨_, ⟨[], (o + 132 % U32) % U32, o⟩,
    by rw [ObjectMotionFromTo.write, hidx, ok_bind], ?_⟩
  rw [ObjectMotionFromTo.read, guardA_true _ _ _ rfl, ok_bind,
    readExact_all _ _ _ _ (ObjectMotionFromToC.toBytes_length_ft _), ok_bind]
  dsimp only
  rw [ObjectMotionFromToC.ofBytes_toBytes_ft,
    ObjectMotionFromTo.mkC_mod32 ad v _ h,
    ObjectMotionFromTo.validate_mkC_ft ad v _ o
      (by rw [m32_eq_of_lt hsmall]; exact hlook) h.2.2.2.2.2.2.2, ok_bind]

theorem error_bind {α β : Type} (e : Error) (f : α → Except Error β) :
    (Except.error e >>= f) = .error e := rfl

theorem ObjectMotionFromToFlags.parse_ok_ft {raw off : Nat}
    {fm : ObjectMotionFromToFlags}
    (h : ObjectMotionFromToFlags.parse raw off = .ok fm) :
    fm.translate = raw.testBit 0 ∧ fm.rotate = raw.testBit 1 ∧
      fm.scale = raw.testBit 2 ∧ fm.morph = raw.testBit 3 := by
  unfold ObjectMotionFromToFlags.parse ObjectMotionFromToFlags.ofBits at h
  by_cases hm : raw &&& 0xFFFFFFF0 = 0
  · rw [if_pos hm] at h
    cases h
    exact ⟨rfl, rfl, rfl, rfl⟩
  · rw [if_neg hm] at h
    cases h

theorem readFtMorph_none_inv {fm : ObjectMotionFromToFlags}
    {c : ObjectMotionFromToC} {prev : Nat} {x : Option FloatFromTo}
    (h : readFtMorph fm c prev = .ok x) (hm : fm.morph = false) :
    f32Eq c.morph_from fZero = true ∧ f32Eq c.morph_to fZero = true ∧
      f32Eq c.morph_delta fZero = true := by
  unfold readFtMorph at h
  rw [hm] at h
  simp only [Bool.false_eq_true, if_false] at h
  obtain ⟨u1, h1, h⟩ := bindOk h
  obtain ⟨u2, h2, h⟩ := bindOk h
  obtain ⟨u3, h3, -⟩ := bindOk h
  exact ⟨guardA_ok h1, guardA_ok h2, guardA_ok h3⟩

theorem readFtTranslate_none_inv {fm : ObjectMotionFromToFlags}
    {c : ObjectMotionFromToC} {prev : Nat} {x : Option Vec3FromTo}
    (h : readFtTranslate fm c prev = .ok x) (hm : fm.translate = false) :
    vec3EqZero c.translate_from = true ∧ vec3EqZero c.translate_to = true ∧
      vec3EqZero c.translate_delta = true := by
  unfold readFtTranslate at h
  rw [hm] at h
  simp only [Bool.false_eq_true, if_false] at h
  obtain ⟨u1, h1, h⟩ := bindOk h
  obtain ⟨u2, h2, h⟩ := bindOk h
  obtain ⟨u3, h3, -⟩ := bindOk h
  exact ⟨guardA_ok h1, guardA_ok h2, guardA_ok h3⟩

theorem readFtRotate_none_inv {fm : ObjectMotionFromToFlags}
    {c : ObjectMotionFromToC} {prev : Nat} {x : Option Vec3FromTo}
    (h : readFtRotate fm c prev = .ok x) (hm : fm.rotate = false) :
    vec3EqZero c.rotate_from = true ∧ vec3EqZero c.rotate_to = true ∧
      vec3EqZero c.rotate_delta = true := by
  unfold readFtRotate at h
  rw [hm] at h
  simp only [Bool.false_eq_true, if_false] at h
  obtain ⟨u1, h1, h⟩ := bindOk h
  obtain ⟨u2, h2, h⟩ := bindOk h
  obtain ⟨u3, h3, -⟩ := bindOk h
  exact ⟨guardA_ok h1, guardA_ok h2, guardA_ok h3⟩

theorem readFtScale_none_inv {fm : ObjectMotionFromToFlags}
    {c : ObjectMotionFromToC} {prev : Nat} {x : Option Vec3FromTo}
    (h : readFtScale fm c prev = .ok x) (hm : fm.scale = false) :
    vec3EqZero c.scale_from = true ∧ vec3EqZero c.scale_to = true ∧
      vec3EqZero c.scale_delta = true := by
  unfold readFtScale at h
  rw [hm] at h
  simp only [Bool.false_eq_true, if_false] at h
  obtain ⟨u1, h1, h⟩ := bindOk h
  obtain ⟨u2, h2, h⟩ := bindOk h
  obtain ⟨u3, h3, -⟩ := bindOk h
  exact ⟨guardA_ok h1, guardA_ok h2, guardA_ok h3⟩

/-- Successful decoding forces every clear-flagged group's slot to hold the
sentinel value (IEEE zero) in the object-motion-from-to record. -/
theorem fromTo_validate_sentinels {c : ObjectMotionFromToC} {prev : Nat}
    {ad : AnimDef} {v : ObjectMotionFromTo}
    (h : ObjectMotionFromTo.validate c prev ad = .ok v) :
    (c.flags.testBit 3 = false →
      f32Eq c.morph_from fZero = true ∧ f32Eq c.morph_to fZero = true ∧
        f32Eq c.morph_delta fZero = true) ∧
    (c.flags.testBit 0 = false →
      vec3EqZero c.translate_from = true ∧
        vec3EqZero c.translate_to = true ∧
        vec3EqZero c.translate_delta = true) ∧
    (c.flags.testBit 1 = false →
      vec3EqZero c.rotate_from = true ∧ vec3EqZero c.rotate_to = true ∧
        vec3EqZero c.rotate_delta = true) ∧
    (c.flags.testBit 2 = false →
      vec3EqZero c.scale_from = true ∧ vec3EqZero c.scale_to = true ∧
        vec3EqZero c.scale_delta = true) := by
  unfold ObjectMotionFromTo.validate at h
  obtain ⟨fm, hfm, h⟩ := bindOk h
  obtain ⟨htr, hro, hsc, hmo⟩ := ObjectMotionFromToFlags.parse_ok_ft hfm
  obtain ⟨node, hnode, h⟩ := bindOk h
  obtain ⟨morph, hmorph, h⟩ := bindOk h
  obtain ⟨translate, htrans, h⟩ := bindOk h
  obtain ⟨rotate, hrot, h⟩ := bindOk h
  obtain ⟨scale, hscale, h⟩ := bindOk h
  refine ⟨fun hb => readFtMorph_none_inv hmorph (by rw [hmo, hb]),
    fun hb => readFtTranslate_none_inv htrans (by rw [htr, hb]),
    fun hb => readFtRotate_none_inv hrot (by rw [hro, hb]),
    fun hb => readFtScale_none_inv hscale (by rw [hsc, hb])⟩

/-- Decoding inversion through the raw transfer: a successful
`ObjectMotionFromTo::read` yields the validated parse of the first 132
bytes. -/
theorem fromTo_read_ok_inv {r : CountingReader} {ad : AnimDef} {size : Nat}
    {v : ObjectMotionFromTo} {r' : CountingReader}
    (h : ObjectMotionFromTo.read r ad size = .ok (v, r')) :
    ObjectMotionFromTo.validate
      (ObjectMotionFromToC.ofBytes (r.inner.take 132)) r.offset ad =
      .ok v := by
  unfold ObjectMotionFromTo.read at h
  obtain ⟨u, hu, h⟩ := bindOk h
  by_cases hlen : 132 ≤ r.inner.length
  · rw [readExact_take _ _ hlen, ok_bind] at h
    dsimp only at h
    obtain ⟨w, hw, h⟩ := bindOk h
    simp only [Except.ok.injEq, Prod.mk.injEq] at h
    rw [h.1] at hw
    exact hw
  · rw [readExact_err _ _ (by omega), error_bind] at h
    cases h

/-- The flags field of a serialized struct is its (truncated) flags
word. -/
theorem fromTo_toBytes_flags (c : ObjectMotionFromToC) :
    field c.toBytes 0 4 = m32 c.flags := by
  have h := congrArg ObjectMotionFromToC.flags
    (ObjectMotionFromToC.ofBytes_toBytes_ft c)
  dsimp only [ObjectMotionFromToC.ofBytes, ObjectMotionFromToC.mod32] at h
  exact h

/-- The flags word of the struct built by the from-to encoder. -/
theorem fromTo_mkC_flags (v : ObjectMotionFromTo) (idx : Nat) :
    field (ObjectMotionFromTo.mkC v idx).toBytes 0 4 =
      (ObjectMotionFromTo.flagsOf v).toBits := by
  have hlt : (ObjectMotionFromTo.flagsOf v).toBits < U32 :=
    lt_of_lt_of_le (bitsOf_lt _) (by unfold U32; norm_num)
  rw [fromTo_toBytes_flags]
  exact m32_eq_of_lt hlt

/-- Encoding an absent group zero-fills its slot (byte-for-byte) and leaves
its flag bit clear, in the object-motion-from-to record. -/
theorem fromTo_write_none_sentinel {ad : AnimDef} {v : ObjectMotionFromTo}
    {bs : List Nat} (hw : ObjectMotionFromTo.write v ad = .ok bs) :
    (v.morph = none → bytesAt bs 8 12 = List.replicate 12 0 ∧
      (field bs 0 4).testBit 3 = false) ∧
    (v.translate = none → bytesAt bs 20 36 = List.replicate 36 0 ∧
      (field bs 0 4).testBit 0 = false) ∧
    (v.rotate = none → bytesAt bs 56 36 = List.replicate 36 0 ∧
      (field bs 0 4).testBit 1 = false) ∧
    (v.scale = none → bytesAt bs 92 36 = List.replicate 36 0 ∧
      (field bs 0 4).testBit 2 = false) := by
  unfold ObjectMotionFromTo.write at hw
  obtain ⟨idx, -, hw⟩ := bindOk hw
  have hbs : bs = (ObjectMotionFromTo.mkC v idx).toBytes := by
    cases hw; rfl
  subst hbs
  rw [fromTo_mkC_flags]
  unfold ObjectMotionFromToFlags.toBits
  simp only [testBit_bitsOf, List.getD]
  refine ⟨fun hb => ⟨?_, by simp [ObjectMotionFromTo.flagsOf, hb]⟩,
    fun hb => ⟨?_, by simp [ObjectMotionFromTo.flagsOf, hb]⟩,
    fun hb => ⟨?_, by simp [ObjectMotionFromTo.flagsOf, hb]⟩,
    fun hb => ⟨?_, by simp [ObjectMotionFromTo.flagsOf, hb]⟩⟩ <;>
    simp [ObjectMotionFromToC.toBytes, ObjectMotionFromTo.mkC, hb, zeroF3,
      zeroV3, Vec3.EMPTY, fZero, leVec3, leBytes, bytesAt, List.append_assoc,
      List.replicate]

/-- An all-ones flag word makes `ObjectMotionFromTo::read` fail as an
unknown discriminant at the record start (the offset of the flags
field). -/
theorem fromTo_read_allones (r : CountingReader) (ad : AnimDef)
    (hlen : 132 ≤ r.inner.length)
    (hf : field r.inner 0 4 = 0xFFFFFFFF) :
    ObjectMotionFromTo.read r ad 132 =
      .error (.unknownDiscriminant 0xFFFFFFFF r.offset) := by
  rw [ObjectMotionFromTo.read, guardA_true _ _ _ rfl, ok_bind,
    readExact_take _ _ hlen, ok_bind]
  dsimp only
  have hfl : (ObjectMotionFromToC.ofBytes (r.inner.take 132)).flags =
      0xFFFFFFFF := by
    show field (r.inner.take 132) 0 4 = 0xFFFFFFFF
    rw [field_take _ _ _ _ (by omega), hf]
  rw [ObjectMotionFromTo.validate, hfl,
    show ObjectMotionFromToFlags.parse 0xFFFFFFFF (r.offset + 0) =
      .error (.unknownDiscriminant 0xFFFFFFFF (r.offset + 0)) from rfl,
    error_bind, Nat.add_zero, error_bind]

theorem ObjectConnectorFlags.ofBits_toBits_conn (f : ObjectConnectorFlags) :
    ObjectConnectorFlags.ofBits f.toBits = some f := by
  unfold ObjectConnectorFlags.ofBits
  rw [if_pos]
  · unfold ObjectConnectorFlags.toBits
    simp only [testBit_bitsOf, List.getD]
    rfl
  · apply land_eq_zero
    intro i hx
    rw [ObjectConnectorFlags.toBits, testBit_bitsOf] at hx
    by_cases hi : i < 16
    · interval_cases i <;> first | decide | simp at hx
    · exfalso
      rw [List.getD_eq_default] at hx
      · cases hx
      · simp; omega

theorem ObjectConnectorC.toBytes_length_conn (c : ObjectConnectorC) :
    c.toBytes.length = 76 := by
  simp [ObjectConnectorC.toBytes, leVec3]

theorem ObjectConnectorC.ofBytes_toBytes_conn (c : ObjectConnectorC) :
    ObjectConnectorC.ofBytes c.toBytes = c.modW := by
  simp [ObjectConnectorC.ofBytes, ObjectConnectorC.toBytes,
    ObjectConnectorC.modW, leVec3, vec3At, Vec3.mod32, m32, m16, U32,
    List.append_assoc, field_skip_leBytes, field_at_leBytes, field_leBytes]

theorem m16_m16 (x : Nat) : m16 (m16 x) = m16 x := by
  unfold m16
  exact Nat.mod_eq_of_lt (Nat.mod_lt _ (by omega))

theorem m16_eq_of_lt {x : Nat} (h : x < 65536) : m16 x = x :=
  Nat.mod_eq_of_lt h

theorem connEndpointIndex_ok (ad : AnimDef) (o : Option (List Nat))
    (hlen : ad.nodes.length ≤ 65536)
    (h : OptWf (fun n => n = INPUT_NODE ∨ n ∈ ad.nodes) o) :
    ∃ fi, connEndpointIndex o ad = .ok fi ∧
      ∀ label n off, o = some n → n ≠ INPUT_NODE →
        lookupName ad.nodes label (m16 fi) off = .ok n := by
  rcases o with _ | n
  · exact ⟨0, rfl, fun _ _ _ hc => by cases hc⟩
  · by_cases hn : n = INPUT_NODE
    · refine ⟨0, by simp [connEndpointIndex, hn], ?_⟩
      intro _ m _ hm hne
      cases hm
      exact absurd hn hne
    · have hmem : n ∈ ad.nodes := by
        rcases h with h' | h'
        · exact absurd h' hn
        · exact h'
      have hidx := (lookupName_nameToIndex ad.nodes "node to index" "x"
        n 0 hmem).1
      refine ⟨idxOf ad.nodes n, by simp [connEndpointIndex, hn, hidx], ?_⟩
      intro label m off hm hne
      cases hm
      rw [m16_eq_of_lt (lt_of_lt_of_le (idxOf_lt_length _ _ hmem) hlen)]
      exact (lookupName_nameToIndex ad.nodes "x" label n off hmem).2

theorem readConnFromNode_mkC (ad : AnimDef) (v : ObjectConnector)
    (ni fi ti prev : Nat)
    (hfi : ∀ label n off, v.from_node = some n → n ≠ INPUT_NODE →
      lookupName ad.nodes label (m16 fi) off = .ok n) :
    readConnFromNode (ObjectConnector.flagsOf v)
      (ObjectConnector.mkC v ni fi ti) ad prev = .ok v.from_node := by
  rcases hv : v.from_node with _ | n
  · simp [readConnFromNode, ObjectConnector.flagsOf, hv, guardA]
  · by_cases hn : n = INPUT_NODE
    · subst hn
      simp [readConnFromNode, ObjectConnector.flagsOf, hv, guardA]
    · simp [readConnFromNode, ObjectConnector.flagsOf, hv, hn, guardA,
        hfi "object connector from node" n (prev + 6) hv hn,
        ObjectConnector.mkC]

theorem readConnToNode_mkC (ad : AnimDef) (v : ObjectConnector)
    (ni fi ti prev : Nat)
    (hti : ∀ label n off, v.to_node = some n → n ≠ INPUT_NODE →
      lookupName ad.nodes label (m16 ti) off = .ok n) :
    readConnToNode (ObjectConnector.flagsOf v)
      (ObjectConnector.mkC v ni fi ti) ad prev = .ok v.to_node := by
  rcases hv : v.to_node with _ | n
  · simp [readConnToNode, ObjectConnector.flagsOf, hv, guardA]
  · by_cases hn : n = INPUT_NODE
    · subst hn
      simp [readConnToNode, ObjectConnector.flagsOf, hv, guardA]
    · simp [readConnToNode, ObjectConnector.flagsOf, hv, hn, guardA,
        hti "object connector to node" n (prev + 8) hv hn,
        ObjectConnector.mkC]

theorem readConnFromPos_mkC (v : ObjectConnector) (ni fi ti prev : Nat)
    (hnp : v.from_node = none → v.from_pos = none) :
    readConnFromPos (ObjectConnector.flagsOf v)
      (ObjectConnector.mkC v ni fi ti) prev = .ok v.from_pos := by
  rcases hv : v.from_pos with _ | pos
  · simp [readConnFromPos, ObjectConnector.flagsOf,
      ObjectConnector.mkC, hv, guardA]
  · have hfn : ¬ v.from_node = none := fun hc => by
      rw [hnp hc] at hv; cases hv
    rcases hfn' : v.from_node with _ | n
    · exact absurd hfn' hfn
    · simp [readConnFromPos, ObjectConnector.flagsOf,
        ObjectConnector.mkC, hv, hfn', guardA]

theorem readConnToPos_mkC (v : ObjectConnector) (ni fi ti prev : Nat)
    (hnp : v.to_node = none → v.to_pos = none) :
    readConnToPos (ObjectConnector.flagsOf v)
      (ObjectConnector.mkC v ni fi ti) prev = .ok v.to_pos := by
  rcases hv : v.to_pos with _ | pos
  · simp [readConnToPos, ObjectConnector.flagsOf,
      ObjectConnector.mkC, hv, guardA]
  · have hfn : ¬ v.to_node = none := fun hc => by
      rw [hnp hc] at hv; cases hv
    rcases hfn' : v.to_node with _ | n
    · exact absurd hfn' hfn
    · simp [readConnToPos, ObjectConnector.flagsOf,
        ObjectConnector.mkC, hv, hfn', guardA]

theorem readConnMaxLength_mkC (v : ObjectConnector) (ni fi ti prev : Nat)
    (hml : OptWf (fun m => m < U32 ∧ f32Gt m fZero = true) v.max_length) :
    readConnMaxLength (ObjectConnector.flagsOf v)
      (ObjectConnector.mkC v ni fi ti) prev = .ok v.max_length := by
  rcases hv : v.max_length with _ | m
  · simp [readConnMaxLength, ObjectConnector.flagsOf,
      ObjectConnector.mkC, hv, guardA]
  · rw [hv] at hml
    simp [readConnMaxLength, ObjectConnector.flagsOf,
      ObjectConnector.mkC, hv, guardA, hml.2]

theorem ObjectConnector.mkC_modW (ad : AnimDef) (v : ObjectConnector)
    (ni fi ti : Nat) (h : ObjectConnector.Wf ad v) :
    (ObjectConnector.mkC v ni fi ti).modW =
      ObjectConnector.mkC v ni fi ti := by
  obtain ⟨-, -, -, -, -, -, hfp, htp, hml⟩ := h
  have hfp' := OptWf_getD _ _ Vec3.EMPTY (by decide) hfp
  have htp' := OptWf_getD _ _ Vec3.EMPTY (by decide) htp
  have hml' : (v.max_length.getD fZero) < U32 := by
    rcases hv : v.max_length with _ | m
    · decide
    · rw [hv] at hml
      exact hml.1
  have hfl : (ObjectConnector.flagsOf v).toBits < U32 :=
    lt_of_lt_of_le (bitsOf_lt _) (by unfold U32; norm_num)
  unfold ObjectConnector.mkC ObjectConnectorC.modW
  simp only [m16_m16, m32_eq_of_lt hfl, m32_eq_of_lt hml',
    Vec3.mod32_eq hfp', Vec3.mod32_eq htp']
  rfl

theorem ObjectConnector.validate_mkC_conn (ad : AnimDef) (v : ObjectConnector)
    (ni fi ti prev : Nat)
    (hnode : lookupName ad.nodes "object connector node" (m16 ni)
      (prev + 4) = .ok v.node)
    (hfi : ∀ label n off, v.from_node = some n → n ≠ INPUT_NODE →
      lookupName ad.nodes label (m16 fi) off = .ok n)
    (hti : ∀ label n off, v.to_node = some n → n ≠ INPUT_NODE →
      lookupName ad.nodes label (m16 ti) off = .ok n)
    (hfnp : v.from_node = none → v.from_pos = none)
    (htnp : v.to_node = none → v.to_pos = none)
    (hml : OptWf (fun m => m < U32 ∧ f32Gt m fZero = true) v.max_length) :
    ObjectConnector.validate (ObjectConnector.mkC v ni fi ti) prev ad =
      .ok v := by
  rw [ObjectConnector.validate]
  have hparse : ObjectConnectorFlags.parse
      (ObjectConnector.mkC v ni fi ti).flags (prev + 0) =
      .ok (ObjectConnector.flagsOf v) := by
    show ObjectConnectorFlags.parse (ObjectConnector.flagsOf v).toBits
      (prev + 0) = _
    unfold ObjectConnectorFlags.parse
    rw [ObjectConnectorFlags.ofBits_toBits_conn]
  rw [hparse, ok_bind,
    readConnFromNode_mkC ad v ni fi ti prev hfi,
    readConnToNode_mkC ad v ni fi ti prev hti,
    readConnFromPos_mkC v ni fi ti prev hfnp,
    readConnToPos_mkC v ni fi ti prev htnp,
    readConnMaxLength_mkC v ni fi ti prev hml]
  dsimp only [ObjectConnector.mkC]
  rw [hnode]
  simp [guardA]

theorem ObjectConnector.roundtrip_conn (ad : AnimDef) (v : ObjectConnector)
    (o p : Nat) (h : ObjectConnector.Wf ad v) :
    ∃ bs r', ObjectConnector.write v ad = .ok bs ∧
      ObjectConnector.read ⟨bs, o, p⟩ ad 76 = .ok (v, r') := by
  obtain ⟨hmem, hlen, hfw, htw, hfnp, htnp, hfpw, htpw, hml⟩ := h
  obtain ⟨hni, hnodelook⟩ := lookupName_nameToIndex ad.nodes
    "node to index" "object connector node" v.node (o + 4) hmem
  obtain ⟨fi, hfi, hfilook⟩ := connEndpointIndex_ok ad v.from_node hlen hfw
  obtain ⟨ti, hti, htilook⟩ := connEndpointIndex_ok ad v.to_node hlen htw
  refine ⟨_, ⟨[], (o + 76 % U32) % U32, o⟩,
    by rw [ObjectConnector.write, hni, ok_bind, hfi, ok_bind, hti,
      ok_bind], ?_⟩
  rw [ObjectConnector.read, guardA_true _ _ _ rfl, ok_bind,
    readExact_all _ _ _ _ (ObjectConnectorC.toBytes_length_conn _), ok_bind]
  dsimp only
  rw [ObjectConnectorC.ofBytes_toBytes_conn,
    ObjectConnector.mkC_modW ad v _ _ _
      ⟨hmem, hlen, hfw, htw, hfnp, htnp, hfpw, htpw, hml⟩,
    ObjectConnector.validate_mkC_conn ad v _ _ _ o
      (by rw [m16_eq_of_lt (lt_of_lt_of_le (idxOf_lt_length _ _ hmem)
        hlen)]; exact hnodelook)
      hfilook htilook hfnp htnp hml, ok_bind]

theorem ObjectConnectorFlags.parse_ok_conn {raw off : Nat}
    {fm : ObjectConnectorFlags}
    (h : ObjectConnectorFlags.parse raw off = .ok fm) :
    fm.from_node = raw.testBit 0 ∧ fm.from_input_node = raw.testBit 1 := by
  unfold ObjectConnectorFlags.parse ObjectConnectorFlags.ofBits at h
  by_cases hm : raw &&& 0xFFFF7C84 = 0
  · rw [if_pos hm] at h
    cases h
    exact ⟨rfl, rfl⟩
  · rw [if_neg hm] at h
    cases h

theorem readConnFromNode_node_inv {fm : ObjectConnectorFlags}
    {c : ObjectConnectorC} {ad : AnimDef} {prev : Nat}
    {x : Option (List Nat)}
    (h : readConnFromNode fm c ad prev = .ok x)
    (hfn : fm.from_node = true) : fm.from_input_node = false := by
  unfold readConnFromNode at h
  rw [hfn] at h
  simp only [if_true] at h
  obtain ⟨u1, h1, -⟩ := bindOk h
  exact guardA_ok h1

/-- Decoding inversion for `ObjectConnector::read`. -/
theorem conn_read_ok_inv {r : CountingReader} {ad : AnimDef} {size : Nat}
    {v : ObjectConnector} {r' : CountingReader}
    (h : ObjectConnector.read r ad size = .ok (v, r')) :
    ObjectConnector.validate (ObjectConnectorC.ofBytes (r.inner.take 76))
      r.offset ad = .ok v := by
  unfold ObjectConnector.read at h
  obtain ⟨u, hu, h⟩ := bindOk h
  by_cases hlen : 76 ≤ r.inner.length
  · rw [readExact_take _ _ hlen, ok_bind] at h
    dsimp only at h
    obtain ⟨w, hw, h⟩ := bindOk h
    simp only [Except.ok.injEq, Prod.mk.injEq] at h
    rw [h.1] at hw
    exact hw
  · rw [readExact_err _ _ (by omega), error_bind] at h
    cases h

/-- With both the FROM_NODE and FROM_INPUT_NODE bits set, decoding an
object-connector record never returns a value. -/
theorem conn_read_both_not_ok {r : CountingReader} {ad : AnimDef}
    {size : Nat} {v : ObjectConnector} {r' : CountingReader}
    (h0 : (field r.inner 0 4).testBit 0 = true)
    (h1 : (field r.inner 0 4).testBit 1 = true)
    (h : ObjectConnector.read r ad size = .ok (v, r')) : False := by
  have hval := conn_read_ok_inv h
  have hcf : (ObjectConnectorC.ofBytes (r.inner.take 76)).flags =
      field r.inner 0 4 := by
    show field (r.inner.take 76) 0 4 = _
    rw [field_take _ _ _ _ (by omega)]
  unfold ObjectConnector.validate at hval
  obtain ⟨fm, hfm, hval⟩ := bindOk hval
  rw [hcf] at hfm
  obtain ⟨hb0, hb1⟩ := ObjectConnectorFlags.parse_ok_conn hfm
  obtain ⟨u1, -, hval⟩ := bindOk hval
  obtain ⟨node, -, hval⟩ := bindOk hval
  obtain ⟨fnode, hfnode, -⟩ := bindOk hval
  have := readConnFromNode_node_inv hfnode (hb0.trans h0)
  rw [hb1, h1] at this
  cases this

/-- An all-ones flag word makes `ObjectConnector::read` fail as an unknown
discriminant at the record start (the offset of the flags field). -/
theorem conn_read_allones (r : CountingReader) (ad : AnimDef)
    (hlen : 76 ≤ r.inner.length)
    (hf : field r.inner 0 4 = 0xFFFFFFFF) :
    ObjectConnector.read r ad 76 =
      .error (.unknownDiscriminant 0xFFFFFFFF r.offset) := by
  rw [ObjectConnector.read, guardA_true _ _ _ rfl, ok_bind,
    readExact_take _ _ hlen, ok_bind]
  dsimp only
  have hfl : (ObjectConnectorC.ofBytes (r.inner.take 76)).flags =
      0xFFFFFFFF := by
    show field (r.inner.take 76) 0 4 = 0xFFFFFFFF
    rw [field_take _ _ _ _ (by omega), hf]
  rw [ObjectConnector.validate, hfl,
    show ObjectConnectorFlags.parse 0xFFFFFFFF (r.offset + 0) =
      .error (.unknownDiscriminant 0xFFFFFFFF (r.offset + 0)) from rfl,
    error_bind, Nat.add_zero, error_bind]

/-- With both endpoint-kind bits set on an otherwise well-formed prefix,
decoding fails with the mutual-exclusivity assertion at the offset of the
flags field. -/
theorem conn_read_both_error (r : CountingReader) (ad : AnimDef)
    (hlen : 76 ≤ r.inner.length)
    (hmask : (field r.inner 0 4) &&& 0xFFFF7C84 = 0)
    (h0 : (field r.inner 0 4).testBit 0 = true)
    (h1 : (field r.inner 0 4).testBit 1 = true)
    (hpad : field r.inner 10 2 = 0)
    (hnode : field r.inner 4 2 < ad.nodes.length) :
    ObjectConnector.read r ad 76 =
      .error (.assertion "object connector from input node" r.offset) := by
  rw [ObjectConnector.read, guardA_true _ _ _ rfl, ok_bind,
    readExact_take _ _ hlen, ok_bind]
  dsimp only
  have hcf : (ObjectConnectorC.ofBytes (r.inner.take 76)).flags =
      field r.inner 0 4 := by
    show field (r.inner.take 76) 0 4 = _
    rw [field_take _ _ _ _ (by omega)]
  have hparse : ObjectConnectorFlags.parse
      (ObjectConnectorC.ofBytes (r.inner.take 76)).flags (r.offset + 0) =
      .ok ⟨true, true, (field r.inner 0 4).testBit 3,
        (field r.inner 0 4).testBit 4, (field r.inner 0 4).testBit 5,
        (field r.inner 0 4).testBit 6, (field r.inner 0 4).testBit 8,
        (field r.inner 0 4).testBit 9, (field r.inner 0 4).testBit 15⟩ := by
    rw [hcf]
    unfold ObjectConnectorFlags.parse ObjectConnectorFlags.ofBits
    rw [if_pos hmask, h0, h1]
  rw [ObjectConnector.validate, hparse, ok_bind]
  have hcpad : (ObjectConnectorC.ofBytes (r.inner.take 76)).pad10 = 0 := by
    show field (r.inner.take 76) 10 2 = 0
    rw [field_take _ _ _ _ (by omega), hpad]
  rw [guardA_true _ _ _ hcpad, ok_bind]
  have hcni : (ObjectConnectorC.ofBytes (r.inner.take 76)).node_index =
      field r.inner 4 2 := by
    show field (r.inner.take 76) 4 2 = _
    rw [field_take _ _ _ _ (by omega)]
  rw [show lookupName ad.nodes "object connector node"
      (ObjectConnectorC.ofBytes (r.inner.take 76)).node_index
      (r.offset + 4) = .ok (ad.nodes.get ⟨field r.inner 4 2, hnode⟩) from by
    rw [hcni]; unfold lookupName
    rw [List.getElem?_eq_getElem hnode, List.get_eq_getElem], ok_bind]
  rw [show readConnFromNode ⟨true, true, (field r.inner 0 4).testBit 3,
      (field r.inner 0 4).testBit 4, (field r.inner 0 4).testBit 5,
      (field r.inner 0 4).testBit 6, (field r.inner 0 4).testBit 8,
      (field r.inner 0 4).testBit 9, (field r.inner 0 4).testBit 15⟩
      (ObjectConnectorC.ofBytes (r.inner.take 76)) ad r.offset =
      .error (.assertion "object connector from input node"
        (r.offset + 0)) from by
    unfold readConnFromNode
    simp [guardA, error_bind], error_bind, Nat.add_zero, error_bind]

theorem LightAnimationC.toBytes_length_light (c : LightAnimationC)
    (hn : c.name.length = 32) : c.toBytes.length = 100 := by
  simp [LightAnimationC.toBytes, leVec3, hn]

theorem LightAnimationC.ofBytes_toBytes_light (c : LightAnimationC)
    (hn : c.name.length = 32) (hb : ∀ b ∈ c.name, b < 256) :
    LightAnimationC.ofBytes c.toBytes =
      { c with
        light_index := m32 c.light_index
        range := ⟨m32 c.range.x, m32 c.range.y⟩
        zero44 := m32 c.zero44
        zero48 := m32 c.zero48
        zero52 := m32 c.zero52
        zero56 := m32 c.zero56
        color := c.color.mod32
        zero72 := m32 c.zero72
        zero76 := m32 c.zero76
        zero80 := m32 c.zero80
        zero84 := m32 c.zero84
        zero88 := m32 c.zero88
        zero92 := m32 c.zero92
        runtime := m32 c.runtime } := by
  have hskip : ∀ rest off len, 32 ≤ off →
      field (c.name ++ rest) off len = field rest (off - 32) len :=
    fun rest off len h => field_skip_chunk c.name rest 32 off len hn h
  have hat : ∀ rest, bytesAt (c.name ++ rest) 0 32 = c.name :=
    fun rest => bytesAt_at_chunk c.name rest 32 hn hb
  simp [LightAnimationC.ofBytes, LightAnimationC.toBytes, leVec3, vec3At,
    Vec3.mod32, m32, U32, List.append_assoc, field_skip_leBytes,
    field_at_leBytes, field_leBytes, hskip, hat]

theorem LightAnimation.roundtrip_light (ad : AnimDef) (v : LightAnimation)
    (o p : Nat) (h : LightAnimation.Wf ad v) :
    ∃ bs r', LightAnimation.write v ad = .ok bs ∧
      LightAnimation.read ⟨bs, o, p⟩ ad 100 = .ok (v, r') := by
  obtain ⟨hwf, hmem, hlen, hr, hrc, hc, hc1, hc2, hc3, hrt, hrtp⟩ := h
  obtain ⟨hidx, hlook⟩ := lookupName_nameToIndex ad.lights "light to index"
    "light anim light" v.name (o + 32) hmem
  have hsmall : idxOf ad.lights v.name < U32 :=
    lt_of_lt_of_le (idxOf_lt_length _ _ hmem) hlen
  have hnlen : (LightAnimation.mkC v (idxOf ad.lights v.name)).name.length
      = 32 := strToC_length _ _ (le_of_lt hwf.1)
  have hnb : ∀ b ∈ (LightAnimation.mkC v (idxOf ad.lights v.name)).name,
      b < 256 := strToC_bytes_lt _ _ hwf
  refine ⟨_, ⟨[], (o + 100 % U32) % U32, o⟩,
    by rw [LightAnimation.write, hidx, ok_bind], ?_⟩
  rw [LightAnimation.read, guardA_true _ _ _ rfl, ok_bind,
    readExact_all _ _ _ _ (LightAnimationC.toBytes_length_light _ hnlen), ok_bind]
  dsimp only
  rw [LightAnimationC.ofBytes_toBytes_light _ hnlen hnb]
  rw [LightAnimation.validate]
  dsimp only [LightAnimation.mkC]
  rw [strFromC_strToC _ _ _ _ hwf, ok_bind, m32_m32, m32_eq_of_lt hsmall,
    hlook, ok_bind, guardA_true _ _ _ rfl, ok_bind]
  rw [m32_eq_of_lt hr.1, m32_eq_of_lt hr.2]
  rw [Vec3.mod32_eq hc]
  have hrange : lightRangeCheck v.range o = .ok () := by
    unfold lightRangeCheck
    by_cases hx : f32Ge v.range.x fZero = true
    · rw [if_pos hx]
      rw [if_pos hx] at hrc
      exact guardA_true _ _ _ hrc
    · rw [if_neg hx]
      rw [if_neg hx] at hrc
      exact guardA_true _ _ _ hrc
  rw [hrange, ok_bind]
  simp [guardA, show m32 0 = 0 from rfl, show m32 fZero = fZero from rfl,
    m32_eq_of_lt hrt, hrtp, hc1.1, hc1.2, hc2.1, hc2.2, hc3.1, hc3.2]

theorem bytesAt_take (l : List Nat) (n off len : Nat) (h : off + len ≤ n) :
    bytesAt (l.take n) off len = bytesAt l off len := by
  unfold bytesAt
  rw [List.drop_take, List.take_take]
  have hmin : len ⊓ (n - off) = len := by omega
  rw [hmin]

/-- A light-animation record whose embedded literal name decodes but
disagrees with the name resolved from its light index fails with the
labeled mismatch error at the offset of the light-index field
(record start + 32). -/
theorem light_read_name_mismatch (r : CountingReader) (ad : AnimDef)
    (hlen : 100 ≤ r.inner.length)
    (hutf : utf8Valid (takeUntilNul (bytesAt r.inner 0 32)) = true)
    (hidx : field r.inner 32 4 < ad.lights.length)
    (hne : takeUntilNul (bytesAt r.inner 0 32) ≠
      ad.lights.get ⟨field r.inner 32 4, hidx⟩) :
    LightAnimation.read r ad 100 =
      .error (.assertion "light anim name" (r.offset + 32)) := by
  rw [LightAnimation.read, guardA_true _ _ _ rfl, ok_bind,
    readExact_take _ _ hlen, ok_bind]
  dsimp only
  rw [LightAnimation.validate]
  have hname : strFromC "light anim name" (r.offset + 0)
      (LightAnimationC.ofBytes (r.inner.take 100)).name =
      .ok (takeUntilNul (bytesAt r.inner 0 32)) := by
    show strFromC _ _ (bytesAt (r.inner.take 100) 0 32) = _
    rw [bytesAt_take _ _ _ _ (by omega)]
    unfold strFromC
    rw [if_pos hutf]
  rw [hname, ok_bind]
  have hlookup : lookupName ad.lights "light anim light"
      (LightAnimationC.ofBytes (r.inner.take 100)).light_index
      (r.offset + 32) =
      .ok (ad.lights.get ⟨field r.inner 32 4, hidx⟩) := by
    show lookupName _ _ (field (r.inner.take 100) 32 4) _ = _
    rw [field_take _ _ _ _ (by omega)]
    unfold lookupName
    rw [List.getElem?_eq_getElem hidx, List.get_eq_getElem]
  rw [hlookup, ok_bind]
  rw [show guardA "light anim name"
      (takeUntilNul (bytesAt r.inner 0 32) =
        ad.lights.get ⟨field r.inner 32 4, hidx⟩) (r.offset + 32) =
      .error (.assertion "light anim name" (r.offset + 32)) from by
    unfold guardA; rw [if_neg hne], error_bind, error_bind]

/-- A successful light-animation decode implies the embedded literal name
and the index-resolved name agree (the decoded name is both). -/
theorem light_read_ok_names_agree {r : CountingReader} {ad : AnimDef}
    {size : Nat} {v : LightAnimation} {r' : CountingReader}
    (h : LightAnimation.read r ad size = .ok (v, r')) :
    strFromC "light anim name" (r.offset + 0)
        (bytesAt r.inner 0 32) = .ok v.name ∧
      lookupName ad.lights "light anim light" (field r.inner 32 4)
        (r.offset + 32) = .ok v.name := by
  unfold LightAnimation.read at h
  obtain ⟨u, hu, h⟩ := bindOk h
  by_cases hlen : 100 ≤ r.inner.length
  · rw [readExact_take _ _ hlen, ok_bind] at h
    dsimp only at h
    obtain ⟨w, hw, h⟩ := bindOk h
    simp only [Except.ok.injEq, Prod.mk.injEq] at h
    rw [h.1] at hw
    unfold LightAnimation.validate at hw
    obtain ⟨an, han, hw⟩ := bindOk hw
    obtain ⟨en, hen, hw⟩ := bindOk hw
    obtain ⟨u2, heq, hw⟩ := bindOk hw
    have heqn : an = en := guardA_ok heq
    have hvn : v.name = an := by
      obtain ⟨u3, -, hw⟩ := bindOk hw
      obtain ⟨u4, -, hw⟩ := bindOk hw
      obtain ⟨u5, -, hw⟩ := bindOk hw
      obtain ⟨u6, -, hw⟩ := bindOk hw
      obtain ⟨u7, -, hw⟩ := bindOk hw
      obtain ⟨u8, -, hw⟩ := bindOk hw
      obtain ⟨u9, -, hw⟩ := bindOk hw
      obtain ⟨u10, -, hw⟩ := bindOk hw
      obtain ⟨u11, -, hw⟩ := bindOk hw
      obtain ⟨u12, -, hw⟩ := bindOk hw
      obtain ⟨u13, -, hw⟩ := bindOk hw
      obtain ⟨u14, -, hw⟩ := bindOk hw
      obtain ⟨u15, -, hw⟩ := bindOk hw
      obtain ⟨u16, -, hw⟩ := bindOk hw
      obtain ⟨u17, -, hw⟩ := bindOk hw
      cases hw
      rfl
    rw [show (LightAnimationC.ofBytes (r.inner.take 100)).name =
        bytesAt r.inner 0 32 from bytesAt_take _ _ _ _ (by omega)] at han
    rw [show (LightAnimationC.ofBytes (r.inner.take 100)).light_index =
        field r.inner 32 4 from field_take _ _ _ _ (by omega)] at hen
    rw [hvn]
    exact ⟨han, heqn ▸ hen⟩
  · rw [readExact_err _ _ (by omega), error_bind] at h
    cases h

theorem CallObjectConnectorC.toBytes_length_call (c : CallObjectConnectorC)
    (hn : c.node.length = 32) : c.toBytes.length = 68 := by
  simp [CallObjectConnectorC.toBytes, leVec3, hn]

theorem CallObjectConnectorC.ofBytes_toBytes_call (c : CallObjectConnectorC)
    (hn : c.node.length = 32) (hb : ∀ b ∈ c.node, b < 256) :
    CallObjectConnectorC.ofBytes c.toBytes =
      { c with
        flags := m32 c.flags
        node_index := m16 c.node_index
        save_index := m16 c.save_index
        from_index := m16 c.from_index
        to_index := m16 c.to_index
        from_pos := c.from_pos.mod32
        to_pos := c.to_pos.mod32 } := by
  have hskip : ∀ rest off len, 32 ≤ off →
      field (c.node ++ rest) off len = field rest (off - 32) len :=
    fun rest off len h => field_skip_chunk c.node rest 32 off len hn h
  have hat : ∀ rest, bytesAt (c.node ++ rest) 0 32 = c.node :=
    fun rest => bytesAt_at_chunk c.node rest 32 hn hb
  simp [CallObjectConnectorC.ofBytes, CallObjectConnectorC.toBytes, leVec3,
    vec3At, Vec3.mod32, m32, m16, U32, List.append_assoc,
    field_skip_leBytes, field_at_leBytes, field_leBytes, hskip, hat]

theorem CallObjectConnector.roundtrip_call (ad : AnimDef)
    (v : CallObjectConnector) (o p : Nat)
    (h : CallObjectConnector.Wf ad v) :
    ∃ bs r', CallObjectConnector.write v ad = .ok bs ∧
      CallObjectConnector.read ⟨bs, o, p⟩ ad 68 = .ok (v, r') := by
  obtain ⟨hwf, hmem, hlen, htn, htp⟩ := h
  obtain ⟨hidx, hlook⟩ := lookupName_nameToIndex ad.nodes "node to index"
    "call object connector from node" v.from_node (o + 40) hmem
  have hsmall : idxOf ad.nodes v.from_node < 65536 :=
    lt_of_lt_of_le (idxOf_lt_length _ _ hmem) hlen
  have hnlen : (CallObjectConnector.mkC v
      (idxOf ad.nodes v.from_node)).node.length = 32 :=
    strToC_length _ _ (le_of_lt hwf.1)
  have hnb : ∀ b ∈ (CallObjectConnector.mkC v
      (idxOf ad.nodes v.from_node)).node, b < 256 :=
    strToC_bytes_lt _ _ hwf
  refine ⟨_, ⟨[], (o + 68 % U32) % U32, o⟩,
    by rw [CallObjectConnector.write, hidx, ok_bind], ?_⟩
  rw [CallObjectConnector.read, guardA_true _ _ _ rfl, ok_bind,
    readExact_all _ _ _ _ (CallObjectConnectorC.toBytes_length_call _ hnlen),
    ok_bind]
  dsimp only
  rw [CallObjectConnectorC.ofBytes_toBytes_call _ hnlen hnb,
    CallObjectConnector.validate]
  dsimp only [CallObjectConnector.mkC]
  rw [strFromC_strToC _ _ _ _ hwf, m16_m16, m16_eq_of_lt hsmall, hlook,
    Vec3.mod32_eq htp, ← htn]
  simp [guardA, m32, m16, U32, CALL_OBJECT_CONNECTOR_FLAGS,
    show vec3EqZero Vec3.EMPTY.mod32 = true from by decide]

theorem readU32_chunk (x : Nat) (rest : List Nat) (o p : Nat) :
    CountingReader.readU32 ⟨leBytes 4 x ++ rest, o, p⟩ =
      .ok (m32 x, ⟨rest, (o + 4 % U32) % U32, o⟩) := by
  unfold CountingReader.readU32 CountingReader.readExact
    CountingReader.readExactSt
  rw [if_pos (by simp)]
  simp only [ok_bind]
  rw [List.take_append_of_le_length (by simp),
    List.take_of_length_le (by simp),
    List.drop_append_of_le_length (by simp),
    List.drop_eq_nil_iff.mpr (by simp), List.nil_append, leVal_leBytes]
  rfl

theorem activ_prereq_anim_roundtrip (name : List Nat) (o p : Nat)
    (h : WfName name 32) :
    ∃ r', read_activ_prereq ⟨write_activ_prereq (.animation name), o, p⟩ =
      .ok (.animation name, r') := by
  refine ⟨⟨[], (((o + 4 % U32) % U32 + 4 % U32) % U32 + 40 % U32) % U32,
    ((o + 4 % U32) % U32 + 4 % U32) % U32⟩, ?_⟩
  simp only [write_activ_prereq, write_activ_prereq_anim,
    List.append_assoc]
  rw [read_activ_prereq, readU32_chunk, ok_bind]
  dsimp only
  rw [show m32 (boolC false) = 0 from rfl,
    show assertBool "anim def activ prereq optional" 0 o = .ok false
      from rfl, ok_bind]
  rw [readU32_chunk, ok_bind]
  dsimp only
  rw [show m32 1 = 1 from rfl, if_pos rfl,
    guardA_true _ ((!false) = true) _ (by decide), ok_bind,
    read_activ_prereq_anim,
    readExact_all _ _ _ _ (by simp [strToC_length _ _ (le_of_lt h.1)]),
    ok_bind]
  dsimp only
  rw [bytesAt_at_chunk _ _ 32 (strToC_length _ _ (le_of_lt h.1))
      (strToC_bytes_lt _ _ h),
    strFromC_strToC _ _ _ _ h, ok_bind,
    field_skip_chunk _ _ 32 _ _ (strToC_length _ _ (le_of_lt h.1))
      (by omega),
    field_skip_chunk _ _ 32 _ _ (strToC_length _ _ (le_of_lt h.1))
      (by omega)]
  simp [guardA, field_at_leBytes, field_skip_leBytes, field_leBytes]

theorem activ_prereq_object_roundtrip (obj : PrereqObject) (o p : Nat)
    (hwf : WfName obj.name 32) (hp0 : 0 < obj.pointer)
    (hpu : obj.pointer < U32) :
    ∃ r', read_activ_prereq ⟨write_activ_prereq (.object obj), o, p⟩ =
      .ok (.object obj, r') := by
  refine ⟨⟨[], (((o + 4 % U32) % U32 + 4 % U32) % U32 + 40 % U32) % U32,
    ((o + 4 % U32) % U32 + 4 % U32) % U32⟩, ?_⟩
  simp only [write_activ_prereq, write_activ_prereq_object,
    List.append_assoc]
  rw [read_activ_prereq, readU32_chunk, ok_bind]
  dsimp only
  rw [show m32 (boolC !obj.required) = boolC !obj.required from by
      cases obj.required <;> rfl,
    assertBool_boolC, ok_bind]
  rw [readU32_chunk, ok_bind]
  dsimp only
  rw [show m32 2 = 2 from rfl, if_neg (by omega), if_neg (by omega),
    if_pos rfl, read_activ_prereq_object,
    readExact_all _ _ _ _ (by simp [strToC_length _ _ (le_of_lt hwf.1)]),
    ok_bind]
  dsimp only
  rw [field_at_leBytes, show boolC obj.active % 2 ^ (8 * 4) =
      boolC obj.active from by cases obj.active <;> rfl,
    assertBool_boolC, ok_bind,
    bytesAt_skip_leBytes _ _ _ _ _ (by omega)]
  rw [show (4:Nat) - 4 = 0 from rfl,
    bytesAt_at_chunk _ _ 32 (strToC_length _ _ (le_of_lt hwf.1))
      (strToC_bytes_lt _ _ hwf),
    strFromC_strToC _ _ _ _ hwf, ok_bind,
    field_skip_leBytes _ _ _ _ _ (by omega),
    field_skip_chunk _ _ 32 _ _ (strToC_length _ _ (le_of_lt hwf.1))
      (by omega)]
  rw [show (36:Nat) - 4 - 32 = 0 from rfl, field_leBytes,
    Nat.mod_eq_of_lt (show obj.pointer < 2 ^ (8 * 4) from hpu),
    guardA_true _ _ _ (by omega), ok_bind]
  rw [show (!(!obj.required)) = obj.required from Bool.not_not _]

theorem activ_prereq_parent_roundtrip (obj : PrereqObject) (o p : Nat)
    (hwf : WfName obj.name 32) (hp0 : 0 < obj.pointer)
    (hpu : obj.pointer < U32) (ha : obj.active = false) :
    ∃ r', read_activ_prereq ⟨write_activ_prereq (.parent obj), o, p⟩ =
      .ok (.parent obj, r') := by
  refine ⟨⟨[], (((o + 4 % U32) % U32 + 4 % U32) % U32 + 40 % U32) % U32,
    ((o + 4 % U32) % U32 + 4 % U32) % U32⟩, ?_⟩
  simp only [write_activ_prereq, write_activ_prereq_object,
    List.append_assoc]
  rw [read_activ_prereq, readU32_chunk, ok_bind]
  dsimp only
  rw [show m32 (boolC !obj.required) = boolC !obj.required from by
      cases obj.required <;> rfl,
    assertBool_boolC, ok_bind]
  rw [readU32_chunk, ok_bind]
  dsimp only
  rw [show m32 3 = 3 from rfl, if_neg (by omega), if_pos rfl,
    read_activ_prereq_parent,
    readExact_all _ _ _ _ (by simp [strToC_length _ _ (le_of_lt hwf.1)]),
    ok_bind]
  dsimp only
  rw [field_at_leBytes, ha,
    show boolC false % 2 ^ (8 * 4) = 0 from rfl,
    guardA_true _ _ _ rfl, ok_bind,
    bytesAt_skip_leBytes _ _ _ _ _ (by omega)]
  rw [show (4:Nat) - 4 = 0 from rfl,
    bytesAt_at_chunk _ _ 32 (strToC_length _ _ (le_of_lt hwf.1))
      (strToC_bytes_lt _ _ hwf),
    strFromC_strToC _ _ _ _ hwf, ok_bind,
    field_skip_leBytes _ _ _ _ _ (by omega),
    field_skip_chunk _ _ 32 _ _ (strToC_length _ _ (le_of_lt hwf.1))
      (by omega)]
  rw [show (36:Nat) - 4 - 32 = 0 from rfl, field_leBytes,
    Nat.mod_eq_of_lt (show obj.pointer < 2 ^ (8 * 4) from hpu),
    guardA_true _ _ _ (by omega), ok_bind,
    show (!(!obj.required)) = obj.required from Bool.not_not _, ← ha]

theorem readU32_take (r : CountingReader) (h : 4 ≤ r.inner.length) :
    r.readU32 = .ok (field r.inner 0 4,
      ⟨r.inner.drop 4, (r.offset + 4 % U32) % U32, r.offset⟩) := by
  unfold CountingReader.readU32 CountingReader.readExact
    CountingReader.readExactSt
  rw [if_pos h]
  rfl

theorem field_drop (l : List Nat) (k off len : Nat) :
    field (l.drop k) off len = field l (k + off) len := by
  unfold field
  rw [List.drop_drop, Nat.add_comm]

theorem assertBool_ok {label : String} {v off : Nat} {b : Bool}
    (h : assertBool label v off = .ok b) :
    (v = 0 ∧ b = false) ∨ (v = 1 ∧ b = true) := by
  unfold assertBool at h
  by_cases h0 : v = 0
  · rw [if_pos h0] at h
    cases h
    exact Or.inl ⟨h0, rfl⟩
  · rw [if_neg h0] at h
    by_cases h1 : v = 1
    · rw [if_pos h1] at h
      cases h
      exact Or.inr ⟨h1, rfl⟩
    · rw [if_neg h1] at h
      cases h

theorem read_anim_shape {r : CountingReader} {x : ActivationPrereq}
    {r' : CountingReader} (h : read_activ_prereq_anim r = .ok (x, r')) :
    ∃ name, x = .animation name := by
  unfold read_activ_prereq_anim at h
  by_cases hlen : 40 ≤ r.inner.length
  · rw [readExact_take _ _ hlen, ok_bind] at h
    dsimp only at h
    obtain ⟨n, -, h⟩ := bindOk h
    obtain ⟨u1, -, h⟩ := bindOk h
    obtain ⟨u2, -, h⟩ := bindOk h
    simp only [Except.ok.injEq, Prod.mk.injEq] at h
    exact ⟨n, h.1.symm⟩
  · rw [readExact_err _ _ (by omega), error_bind] at h
    cases h

theorem read_parent_shape {r : CountingReader} {req : Bool}
    {x : ActivationPrereq} {r' : CountingReader}
    (h : read_activ_prereq_parent r req = .ok (x, r')) :
    ∃ obj, x = .parent obj ∧ obj.required = req := by
  unfold read_activ_prereq_parent at h
  by_cases hlen : 40 ≤ r.inner.length
  · rw [readExact_take _ _ hlen, ok_bind] at h
    dsimp only at h
    obtain ⟨u1, -, h⟩ := bindOk h
    obtain ⟨n, -, h⟩ := bindOk h
    obtain ⟨u2, -, h⟩ := bindOk h
    simp only [Except.ok.injEq, Prod.mk.injEq] at h
    exact ⟨_, h.1.symm, rfl⟩
  · rw [readExact_err _ _ (by omega), error_bind] at h
    cases h

theorem read_object_shape {r : CountingReader} {req : Bool}
    {x : ActivationPrereq} {r' : CountingReader}
    (h : read_activ_prereq_object r req = .ok (x, r')) :
    ∃ obj, x = .object obj ∧ obj.required = req := by
  unfold read_activ_prereq_object at h
  by_cases hlen : 40 ≤ r.inner.length
  · rw [readExact_take _ _ hlen, ok_bind] at h
    dsimp only at h
    obtain ⟨a, -, h⟩ := bindOk h
    obtain ⟨n, -, h⟩ := bindOk h
    obtain ⟨u2, -, h⟩ := bindOk h
    simp only [Except.ok.injEq, Prod.mk.injEq] at h
    exact ⟨_, h.1.symm, rfl⟩
  · rw [readExact_err _ _ (by omega), error_bind] at h
    cases h

/-- An Animation activation prerequisite whose leading "optional" `u32`
boolean is `1` (not required) fails with the "required" assertion at the
offset of the optional field (the record start). -/
theorem activ_prereq_anim_optional_fails (r : CountingReader)
    (hlen : 8 ≤ r.inner.length) (hoff : r.offset + 4 < U32)
    (hopt : field r.inner 0 4 = 1) (hty : field r.inner 4 4 = 1) :
    read_activ_prereq r =
      .error (.assertion "anim def activ prereq required" r.offset) := by
  rw [read_activ_prereq, readU32_take _ (by omega), ok_bind]
  dsimp only
  rw [hopt, show assertBool "anim def activ prereq optional" 1 r.offset =
    .ok true from rfl, ok_bind]
  rw [readU32_take _ (by simp; omega), ok_bind]
  dsimp only
  rw [field_drop, Nat.add_zero, hty, if_pos rfl]
  have hprev : (r.offset + 4 % U32) % U32 = r.offset + 4 := by
    unfold U32 at *
    omega
  rw [hprev]
  rw [show guardA "anim def activ prereq required" ((!true) = true)
      (r.offset + 4 - 4) =
      .error (.assertion "anim def activ prereq required"
        (r.offset + 4 - 4)) from by
    unfold guardA
    rw [if_neg (by decide)], error_bind,
    show r.offset + 4 - 4 = r.offset from by omega]

/-- On a successful decode: Animation implies the raw optional boolean was
`0`; for Object and Parent the decoded `required` is the logical negation
of the raw optional boolean. -/
theorem activ_prereq_ok_required {r : CountingReader}
    {v : ActivationPrereq} {r' : CountingReader}
    (h : read_activ_prereq r = .ok (v, r')) :
    (∀ name, v = .animation name → field r.inner 0 4 = 0) ∧
    (∀ obj, v = .object obj ∨ v = .parent obj →
      (field r.inner 0 4 = 0 ∧ obj.required = true) ∨
      (field r.inner 0 4 = 1 ∧ obj.required = false)) := by
  unfold read_activ_prereq at h
  by_cases hlen : 4 ≤ r.inner.length
  · rw [readU32_take _ hlen, ok_bind] at h
    dsimp only at h
    obtain ⟨ob, hob, h⟩ := bindOk h
    have hopt := assertBool_ok hob
    by_cases hlen2 : 4 ≤ (r.inner.drop 4).length
    · rw [readU32_take _ hlen2, ok_bind] at h
      split at h
      · obtain ⟨u, hg, h⟩ := bindOk h
        have hreq : (!ob) = true := guardA_ok hg
        obtain ⟨name, hn⟩ := read_anim_shape h
        subst hn
        constructor
        · intro _ _
          rcases hopt with ⟨h0, -⟩ | ⟨-, hb⟩
          · exact h0
          · rw [hb] at hreq
            cases hreq
        · intro obj hobj
          rcases hobj with hc | hc <;> cases hc
      · split at h
        · obtain ⟨obj, hx, hr⟩ := read_parent_shape h
          subst hx
          refine ⟨(fun name hc => nomatch hc), fun obj2 hobj => ?_⟩
          have : obj2 = obj := by
            rcases hobj with hc | hc <;> cases hc <;> rfl
          subst this
          rcases hopt with ⟨h0, hb⟩ | ⟨h1, hb⟩
          · refine Or.inl ⟨h0, ?_⟩
            rw [hr, hb]
            rfl
          · refine Or.inr ⟨h1, ?_⟩
            rw [hr, hb]
            rfl
        · split at h
          · obtain ⟨obj, hx, hr⟩ := read_object_shape h
            subst hx
            refine ⟨(fun name hc => nomatch hc), fun obj2 hobj => ?_⟩
            have : obj2 = obj := by
              rcases hobj with hc | hc <;> cases hc <;> rfl
            subst this
            rcases hopt with ⟨h0, hb⟩ | ⟨h1, hb⟩
            · refine Or.inl ⟨h0, ?_⟩
              rw [hr, hb]
              rfl
            · refine Or.inr ⟨h1, ?_⟩
              rw [hr, hb]
              rfl
          · cases h
    · rw [show (⟨r.inner.drop 4, (r.offset + 4 % U32) % U32,
          r.offset⟩ : CountingReader).readU32 = .error .transport from by
        unfold CountingReader.readU32 CountingReader.readExact
          CountingReader.readExactSt
        rw [if_neg hlen2]
        rfl, error_bind] at h
      cases h
  · rw [show r.readU32 = .error .transport from by
      unfold CountingReader.readU32 CountingReader.readExact
        CountingReader.readExactSt
      rw [if_neg (by omega)]
      rfl, error_bind] at h
    cases h

theorem ObjectMotionC.toBytes_length_motion (c : ObjectMotionC)
    (h0 : c.bounce_seq0_name.length = 32)
    (h1 : c.bounce_seq1_name.length = 32)
    (h2 : c.bounce_seq2_name.length = 32) : c.toBytes.length = 320 := by
  simp [ObjectMotionC.toBytes, leVec3, h0, h1, h2]

theorem ObjectMotionC.ofBytes_toBytes_motion (c : ObjectMotionC)
    (h0 : c.bounce_seq0_name.length = 32)
    (h1 : c.bounce_seq1_name.length = 32)
    (h2 : c.bounce_seq2_name.length = 32)
    (hb0 : ∀ b ∈ c.bounce_seq0_name, b < 256)
    (hb1 : ∀ b ∈ c.bounce_seq1_name, b < 256)
    (hb2 : ∀ b ∈ c.bounce_seq2_name, b < 256) :
    ObjectMotionC.ofBytes c.toBytes =
      { c with
        flags := m32 c.flags
        node_index := m32 c.node_index
        zero008 := m32 c.zero008
        gravity := m32 c.gravity
        zero016 := m32 c.zero016
        trans_range_min_1 := m32 c.trans_range_min_1
        trans_range_max_1 := m32 c.trans_range_max_1
        trans_range_min_2 := m32 c.trans_range_min_2
        trans_range_max_2 := m32 c.trans_range_max_2
        trans_range_min_3 := m32 c.trans_range_min_3
        trans_range_max_3 := m32 c.trans_range_max_3
        trans_range_min_4 := m32 c.trans_range_min_4
        trans_range_max_4 := m32 c.trans_range_max_4
        trans_delta := c.trans_delta.mod32
        trans_initial := c.trans_initial.mod32
        trans_delta_copy := c.trans_delta_copy.mod32
        trans_initial_copy := c.trans_initial_copy.mod32
        unk100 := c.unk100.mod32
        forward_rotation_1 := m32 c.forward_rotation_1
        forward_rotation_2 := m32 c.forward_rotation_2
        zero120 := m32 c.zero120
        xyz_rotation := c.xyz_rotation.mod32
        unk136 := c.unk136.mod32
        xyz_rotation_copy := c.xyz_rotation_copy.mod32
        scale := c.scale.mod32
        unk172 := c.unk172.mod32
        scale_copy := c.scale_copy.mod32
        bounce_seq0_sentinel := m16 c.bounce_seq0_sentinel
        bounce_snd0_index := m16 c.bounce_snd0_index
        bounce_snd0_volume := m32 c.bounce_snd0_volume
        bounce_seq1_sentinel := m16 c.bounce_seq1_sentinel
        bounce_snd1_index := m16 c.bounce_snd1_index
        bounce_snd1_volume := m32 c.bounce_snd1_volume
        bounce_seq2_sentinel := m16 c.bounce_seq2_sentinel
        bounce_snd2_index := m16 c.bounce_snd2_index
        bounce_snd2_volume := m32 c.bounce_snd2_volume
        runtime := m32 c.runtime } := by
  have hskip0 : ∀ rest off len, 32 ≤ off →
      field (c.bounce_seq0_name ++ rest) off len =
        field rest (off - 32) len :=
    fun rest off len h => field_skip_chunk _ rest 32 off len h0 h
  have hskip1 : ∀ rest off len, 32 ≤ off →
      field (c.bounce_seq1_name ++ rest) off len =
        field rest (off - 32) len :=
    fun rest off len h => field_skip_chunk _ rest 32 off len h1 h
  have hskip2 : ∀ rest off len, 32 ≤ off →
      field (c.bounce_seq2_name ++ rest) off len =
        field rest (off - 32) len :=
    fun rest off len h => field_skip_chunk _ rest 32 off len h2 h
  have hbskip0 : ∀ rest off len, 32 ≤ off →
      bytesAt (c.bounce_seq0_name ++ rest) off len =
        bytesAt rest (off - 32) len :=
    fun rest off len h => bytesAt_skip_chunk _ rest 32 off len h0 h
  have hbskip1 : ∀ rest off len, 32 ≤ off →
      bytesAt (c.bounce_seq1_name ++ rest) off len =
        bytesAt rest (off - 32) len :=
    fun rest off len h => bytesAt_skip_chunk _ rest 32 off len h1 h
  have hat0 : ∀ rest, bytesAt (c.bounce_seq0_name ++ rest) 0 32 =
      c.bounce_seq0_name :=
    fun rest => bytesAt_at_chunk _ rest 32 h0 hb0
  have hat1 : ∀ rest, bytesAt (c.bounce_seq1_name ++ rest) 0 32 =
      c.bounce_seq1_name :=
    fun rest => bytesAt_at_chunk _ rest 32 h1 hb1
  have hat2 : ∀ rest, bytesAt (c.bounce_seq2_name ++ rest) 0 32 =
      c.bounce_seq2_name :=
    fun rest => bytesAt_at_chunk _ rest 32 h2 hb2
  simp [ObjectMotionC.ofBytes, ObjectMotionC.toBytes, leVec3, vec3At,
    Vec3.mod32, m32, m16, U32, List.append_assoc, field_skip_leBytes,
    field_at_leBytes, field_leBytes, bytesAt_skip_leBytes, hskip0, hskip1,
    hskip2, hbskip0, hbskip1, hat0, hat1, hat2]

theorem ObjectMotionFlags.ofBits_toBits_motion (f : ObjectMotionFlags) :
    ObjectMotionFlags.ofBits f.toBits = some f := by
  have hlt : f.toBits < 2 ^ 15 := bitsOf_lt _
  unfold ObjectMotionFlags.ofBits
  rw [if_pos]
  · unfold ObjectMotionFlags.toBits
    simp only [testBit_bitsOf, List.getD]
    rfl
  · apply land_eq_zero
    intro i hx
    rw [ObjectMotionFlags.toBits, testBit_bitsOf] at hx
    by_cases hi : i < 15
    · interval_cases i <;> first | decide | simp at hx
    · exfalso
      rw [List.getD_eq_default] at hx
      · cases hx
      · simp; omega

theorem readGravity_mkC (v : ObjectMotion) (ni si prev : Nat) :
    readGravity (ObjectMotion.flagsOf v) (ObjectMotion.mkC v ni si) prev =
      .ok v.gravity := by
  rcases hv : v.gravity with _ | ⟨mode, val⟩
  · simp [readGravity, ObjectMotion.flagsOf, ObjectMotion.mkC, hv, guardA]
  · cases mode <;>
      simp [readGravity, ObjectMotion.flagsOf, ObjectMotion.mkC, hv,
        guardA]

theorem readTransRangeMin_mkC (v : ObjectMotion) (ni si prev : Nat) :
    readTransRangeMin (ObjectMotion.flagsOf v) (ObjectMotion.mkC v ni si)
      prev = .ok v.translation_range_min := by
  have hz : f32Eq 0 fZero = true := by decide
  rcases hv : v.translation_range_min with _ | m
  · simp [readTransRangeMin, ObjectMotion.flagsOf, ObjectMotion.mkC, hv,
      guardA, Vec4.EMPTY, hz]
  · simp [readTransRangeMin, ObjectMotion.flagsOf, ObjectMotion.mkC, hv]

theorem readTransRangeMax_mkC (v : ObjectMotion) (ni si prev : Nat) :
    readTransRangeMax (ObjectMotion.flagsOf v) (ObjectMotion.mkC v ni si)
      prev = .ok v.translation_range_max := by
  have hz : f32Eq 0 fZero = true := by decide
  rcases hv : v.translation_range_max with _ | m
  · simp [readTransRangeMax, ObjectMotion.flagsOf, ObjectMotion.mkC, hv,
      guardA, Vec4.EMPTY, hz]
  · simp [readTransRangeMax, ObjectMotion.flagsOf, ObjectMotion.mkC, hv]

theorem readTranslation_mkC (v : ObjectMotion) (ni si prev : Nat) :
    readTranslation (ObjectMotion.flagsOf v) (ObjectMotion.mkC v ni si)
      prev = .ok v.translation := by
  rcases hv : v.translation with _ | m
  · simp [readTranslation, ObjectMotion.flagsOf, ObjectMotion.mkC, hv,
      guardA, zeroVec3Triple]
  · simp [readTranslation, ObjectMotion.flagsOf, ObjectMotion.mkC, hv,
      zeroVec3Triple]

theorem readForwardRotation_mkC (v : ObjectMotion) (ni si prev : Nat) :
    readForwardRotation (ObjectMotion.flagsOf v)
      (ObjectMotion.mkC v ni si) prev = .ok v.forward_rotation := by
  rcases hv : v.forward_rotation with _ | fr
  · simp [readForwardRotation, ObjectMotion.flagsOf, ObjectMotion.mkC,
      hv, guardA, fwd1Of, fwd2Of]
  · cases fr <;>
      simp [readForwardRotation, ObjectMotion.flagsOf, ObjectMotion.mkC,
        hv, guardA, fwd1Of, fwd2Of]

theorem readXyzRotation_mkC (v : ObjectMotion) (ni si prev : Nat) :
    readXyzRotation (ObjectMotion.flagsOf v) (ObjectMotion.mkC v ni si)
      prev = .ok v.xyz_rotation := by
  rcases hv : v.xyz_rotation with _ | m
  · simp [readXyzRotation, ObjectMotion.flagsOf, ObjectMotion.mkC, hv,
      guardA, zeroVec3Pair]
  · simp [readXyzRotation, ObjectMotion.flagsOf, ObjectMotion.mkC, hv,
      zeroVec3Pair]

theorem readScaleGroup_mkC (v : ObjectMotion) (ni si prev : Nat) :
    readScaleGroup (ObjectMotion.flagsOf v) (ObjectMotion.mkC v ni si)
      prev = .ok v.scale := by
  rcases hv : v.scale with _ | m
  · simp [readScaleGroup, ObjectMotion.flagsOf, ObjectMotion.mkC, hv,
      guardA, zeroVec3Pair]
  · simp [readScaleGroup, ObjectMotion.flagsOf, ObjectMotion.mkC, hv,
      zeroVec3Pair]

theorem strToC_headD (n : List Nat) (size : Nat) (h : WfName n size)
    (hne : n ≠ []) : (strToC n size).headD 0 ≠ 0 := by
  rw [strToC_eq n size (le_of_lt h.1)]
  rcases n with _ | ⟨b, rest⟩
  · exact absurd rfl hne
  · have hb := h.2.1 b (List.mem_cons_self ..)
    simp only [List.cons_append, List.headD_cons]
    omega

theorem readBounceSeqOpt_bounceName (label : String)
    (x : Option (List Nat)) (off : Nat) (h : BSeqWf x) :
    readBounceSeqOpt label (bounceName x) off = .ok x := by
  rcases x with _ | n
  · rfl
  · obtain ⟨hwf, hne⟩ := h
    have hb : bounceName (some n) = strToC n 32 := rfl
    unfold readBounceSeqOpt
    rw [hb, if_pos (strToC_headD n 32 hwf hne),
      strFromC_strToC label off n 32 hwf]
    rfl

theorem readBounceSeq_mkC (v : ObjectMotion) (ni si prev : Nat)
    (h : OptWf (fun t => t.1.isSome = true ∧ BSeqWf t.1 ∧ BSeqWf t.2.1 ∧
      BSeqWf t.2.2) v.bounce_sequence) :
    readBounceSeq (ObjectMotion.flagsOf v) (ObjectMotion.mkC v ni si)
      prev = .ok v.bounce_sequence := by
  rcases hv : v.bounce_sequence with _ | ⟨s0, s1, s2⟩
  · simp [readBounceSeq, ObjectMotion.flagsOf, ObjectMotion.mkC, hv,
      guardA, bounceSeq0Of, bounceSeq1Of, bounceSeq2Of,
      List.all_eq_true]
  · rw [hv] at h
    obtain ⟨hs0, hw0, hw1, hw2⟩ := h
    rcases hs0f : s0 with _ | n0
    · rw [hs0f] at hs0
      cases hs0
    · rw [hs0f] at hw0
      obtain ⟨hwf0, hne0⟩ := hw0
      have hflag : (ObjectMotion.flagsOf v).bounce_seq = true := by
        simp [ObjectMotion.flagsOf, hv]
      have h0 : (ObjectMotion.mkC v ni si).bounce_seq0_name =
          strToC n0 32 := by
        simp [ObjectMotion.mkC, bounceSeq0Of, hv, hs0f, bounceName]
      have h1 : (ObjectMotion.mkC v ni si).bounce_seq1_name =
          bounceName s1 := by
        simp [ObjectMotion.mkC, bounceSeq1Of, hv]
      have h2 : (ObjectMotion.mkC v ni si).bounce_seq2_name =
          bounceName s2 := by
        simp [ObjectMotion.mkC, bounceSeq2Of, hv]
      unfold readBounceSeq
      rw [if_pos hflag, h0, h1, h2]
      rw [if_pos (strToC_headD n0 32 hwf0 hne0)]
      rw [strFromC_strToC "object motion bounce seq 0 name" (prev + 196)
        n0 32 hwf0]
      rw [readBounceSeqOpt_bounceName "object motion bounce seq 1 name"
        s1 (prev + 236) hw1]
      rw [readBounceSeqOpt_bounceName "object motion bounce seq 2 name"
        s2 (prev + 276) hw2]
      rfl

theorem readBounceSound_mkC (ad : AnimDef) (v : ObjectMotion)
    (ni si prev : Nat)
    (h : OptWf (fun bs => bs.name ∈ ad.sounds ∧ bs.volume < U32 ∧
      f32Gt bs.volume fZero = true) v.bounce_sound)
    (hsi : ∀ bs, v.bounce_sound = some bs →
      lookupName ad.sounds "object motion bounce snd" (m16 si)
        (prev + 230) = .ok bs.name) :
    readBounceSound (ObjectMotion.flagsOf v) (ObjectMotion.mkC v ni si)
      ad prev = .ok v.bounce_sound := by
  rcases hv : v.bounce_sound with _ | bs
  · simp [readBounceSound, ObjectMotion.flagsOf, ObjectMotion.mkC, hv,
      guardA]
  · rw [hv] at h
    simp [readBounceSound, ObjectMotion.flagsOf, ObjectMotion.mkC, hv,
      guardA, h.2.2, hsi bs hv]

theorem readRuntime_mkC (v : ObjectMotion) (ni si prev : Nat)
    (h : OptWf (fun t => t < U32 ∧ f32Gt t fZero = true) v.runtime) :
    readRuntime (ObjectMotion.flagsOf v) (ObjectMotion.mkC v ni si)
      prev = .ok v.runtime := by
  rcases hv : v.runtime with _ | t
  · simp [readRuntime, ObjectMotion.flagsOf, ObjectMotion.mkC, hv,
      guardA]
  · rw [hv] at h
    simp [readRuntime, ObjectMotion.flagsOf, ObjectMotion.mkC, hv,
      guardA, h.2]

theorem bounceName_length (x : Option (List Nat)) :
    (bounceName x).length = 32 := by
  cases x <;> simp [bounceName]

theorem bounceName_bytes (x : Option (List Nat)) (h : BSeqWf x) :
    ∀ b ∈ bounceName x, b < 256 := by
  rcases x with _ | n
  · intro b hb
    rw [List.eq_of_mem_replicate hb]
    omega
  · exact strToC_bytes_lt n 32 h.1

theorem mkC_seq0_length (v : ObjectMotion) (ni si : Nat) :
    (ObjectMotion.mkC v ni si).bounce_seq0_name.length = 32 := by
  rcases hv : v.bounce_sequence with _ | ⟨s0, s1, s2⟩ <;>
    simp [ObjectMotion.mkC, bounceSeq0Of, hv, bounceName_length]

theorem mkC_seq1_length (v : ObjectMotion) (ni si : Nat) :
    (ObjectMotion.mkC v ni si).bounce_seq1_name.length = 32 := by
  rcases hv : v.bounce_sequence with _ | ⟨s0, s1, s2⟩ <;>
    simp [ObjectMotion.mkC, bounceSeq1Of, hv, bounceName_length]

theorem mkC_seq2_length (v : ObjectMotion) (ni si : Nat) :
    (ObjectMotion.mkC v ni si).bounce_seq2_name.length = 32 := by
  rcases hv : v.bounce_sequence with _ | ⟨s0, s1, s2⟩ <;>
    simp [ObjectMotion.mkC, bounceSeq2Of, hv, bounceName_length]

theorem mkC_seq0_bytes (v : ObjectMotion) (ni si : Nat)
    (h : OptWf (fun t => t.1.isSome = true ∧ BSeqWf t.1 ∧ BSeqWf t.2.1 ∧
      BSeqWf t.2.2) v.bounce_sequence) :
    ∀ b ∈ (ObjectMotion.mkC v ni si).bounce_seq0_name, b < 256 := by
  rcases hv : v.bounce_sequence with _ | ⟨s0, s1, s2⟩
  · intro b hb
    simp only [ObjectMotion.mkC, bounceSeq0Of, hv] at hb
    rw [List.eq_of_mem_replicate hb]
    omega
  · rw [hv] at h
    intro b hb
    simp only [ObjectMotion.mkC, bounceSeq0Of, hv] at hb
    exact bounceName_bytes s0 h.2.1 b hb

theorem mkC_seq1_bytes (v : ObjectMotion) (ni si : Nat)
    (h : OptWf (fun t => t.1.isSome = true ∧ BSeqWf t.1 ∧ BSeqWf t.2.1 ∧
      BSeqWf t.2.2) v.bounce_sequence) :
    ∀ b ∈ (ObjectMotion.mkC v ni si).bounce_seq1_name, b < 256 := by
  rcases hv : v.bounce_sequence with _ | ⟨s0, s1, s2⟩
  · intro b hb
    simp only [ObjectMotion.mkC, bounceSeq1Of, hv] at hb
    rw [List.eq_of_mem_replicate hb]
    omega
  · rw [hv] at h
    intro b hb
    simp only [ObjectMotion.mkC, bounceSeq1Of, hv] at hb
    exact bounceName_bytes s1 h.2.2.1 b hb

theorem mkC_seq2_bytes (v : ObjectMotion) (ni si : Nat)
    (h : OptWf (fun t => t.1.isSome = true ∧ BSeqWf t.1 ∧ BSeqWf t.2.1 ∧
      BSeqWf t.2.2) v.bounce_sequence) :
    ∀ b ∈ (ObjectMotion.mkC v ni si).bounce_seq2_name, b < 256 := by
  rcases hv : v.bounce_sequence with _ | ⟨s0, s1, s2⟩
  · intro b hb
    simp only [ObjectMotion.mkC, bounceSeq2Of, hv] at hb
    rw [List.eq_of_mem_replicate hb]
    omega
  · rw [hv] at h
    intro b hb
    simp only [ObjectMotion.mkC, bounceSeq2Of, hv] at hb
    exact bounceName_bytes s2 h.2.2.2 b hb

theorem ObjectMotion.mkC_mod (ad : AnimDef) (v : ObjectMotion)
    (ni si : Nat) (h : ObjectMotion.Wf ad v) :
    ObjectMotionC.ofBytes (ObjectMotion.mkC v ni si).toBytes =
      ObjectMotion.mkC v ni si := by
  obtain ⟨-, -, -, hg, hmin, hmax, htr, hfr, hxyz, hsc, hbseq, hbsnd,
    hrt⟩ := h
  rw [ObjectMotionC.ofBytes_toBytes_motion _ (mkC_seq0_length v ni si)
    (mkC_seq1_length v ni si) (mkC_seq2_length v ni si)
    (mkC_seq0_bytes v ni si hbseq) (mkC_seq1_bytes v ni si hbseq)
    (mkC_seq2_bytes v ni si hbseq)]
  have hfl : (ObjectMotion.flagsOf v).toBits < U32 :=
    lt_of_lt_of_le (bitsOf_lt _) (by unfold U32; norm_num)
  have hg' : (v.gravity.getD ⟨.Local, fZero⟩).value < U32 :=
    OptWf_getD _ _ _ (by decide) hg
  have hmin' := OptWf_getD Vec4.wf _ Vec4.EMPTY (by decide) hmin
  have hmax' := OptWf_getD Vec4.wf _ Vec4.EMPTY (by decide) hmax
  have htr' := OptWf_getD _ _ zeroVec3Triple (by decide) htr
  have hxyz' := OptWf_getD _ _ zeroVec3Pair (by decide) hxyz
  have hsc' := OptWf_getD _ _ zeroVec3Pair (by decide) hsc
  have hfw1 : fwd1Of v < U32 := by
    rcases hv : v.forward_rotation with _ | fr
    · simp only [fwd1Of, hv]
      decide
    · rw [hv] at hfr
      cases fr with
      | Time a b =>
        simp only [fwd1Of, hv]
        exact hfr.1
      | Distance a =>
        simp only [fwd1Of, hv]
        exact hfr
  have hfw2 : fwd2Of v < U32 := by
    rcases hv : v.forward_rotation with _ | fr
    · simp only [fwd2Of, hv]
      decide
    · rw [hv] at hfr
      cases fr with
      | Time a b =>
        simp only [fwd2Of, hv]
        exact hfr.2
      | Distance a =>
        simp only [fwd2Of, hv]
        decide
  have hsi : m16 (if v.bounce_sound.isSome then m16 si else 0) =
      (if v.bounce_sound.isSome then m16 si else 0) := by
    cases hb : v.bounce_sound.isSome <;> simp [m16_m16, m16]
  have hvol : (v.bounce_sound.getD ⟨[], fZero⟩).volume < U32 := by
    rcases hv : v.bounce_sound with _ | bs
    · decide
    · rw [hv] at hbsnd
      exact hbsnd.2.1
  have hrt' : v.runtime.getD fZero < U32 := by
    rcases hv : v.runtime with _ | t
    · decide
    · rw [hv] at hrt
      exact hrt.1
  have hE : Vec3.EMPTY.mod32 = Vec3.EMPTY := by decide
  have hz : m32 fZero = fZero := rfl
  have hs65 : m16 65535 = 65535 := rfl
  have h00 : m16 0 = 0 := rfl
  dsimp only [ObjectMotion.mkC]
  simp only [m32_eq_of_lt hfl, m32_m32, m32_eq_of_lt hg', hz, hs65, h00,
    m32_eq_of_lt hmin'.1, m32_eq_of_lt hmin'.2.1,
    m32_eq_of_lt hmin'.2.2.1, m32_eq_of_lt hmin'.2.2.2,
    m32_eq_of_lt hmax'.1, m32_eq_of_lt hmax'.2.1,
    m32_eq_of_lt hmax'.2.2.1, m32_eq_of_lt hmax'.2.2.2,
    Vec3.mod32_eq htr'.1, Vec3.mod32_eq htr'.2.1,
    Vec3.mod32_eq htr'.2.2, hE, m32_eq_of_lt hfw1, m32_eq_of_lt hfw2,
    Vec3.mod32_eq hxyz'.1, Vec3.mod32_eq hxyz'.2,
    Vec3.mod32_eq hsc'.1, Vec3.mod32_eq hsc'.2, hsi,
    m32_eq_of_lt hvol, m32_eq_of_lt hrt']

theorem ObjectMotion.validate_mkC_motion (ad : AnimDef) (v : ObjectMotion)
    (ni si prev : Nat)
    (hnode : lookupName ad.nodes "object motion node" (m32 ni)
      (prev + 4) = .ok v.node)
    (hbseq : OptWf (fun t => t.1.isSome = true ∧ BSeqWf t.1 ∧
      BSeqWf t.2.1 ∧ BSeqWf t.2.2) v.bounce_sequence)
    (hbsnd : OptWf (fun bs => bs.name ∈ ad.sounds ∧ bs.volume < U32 ∧
      f32Gt bs.volume fZero = true) v.bounce_sound)
    (hsi : ∀ bs, v.bounce_sound = some bs →
      lookupName ad.sounds "object motion bounce snd" (m16 si)
        (prev + 230) = .ok bs.name)
    (hrt : OptWf (fun t => t < U32 ∧ f32Gt t fZero = true) v.runtime) :
    ObjectMotion.validate (ObjectMotion.mkC v ni si) prev ad =
      .ok v := by
  rw [ObjectMotion.validate]
  have hparse : ObjectMotionFlags.parse
      (ObjectMotion.mkC v ni si).flags (prev + 0) =
      .ok (ObjectMotion.flagsOf v) := by
    show ObjectMotionFlags.parse (ObjectMotion.flagsOf v).toBits
      (prev + 0) = _
    unfold ObjectMotionFlags.parse
    rw [ObjectMotionFlags.ofBits_toBits_motion]
  rw [hparse, ok_bind,
    readGravity_mkC v ni si prev,
    readTransRangeMin_mkC v ni si prev,
    readTransRangeMax_mkC v ni si prev,
    readTranslation_mkC v ni si prev,
    readForwardRotation_mkC v ni si prev,
    readXyzRotation_mkC v ni si prev,
    readScaleGroup_mkC v ni si prev,
    readBounceSeq_mkC v ni si prev hbseq,
    readBounceSound_mkC ad v ni si prev hbsnd hsi,
    readRuntime_mkC v ni si prev hrt]
  dsimp only [ObjectMotion.mkC]
  rw [hnode]
  simp [guardA, ObjectMotion.flagsOf]

theorem motionSoundIndex_ok (ad : AnimDef) (v : ObjectMotion) (off : Nat)
    (hslen : ad.sounds.length ≤ 65536)
    (h : OptWf (fun bs => bs.name ∈ ad.sounds ∧ bs.volume < U32 ∧
      f32Gt bs.volume fZero = true) v.bounce_sound) :
    ∃ si, motionSoundIndex v ad = .ok si ∧
      ∀ bs, v.bounce_sound = some bs →
        lookupName ad.sounds "object motion bounce snd" (m16 si) off =
          .ok bs.name := by
  rcases hv : v.bounce_sound with _ | bs
  · exact ⟨0, by rw [motionSoundIndex, hv],
      fun bs hc => nomatch hc⟩
  · rw [hv] at h
    obtain ⟨hmem, -, -⟩ := h
    obtain ⟨hni, hlook⟩ := lookupName_nameToIndex ad.sounds
      "sound to index" "object motion bounce snd" bs.name off hmem
    refine ⟨idxOf ad.sounds bs.name,
      by simp only [motionSoundIndex, hv]; exact hni, ?_⟩
    intro bs2 hbs2
    cases hbs2
    rw [m16_eq_of_lt (lt_of_lt_of_le (idxOf_lt_length _ _ hmem) hslen)]
    exact hlook

theorem ObjectMotion.roundtrip_motion (ad : AnimDef) (v : ObjectMotion)
    (o p : Nat) (h : ObjectMotion.Wf ad v) :
    ∃ bs r2, ObjectMotion.write v ad = .ok bs ∧
      ObjectMotion.read ⟨bs, o, p⟩ ad 320 = .ok (v, r2) := by
  have hcopy := h
  obtain ⟨hmem, hlen, hslen, hg, hmin, hmax, htr, hfr, hxyz, hsc, hbseq,
    hbsnd, hrt⟩ := h
  obtain ⟨hni, hnodelook⟩ := lookupName_nameToIndex ad.nodes
    "node to index" "object motion node" v.node (o + 4) hmem
  obtain ⟨si, hsiw, hsilook⟩ := motionSoundIndex_ok ad v (o + 230)
    hslen hbsnd
  refine ⟨_, ⟨[], (o + 320 % U32) % U32, o⟩,
    by rw [ObjectMotion.write, hni, ok_bind, hsiw, ok_bind], ?_⟩
  rw [ObjectMotion.read, guardA_true _ _ _ rfl, ok_bind,
    readExact_all _ _ _ _ (ObjectMotionC.toBytes_length_motion _
      (mkC_seq0_length v _ si) (mkC_seq1_length v _ si)
      (mkC_seq2_length v _ si)), ok_bind]
  dsimp only
  rw [ObjectMotion.mkC_mod ad v _ si hcopy,
    ObjectMotion.validate_mkC_motion ad v _ si o
      (by rw [m32_eq_of_lt (lt_of_lt_of_le (idxOf_lt_length _ _ hmem)
        hlen)]; exact hnodelook)
      hbseq hbsnd hsilook hrt, ok_bind]

theorem ObjectMotionFlags.parse_ok_motion {raw off : Nat}
    {fm : ObjectMotionFlags}
    (h : ObjectMotionFlags.parse raw off = .ok fm) :
    fm.gravity = raw.testBit 0 ∧ fm.translation = raw.testBit 2 ∧
      fm.translation_min = raw.testBit 3 ∧
      fm.translation_max = raw.testBit 4 ∧
      fm.xyz_rotation = raw.testBit 5 ∧
      fm.forward_rotation_distance = raw.testBit 6 ∧
      fm.forward_rotation_time = raw.testBit 7 ∧
      fm.scale = raw.testBit 8 ∧ fm.runtime = raw.testBit 10 ∧
      fm.bounce_seq = raw.testBit 11 ∧
      fm.bounce_sound = raw.testBit 12 := by
  unfold ObjectMotionFlags.parse ObjectMotionFlags.ofBits at h
  by_cases hm : raw &&& 0xFFFF8200 = 0
  · rw [if_pos hm] at h
    cases h
    exact ⟨rfl, rfl, rfl, rfl, rfl, rfl, rfl, rfl, rfl, rfl, rfl⟩
  · rw [if_neg hm] at h
    cases h

theorem readGravity_none_inv {fm : ObjectMotionFlags}
    {c : ObjectMotionC} {prev : Nat} {x : Option Gravity}
    (h : readGravity fm c prev = .ok x) (hm : fm.gravity = false) :
    f32Eq c.gravity fZero = true := by
  unfold readGravity at h
  rw [hm] at h
  simp only [Bool.false_eq_true, if_false] at h
  obtain ⟨u1, h1, h⟩ := bindOk h
  obtain ⟨u2, h2, h⟩ := bindOk h
  obtain ⟨u3, h3, -⟩ := bindOk h
  exact guardA_ok h3

theorem readTransRangeMin_none_inv {fm : ObjectMotionFlags}
    {c : ObjectMotionC} {prev : Nat} {x : Option Vec4}
    (h : readTransRangeMin fm c prev = .ok x)
    (hm : fm.translation_min = false) :
    f32Eq c.trans_range_min_1 fZero = true ∧
      f32Eq c.trans_range_min_2 fZero = true ∧
      f32Eq c.trans_range_min_3 fZero = true ∧
      f32Eq c.trans_range_min_4 fZero = true := by
  unfold readTransRangeMin at h
  rw [hm] at h
  simp only [Bool.false_eq_true, if_false] at h
  obtain ⟨u1, h1, h⟩ := bindOk h
  obtain ⟨u2, h2, h⟩ := bindOk h
  obtain ⟨u3, h3, h⟩ := bindOk h
  obtain ⟨u4, h4, -⟩ := bindOk h
  exact ⟨guardA_ok h1, guardA_ok h2, guardA_ok h3, guardA_ok h4⟩

theorem readTransRangeMax_none_inv {fm : ObjectMotionFlags}
    {c : ObjectMotionC} {prev : Nat} {x : Option Vec4}
    (h : readTransRangeMax fm c prev = .ok x)
    (hm : fm.translation_max = false) :
    f32Eq c.trans_range_max_1 fZero = true ∧
      f32Eq c.trans_range_max_2 fZero = true ∧
      f32Eq c.trans_range_max_3 fZero = true ∧
      f32Eq c.trans_range_max_4 fZero = true := by
  unfold readTransRangeMax at h
  rw [hm] at h
  simp only [Bool.false_eq_true, if_false] at h
  obtain ⟨u1, h1, h⟩ := bindOk h
  obtain ⟨u2, h2, h⟩ := bindOk h
  obtain ⟨u3, h3, h⟩ := bindOk h
  obtain ⟨u4, h4, -⟩ := bindOk h
  exact ⟨guardA_ok h1, guardA_ok h2, guardA_ok h3, guardA_ok h4⟩

theorem readTranslation_none_inv {fm : ObjectMotionFlags}
    {c : ObjectMotionC} {prev : Nat} {x : Option (Vec3 × Vec3 × Vec3)}
    (h : readTranslation fm c prev = .ok x)
    (hm : fm.translation = false) :
    vec3EqZero c.trans_delta = true ∧ vec3EqZero c.trans_initial = true ∧
      vec3EqZero c.unk100 = true := by
  unfold readTranslation at h
  rw [hm] at h
  simp only [Bool.false_eq_true, if_false] at h
  obtain ⟨u1, h1, h⟩ := bindOk h
  obtain ⟨u2, h2, h⟩ := bindOk h
  obtain ⟨u3, h3, -⟩ := bindOk h
  exact ⟨guardA_ok h1, guardA_ok h2, guardA_ok h3⟩

theorem readForwardRotation_none_inv {fm : ObjectMotionFlags}
    {c : ObjectMotionC} {prev : Nat} {x : Option ForwardRotation}
    (h : readForwardRotation fm c prev = .ok x)
    (hmt : fm.forward_rotation_time = false)
    (hmd : fm.forward_rotation_distance = false) :
    f32Eq c.forward_rotation_1 fZero = true ∧
      f32Eq c.forward_rotation_2 fZero = true := by
  unfold readForwardRotation at h
  rw [hmt, hmd] at h
  simp only [Bool.false_eq_true, if_false] at h
  obtain ⟨u1, h1, h⟩ := bindOk h
  obtain ⟨u2, h2, -⟩ := bindOk h
  exact ⟨guardA_ok h1, guardA_ok h2⟩

theorem readXyzRotation_none_inv {fm : ObjectMotionFlags}
    {c : ObjectMotionC} {prev : Nat} {x : Option (Vec3 × Vec3)}
    (h : readXyzRotation fm c prev = .ok x)
    (hm : fm.xyz_rotation = false) :
    vec3EqZero c.xyz_rotation = true ∧ vec3EqZero c.unk136 = true := by
  unfold readXyzRotation at h
  rw [hm] at h
  simp only [Bool.false_eq_true, if_false] at h
  obtain ⟨u1, h1, h⟩ := bindOk h
  obtain ⟨u2, h2, -⟩ := bindOk h
  exact ⟨guardA_ok h1, guardA_ok h2⟩

theorem readScaleGroup_none_inv {fm : ObjectMotionFlags}
    {c : ObjectMotionC} {prev : Nat} {x : Option (Vec3 × Vec3)}
    (h : readScaleGroup fm c prev = .ok x) (hm : fm.scale = false) :
    vec3EqZero c.scale = true ∧ vec3EqZero c.unk172 = true := by
  unfold readScaleGroup at h
  rw [hm] at h
  simp only [Bool.false_eq_true, if_false] at h
  obtain ⟨u1, h1, h⟩ := bindOk h
  obtain ⟨u2, h2, -⟩ := bindOk h
  exact ⟨guardA_ok h1, guardA_ok h2⟩

theorem readBounceSeq_none_inv {fm : ObjectMotionFlags}
    {c : ObjectMotionC} {prev : Nat}
    {x : Option (Option (List Nat) × Option (List Nat) ×
      Option (List Nat))}
    (h : readBounceSeq fm c prev = .ok x) (hm : fm.bounce_seq = false) :
    c.bounce_seq0_name.all (fun b => b == 0) = true ∧
      c.bounce_seq1_name.all (fun b => b == 0) = true ∧
      c.bounce_seq2_name.all (fun b => b == 0) = true := by
  unfold readBounceSeq at h
  rw [hm] at h
  simp only [Bool.false_eq_true, if_false] at h
  obtain ⟨u1, h1, h⟩ := bindOk h
  obtain ⟨u2, h2, h⟩ := bindOk h
  obtain ⟨u3, h3, -⟩ := bindOk h
  exact ⟨guardA_ok h1, guardA_ok h2, guardA_ok h3⟩

theorem readBounceSound_none_inv {fm : ObjectMotionFlags}
    {c : ObjectMotionC} {ad : AnimDef} {prev : Nat}
    {x : Option BounceSound}
    (h : readBounceSound fm c ad prev = .ok x)
    (hm : fm.bounce_sound = false) :
    c.bounce_snd0_index = 0 ∧
      f32Eq c.bounce_snd0_volume fZero = true := by
  unfold readBounceSound at h
  rw [hm] at h
  simp only [Bool.false_eq_true, if_false] at h
  obtain ⟨u1, h1, h⟩ := bindOk h
  obtain ⟨u2, h2, -⟩ := bindOk h
  exact ⟨guardA_ok h1, guardA_ok h2⟩

theorem readRuntime_none_inv {fm : ObjectMotionFlags}
    {c : ObjectMotionC} {prev : Nat} {x : Option Nat}
    (h : readRuntime fm c prev = .ok x) (hm : fm.runtime = false) :
    f32Eq c.runtime fZero = true := by
  unfold readRuntime at h
  rw [hm] at h
  simp only [Bool.false_eq_true, if_false] at h
  obtain ⟨u1, h1, -⟩ := bindOk h
  exact guardA_ok h1

/-- Successful decoding forces every clear-flagged group's slot to hold
its sentinel (IEEE zero, zero index, or all-zero name bytes) in the
object-motion record. -/
theorem motion_validate_sentinels {c : ObjectMotionC} {prev : Nat}
    {ad : AnimDef} {v : ObjectMotion}
    (h : ObjectMotion.validate c prev ad = .ok v) :
    (c.flags.testBit 0 = false → f32Eq c.gravity fZero = true) ∧
    (c.flags.testBit 3 = false →
      f32Eq c.trans_range_min_1 fZero = true ∧
        f32Eq c.trans_range_min_2 fZero = true ∧
        f32Eq c.trans_range_min_3 fZero = true ∧
        f32Eq c.trans_range_min_4 fZero = true) ∧
    (c.flags.testBit 4 = false →
      f32Eq c.trans_range_max_1 fZero = true ∧
        f32Eq c.trans_range_max_2 fZero = true ∧
        f32Eq c.trans_range_max_3 fZero = true ∧
        f32Eq c.trans_range_max_4 fZero = true) ∧
    (c.flags.testBit 2 = false →
      vec3EqZero c.trans_delta = true ∧
        vec3EqZero c.trans_initial = true ∧
        vec3EqZero c.unk100 = true) ∧
    (c.flags.testBit 7 = false → c.flags.testBit 6 = false →
      f32Eq c.forward_rotation_1 fZero = true ∧
        f32Eq c.forward_rotation_2 fZero = true) ∧
    (c.flags.testBit 5 = false →
      vec3EqZero c.xyz_rotation = true ∧ vec3EqZero c.unk136 = true) ∧
    (c.flags.testBit 8 = false →
      vec3EqZero c.scale = true ∧ vec3EqZero c.unk172 = true) ∧
    (c.flags.testBit 11 = false →
      c.bounce_seq0_name.all (fun b => b == 0) = true ∧
        c.bounce_seq1_name.all (fun b => b == 0) = true ∧
        c.bounce_seq2_name.all (fun b => b == 0) = true) ∧
    (c.flags.testBit 12 = false →
      c.bounce_snd0_index = 0 ∧
        f32Eq c.bounce_snd0_volume fZero = true) ∧
    (c.flags.testBit 10 = false → f32Eq c.runtime fZero = true) := by
  unfold ObjectMotion.validate at h
  obtain ⟨fm, hfm, h⟩ := bindOk h
  obtain ⟨hgr, htr, hmin, hmax, hxyz, hfd, hft, hsc, hrt, hbq, hbs⟩ :=
    ObjectMotionFlags.parse_ok_motion hfm
  obtain ⟨node, hnode, h⟩ := bindOk h
  obtain ⟨u1, -, h⟩ := bindOk h
  obtain ⟨u2, -, h⟩ := bindOk h
  obtain ⟨gravity, hgrav, h⟩ := bindOk h
  obtain ⟨tmin, htmin, h⟩ := bindOk h
  obtain ⟨tmax, htmax, h⟩ := bindOk h
  obtain ⟨trans, htrans, h⟩ := bindOk h
  obtain ⟨u3, -, h⟩ := bindOk h
  obtain ⟨u4, -, h⟩ := bindOk h
  obtain ⟨fwd, hfwd, h⟩ := bindOk h
  obtain ⟨u5, -, h⟩ := bindOk h
  obtain ⟨xyz, hxyzr, h⟩ := bindOk h
  obtain ⟨u6, -, h⟩ := bindOk h
  obtain ⟨scale, hscale, h⟩ := bindOk h
  obtain ⟨u7, -, h⟩ := bindOk h
  obtain ⟨u8, -, h⟩ := bindOk h
  obtain ⟨u9, -, h⟩ := bindOk h
  obtain ⟨u10, -, h⟩ := bindOk h
  obtain ⟨bseq, hbseq, h⟩ := bindOk h
  obtain ⟨bsnd, hbsnd, h⟩ := bindOk h
  obtain ⟨u11, -, h⟩ := bindOk h
  obtain ⟨u12, -, h⟩ := bindOk h
  obtain ⟨u13, -, h⟩ := bindOk h
  obtain ⟨u14, -, h⟩ := bindOk h
  obtain ⟨rt, hrtv, -⟩ := bindOk h
  exact ⟨fun hb => readGravity_none_inv hgrav (by rw [hgr, hb]),
    fun hb => readTransRangeMin_none_inv htmin (by rw [hmin, hb]),
    fun hb => readTransRangeMax_none_inv htmax (by rw [hmax, hb]),
    fun hb => readTranslation_none_inv htrans (by rw [htr, hb]),
    fun hb1 hb2 => readForwardRotation_none_inv hfwd
      (by rw [hft, hb1]) (by rw [hfd, hb2]),
    fun hb => readXyzRotation_none_inv hxyzr (by rw [hxyz, hb]),
    fun hb => readScaleGroup_none_inv hscale (by rw [hsc, hb]),
    fun hb => readBounceSeq_none_inv hbseq (by rw [hbq, hb]),
    fun hb => readBounceSound_none_inv hbsnd (by rw [hbs, hb]),
    fun hb => readRuntime_none_inv hrtv (by rw [hrt, hb])⟩

/-- The flags field of a serialized object-motion struct is its
(truncated) flags word. -/
theorem motion_toBytes_flags (c : ObjectMotionC) :
    field c.toBytes 0 4 = m32 c.flags := by
  simp [ObjectMotionC.toBytes, List.append_assoc, m32, U32]

/-- The flags word of the struct built by the object-motion encoder. -/
theorem motion_mkC_flags (v : ObjectMotion) (ni si : Nat) :
    field (ObjectMotion.mkC v ni si).toBytes 0 4 =
      (ObjectMotion.flagsOf v).toBits := by
  have hlt : (ObjectMotion.flagsOf v).toBits < U32 :=
    lt_of_lt_of_le (bitsOf_lt _) (by unfold U32; norm_num)
  rw [motion_toBytes_flags]
  exact m32_eq_of_lt hlt

/-- Decoding inversion through the raw transfer: a successful
`ObjectMotion::read` yields the validated parse of the first 320
bytes. -/
theorem motion_read_ok_inv {r : CountingReader} {ad : AnimDef}
    {size : Nat} {v : ObjectMotion} {r2 : CountingReader}
    (h : ObjectMotion.read r ad size = .ok (v, r2)) :
    ObjectMotion.validate (ObjectMotionC.ofBytes (r.inner.take 320))
      r.offset ad = .ok v := by
  unfold ObjectMotion.read at h
  obtain ⟨u, hu, h⟩ := bindOk h
  by_cases hlen : 320 ≤ r.inner.length
  · rw [readExact_take _ _ hlen, ok_bind] at h
    dsimp only at h
    obtain ⟨w, hw, h⟩ := bindOk h
    simp only [Except.ok.injEq, Prod.mk.injEq] at h
    rw [h.1] at hw
    exact hw
  · rw [readExact_err _ _ (by omega), error_bind] at h
    cases h

/-- An all-ones flag word makes `ObjectMotion::read` fail as an unknown
discriminant at the record start (the offset of the flags field). -/
theorem motion_read_allones (r : CountingReader) (ad : AnimDef)
    (hlen : 320 ≤ r.inner.length)
    (hf : field r.inner 0 4 = 0xFFFFFFFF) :
    ObjectMotion.read r ad 320 =
      .error (.unknownDiscriminant 0xFFFFFFFF r.offset) := by
  rw [ObjectMotion.read, guardA_true _ _ _ rfl, ok_bind,
    readExact_take _ _ hlen, ok_bind]
  dsimp only
  have hfl : (ObjectMotionC.ofBytes (r.inner.take 320)).flags =
      0xFFFFFFFF := by
    show field (r.inner.take 320) 0 4 = 0xFFFFFFFF
    rw [field_take _ _ _ _ (by omega), hf]
  rw [ObjectMotion.validate, hfl,
    show ObjectMotionFlags.parse 0xFFFFFFFF (r.offset + 0) =
      .error (.unknownDiscriminant 0xFFFFFFFF (r.offset + 0)) from rfl,
    error_bind, Nat.add_zero, error_bind]

set_option maxHeartbeats 1000000 in
/-- Encoding an absent group sentinel-fills its slot (zero words, empty
name buffers) and leaves its flag bit clear, in the object-motion
record. -/
theorem motion_write_none_sentinel {ad : AnimDef} {v : ObjectMotion}
    {bs : List Nat} (hwf : ObjectMotion.Wf ad v)
    (hw : ObjectMotion.write v ad = .ok bs) :
    (v.gravity = none → field bs 12 4 = 0 ∧
      (field bs 0 4).testBit 0 = false) ∧
    (v.translation_range_min = none →
      (field bs 20 4 = 0 ∧ field bs 28 4 = 0 ∧ field bs 36 4 = 0 ∧
        field bs 44 4 = 0) ∧
      (field bs 0 4).testBit 3 = false) ∧
    (v.translation_range_max = none →
      (field bs 24 4 = 0 ∧ field bs 32 4 = 0 ∧ field bs 40 4 = 0 ∧
        field bs 48 4 = 0) ∧
      (field bs 0 4).testBit 4 = false) ∧
    (v.translation = none →
      (vec3At bs 52 = Vec3.EMPTY ∧ vec3At bs 64 = Vec3.EMPTY ∧
        vec3At bs 100 = Vec3.EMPTY) ∧
      (field bs 0 4).testBit 2 = false) ∧
    (v.forward_rotation = none →
      (field bs 112 4 = 0 ∧ field bs 116 4 = 0) ∧
      (field bs 0 4).testBit 7 = false ∧
        (field bs 0 4).testBit 6 = false) ∧
    (v.xyz_rotation = none →
      (vec3At bs 124 = Vec3.EMPTY ∧ vec3At bs 136 = Vec3.EMPTY) ∧
      (field bs 0 4).testBit 5 = false) ∧
    (v.scale = none →
      (vec3At bs 160 = Vec3.EMPTY ∧ vec3At bs 172 = Vec3.EMPTY) ∧
      (field bs 0 4).testBit 8 = false) ∧
    (v.bounce_sequence = none →
      (bytesAt bs 196 32 = List.replicate 32 0 ∧
        bytesAt bs 236 32 = List.replicate 32 0 ∧
        bytesAt bs 276 32 = List.replicate 32 0) ∧
      (field bs 0 4).testBit 11 = false) ∧
    (v.bounce_sound = none →
      (field bs 230 2 = 0 ∧ field bs 232 4 = 0) ∧
      (field bs 0 4).testBit 12 = false) ∧
    (v.runtime = none → field bs 316 4 = 0 ∧
      (field bs 0 4).testBit 10 = false) := by
  unfold ObjectMotion.write at hw
  obtain ⟨ni, -, hw⟩ := bindOk hw
  obtain ⟨si, -, hw⟩ := bindOk hw
  have hbs : bs = (ObjectMotion.mkC v ni si).toBytes := by
    simp only [Except.ok.injEq] at hw
    exact hw.symm
  rw [hbs]
  have hof := ObjectMotion.mkC_mod ad v ni si hwf
  rw [motion_mkC_flags]
  unfold ObjectMotionFlags.toBits
  simp only [testBit_bitsOf, List.getD]
  refine ⟨fun hb => ⟨?_, by simp [ObjectMotion.flagsOf, hb]⟩,
    fun hb => ⟨⟨?_, ?_, ?_, ?_⟩, by simp [ObjectMotion.flagsOf, hb]⟩,
    fun hb => ⟨⟨?_, ?_, ?_, ?_⟩, by simp [ObjectMotion.flagsOf, hb]⟩,
    fun hb => ⟨⟨?_, ?_, ?_⟩, by simp [ObjectMotion.flagsOf, hb]⟩,
    fun hb => ⟨⟨?_, ?_⟩, by simp [ObjectMotion.flagsOf, hb],
      by simp [ObjectMotion.flagsOf, hb]⟩,
    fun hb => ⟨⟨?_, ?_⟩, by simp [ObjectMotion.flagsOf, hb]⟩,
    fun hb => ⟨⟨?_, ?_⟩, by simp [ObjectMotion.flagsOf, hb]⟩,
    fun hb => ⟨⟨?_, ?_, ?_⟩, by simp [ObjectMotion.flagsOf, hb]⟩,
    fun hb => ⟨⟨?_, ?_⟩, by simp [ObjectMotion.flagsOf, hb]⟩,
    fun hb => ⟨?_, by simp [ObjectMotion.flagsOf, hb]⟩⟩
  case _ hb =>
    have h1 := congrArg ObjectMotionC.gravity hof
    dsimp only [ObjectMotionC.ofBytes] at h1
    rw [h1]
    simp [ObjectMotion.mkC, hb, fZero]
  case _ hb =>
    have h1 := congrArg ObjectMotionC.trans_range_min_1 hof
    dsimp only [ObjectMotionC.ofBytes] at h1
    rw [h1]
    simp [ObjectMotion.mkC, hb, Vec4.EMPTY]
  case _ hb =>
    have h1 := congrArg ObjectMotionC.trans_range_min_2 hof
    dsimp only [ObjectMotionC.ofBytes] at h1
    rw [h1]
    simp [ObjectMotion.mkC, hb, Vec4.EMPTY]
  case _ hb =>
    have h1 := congrArg ObjectMotionC.trans_range_min_3 hof
    dsimp only [ObjectMotionC.ofBytes] at h1
    rw [h1]
    simp [ObjectMotion.mkC, hb, Vec4.EMPTY]
  case _ hb =>
    have h1 := congrArg ObjectMotionC.trans_range_min_4 hof
    dsimp only [ObjectMotionC.ofBytes] at h1
    rw [h1]
    simp [ObjectMotion.mkC, hb, Vec4.EMPTY]
  case _ hb =>
    have h1 := congrArg ObjectMotionC.trans_range_max_1 hof
    dsimp only [ObjectMotionC.ofBytes] at h1
    rw [h1]
    simp [ObjectMotion.mkC, hb, Vec4.EMPTY]
  case _ hb =>
    have h1 := congrArg ObjectMotionC.trans_range_max_2 hof
    dsimp only [ObjectMotionC.ofBytes] at h1
    rw [h1]
    simp [ObjectMotion.mkC, hb, Vec4.EMPTY]
  case _ hb =>
    have h1 := congrArg ObjectMotionC.trans_range_max_3 hof
    dsimp only [ObjectMotionC.ofBytes] at h1
    rw [h1]
    simp [ObjectMotion.mkC, hb, Vec4.EMPTY]
  case _ hb =>
    have h1 := congrArg ObjectMotionC.trans_range_max_4 hof
    dsimp only [ObjectMotionC.ofBytes] at h1
    rw [h1]
    simp [ObjectMotion.mkC, hb, Vec4.EMPTY]
  case _ hb =>
    have h1 := congrArg ObjectMotionC.trans_delta hof
    dsimp only [ObjectMotionC.ofBytes] at h1
    rw [h1]
    simp [ObjectMotion.mkC, hb, zeroVec3Triple]
  case _ hb =>
    have h1 := congrArg ObjectMotionC.trans_initial hof
    dsimp only [ObjectMotionC.ofBytes] at h1
    rw [h1]
    simp [ObjectMotion.mkC, hb, zeroVec3Triple]
  case _ hb =>
    have h1 := congrArg ObjectMotionC.unk100 hof
    dsimp only [ObjectMotionC.ofBytes] at h1
    rw [h1]
    simp [ObjectMotion.mkC, hb, zeroVec3Triple]
  case _ hb =>
    have h1 := congrArg ObjectMotionC.forward_rotation_1 hof
    dsimp only [ObjectMotionC.ofBytes] at h1
    rw [h1]
    simp [ObjectMotion.mkC, hb, fwd1Of, fZero]
  case _ hb =>
    have h1 := congrArg ObjectMotionC.forward_rotation_2 hof
    dsimp only [ObjectMotionC.ofBytes] at h1
    rw [h1]
    simp [ObjectMotion.mkC, hb, fwd2Of, fZero]
  case _ hb =>
    have h1 := congrArg ObjectMotionC.xyz_rotation hof
    dsimp only [ObjectMotionC.ofBytes] at h1
    rw [h1]
    simp [ObjectMotion.mkC, hb, zeroVec3Pair]
  case _ hb =>
    have h1 := congrArg ObjectMotionC.unk136 hof
    dsimp only [ObjectMotionC.ofBytes] at h1
    rw [h1]
    simp [ObjectMotion.mkC, hb, zeroVec3Pair]
  case _ hb =>
    have h1 := congrArg ObjectMotionC.scale hof
    dsimp only [ObjectMotionC.ofBytes] at h1
    rw [h1]
    simp [ObjectMotion.mkC, hb, zeroVec3Pair]
  case _ hb =>
    have h1 := congrArg ObjectMotionC.unk172 hof
    dsimp only [ObjectMotionC.ofBytes] at h1
    rw [h1]
    simp [ObjectMotion.mkC, hb, zeroVec3Pair]
  case _ hb =>
    have h1 := congrArg ObjectMotionC.bounce_seq0_name hof
    dsimp only [ObjectMotionC.ofBytes] at h1
    rw [h1]
    simp [ObjectMotion.mkC, hb, bounceSeq0Of]
  case _ hb =>
    have h1 := congrArg ObjectMotionC.bounce_seq1_name hof
    dsimp only [ObjectMotionC.ofBytes] at h1
    rw [h1]
    simp [ObjectMotion.mkC, hb, bounceSeq1Of]
  case _ hb =>
    have h1 := congrArg ObjectMotionC.bounce_seq2_name hof
    dsimp only [ObjectMotionC.ofBytes] at h1
    rw [h1]
    simp [ObjectMotion.mkC, hb, bounceSeq2Of]
  case _ hb =>
    have h1 := congrArg ObjectMotionC.bounce_snd0_index hof
    dsimp only [ObjectMotionC.ofBytes] at h1
    rw [h1]
    simp [ObjectMotion.mkC, hb]
  case _ hb =>
    have h1 := congrArg ObjectMotionC.bounce_snd0_volume hof
    dsimp only [ObjectMotionC.ofBytes] at h1
    rw [h1]
    simp [ObjectMotion.mkC, hb, fZero]
  case _ hb =>
    have h1 := congrArg ObjectMotionC.runtime hof
    dsimp only [ObjectMotionC.ofBytes] at h1
    rw [h1]
    simp [ObjectMotion.mkC, hb, fZero]

theorem guardA_false (label : String) (p : Prop) [Decidable p]
    (off : Nat) (h : ¬p) :
    guardA label p off = .error (.assertion label off) := by
  unfold guardA; rw [if_neg h]

/-- Successful `read_gamez` decoding forces each stored section offset to
equal the reader's running offset when that section begins, and fixes the
section order textures → materials → meshes → nodes. -/
theorem readGamez_offsets {α β γ : Type}
    {readMaterials : CountingReader → List (List Nat) →
      Except Error ((α × Nat) × CountingReader)}
    {readMeshes : CountingReader → Nat →
      Except Error ((β × Nat) × CountingReader)}
    {readNodes : CountingReader → Nat →
      Except Error (γ × CountingReader)}
    {r : CountingReader} {g : GameZ α β γ}
    (h : readGamez readMaterials readMeshes readNodes r = .ok g) :
    ∃ hb r1 ts r2 ms r3 hs r4,
      r.readExact 36 = .ok (hb, r1) ∧
      r1.offset = (HeaderC.ofBytes hb).textures_offset ∧
      readTextureInfos (HeaderC.ofBytes hb).texture_count r1 =
        .ok (ts, r2) ∧
      r2.offset = (HeaderC.ofBytes hb).materials_offset ∧
      readMaterials r2 ts = .ok (ms, r3) ∧
      r3.offset = (HeaderC.ofBytes hb).meshes_offset ∧
      readMeshes r3 (HeaderC.ofBytes hb).nodes_offset = .ok (hs, r4) ∧
      r4.offset = (HeaderC.ofBytes hb).nodes_offset := by
  unfold readGamez at h
  obtain ⟨⟨hb, r1⟩, hre, h⟩ := bindOk h
  dsimp only at h
  obtain ⟨u1, -, h⟩ := bindOk h
  obtain ⟨u2, -, h⟩ := bindOk h
  obtain ⟨u3, -, h⟩ := bindOk h
  obtain ⟨u4, -, h⟩ := bindOk h
  obtain ⟨u5, hoff1, h⟩ := bindOk h
  obtain ⟨⟨ts, r2⟩, hts, h⟩ := bindOk h
  dsimp only at h
  obtain ⟨u6, hoff2, h⟩ := bindOk h
  obtain ⟨⟨ms, r3⟩, hms, h⟩ := bindOk h
  dsimp only at h
  obtain ⟨u7, hoff3, h⟩ := bindOk h
  obtain ⟨⟨hs, r4⟩, hhs, h⟩ := bindOk h
  dsimp only at h
  obtain ⟨u8, hoff4, -⟩ := bindOk h
  exact ⟨hb, r1, ts, r2, ms, r3, hs, r4, hre, guardA_ok hoff1, hts,
    guardA_ok hoff2, hms, guardA_ok hoff3, hhs, guardA_ok hoff4⟩

/-- A textures-offset mismatch fails `read_gamez` with the corresponding
assertion error at the reader's current offset. -/
theorem readGamez_textures_mismatch {α β γ : Type}
    (readMaterials : CountingReader → List (List Nat) →
      Except Error ((α × Nat) × CountingReader))
    (readMeshes : CountingReader → Nat →
      Except Error ((β × Nat) × CountingReader))
    (readNodes : CountingReader → Nat →
      Except Error (γ × CountingReader))
    {r : CountingReader} {hb : List Nat} {r1 : CountingReader}
    (hre : r.readExact 36 = .ok (hb, r1))
    (hsig : (HeaderC.ofBytes hb).signature = SIGNATURE)
    (hver : (HeaderC.ofBytes hb).version = VERSION_MW)
    (htc : (HeaderC.ofBytes hb).texture_count < 4096)
    (hnc : (HeaderC.ofBytes hb).node_count <
      (HeaderC.ofBytes hb).node_array_size)
    (hmm : r1.offset ≠ (HeaderC.ofBytes hb).textures_offset) :
    readGamez readMaterials readMeshes readNodes r =
      .error (.assertion "textures offset" r1.offset) := by
  unfold readGamez
  rw [hre, ok_bind]
  dsimp only
  rw [guardA_true _ _ _ hsig, ok_bind, guardA_true _ _ _ hver, ok_bind,
    guardA_true _ _ _ htc, ok_bind, guardA_true _ _ _ hnc, ok_bind,
    guardA_false _ _ _ hmm, error_bind]

/-- A materials-offset mismatch fails `read_gamez` with the corresponding
assertion error at the reader's current offset. -/
theorem readGamez_materials_mismatch {α β γ : Type}
    (readMaterials : CountingReader → List (List Nat) →
      Except Error ((α × Nat) × CountingReader))
    (readMeshes : CountingReader → Nat →
      Except Error ((β × Nat) × CountingReader))
    (readNodes : CountingReader → Nat →
      Except Error (γ × CountingReader))
    {r : CountingReader} {hb : List Nat} {r1 : CountingReader}
    {ts : List (List Nat)} {r2 : CountingReader}
    (hre : r.readExact 36 = .ok (hb, r1))
    (hsig : (HeaderC.ofBytes hb).signature = SIGNATURE)
    (hver : (HeaderC.ofBytes hb).version = VERSION_MW)
    (htc : (HeaderC.ofBytes hb).texture_count < 4096)
    (hnc : (HeaderC.ofBytes hb).node_count <
      (HeaderC.ofBytes hb).node_array_size)
    (hto : r1.offset = (HeaderC.ofBytes hb).textures_offset)
    (hts : readTextureInfos (HeaderC.ofBytes hb).texture_count r1 =
      .ok (ts, r2))
    (hmm : r2.offset ≠ (HeaderC.ofBytes hb).materials_offset) :
    readGamez readMaterials readMeshes readNodes r =
      .error (.assertion "materials offset" r2.offset) := by
  unfold readGamez
  rw [hre, ok_bind]
  dsimp only
  rw [guardA_true _ _ _ hsig, ok_bind, guardA_true _ _ _ hver, ok_bind,
    guardA_true _ _ _ htc, ok_bind, guardA_true _ _ _ hnc, ok_bind,
    guardA_true _ _ _ hto, ok_bind, hts, ok_bind]
  dsimp only
  rw [guardA_false _ _ _ hmm, error_bind]

/-- A meshes-offset mismatch fails `read_gamez` with the corresponding
assertion error at the reader's current offset. -/
theorem readGamez_meshes_mismatch {α β γ : Type}
    (readMaterials : CountingReader → List (List Nat) →
      Except Error ((α × Nat) × CountingReader))
    (readMeshes : CountingReader → Nat →
      Except Error ((β × Nat) × CountingReader))
    (readNodes : CountingReader → Nat →
      Except Error (γ × CountingReader))
    {r : CountingReader} {hb : List Nat} {r1 : CountingReader}
    {ts : List (List Nat)} {r2 : CountingReader}
    {ms : α × Nat} {r3 : CountingReader}
    (hre : r.readExact 36 = .ok (hb, r1))
    (hsig : (HeaderC.ofBytes hb).signature = SIGNATURE)
    (hver : (HeaderC.ofBytes hb).version = VERSION_MW)
    (htc : (HeaderC.ofBytes hb).texture_count < 4096)
    (hnc : (HeaderC.ofBytes hb).node_count <
      (HeaderC.ofBytes hb).node_array_size)
    (hto : r1.offset = (HeaderC.ofBytes hb).textures_offset)
    (hts : readTextureInfos (HeaderC.ofBytes hb).texture_count r1 =
      .ok (ts, r2))
    (hmo : r2.offset = (HeaderC.ofBytes hb).materials_offset)
    (hms : readMaterials r2 ts = .ok (ms, r3))
    (hmm : r3.offset ≠ (HeaderC.ofBytes hb).meshes_offset) :
    readGamez readMaterials readMeshes readNodes r =
      .error (.assertion "meshes offset" r3.offset) := by
  unfold readGamez
  rw [hre, ok_bind]
  dsimp only
  rw [guardA_true _ _ _ hsig, ok_bind, guardA_true _ _ _ hver, ok_bind,
    guardA_true _ _ _ htc, ok_bind, guardA_true _ _ _ hnc, ok_bind,
    guardA_true _ _ _ hto, ok_bind, hts, ok_bind]
  dsimp only
  rw [guardA_true _ _ _ hmo, ok_bind, hms, ok_bind]
  dsimp only
  rw [guardA_false _ _ _ hmm, error_bind]

/-- A nodes-offset mismatch fails `read_gamez` with the corresponding
assertion error at the reader's current offset. -/
theorem readGamez_nodes_mismatch {α β γ : Type}
    (readMaterials : CountingReader → List (List Nat) →
      Except Error ((α × Nat) × CountingReader))
    (readMeshes : CountingReader → Nat →
      Except Error ((β × Nat) × CountingReader))
    (readNodes : CountingReader → Nat →
      Except Error (γ × CountingReader))
    {r : CountingReader} {hb : List Nat} {r1 : CountingReader}
    {ts : List (List Nat)} {r2 : CountingReader}
    {ms : α × Nat} {r3 : CountingReader}
    {hs : β × Nat} {r4 : CountingReader}
    (hre : r.readExact 36 = .ok (hb, r1))
    (hsig : (HeaderC.ofBytes hb).signature = SIGNATURE)
    (hver : (HeaderC.ofBytes hb).version = VERSION_MW)
    (htc : (HeaderC.ofBytes hb).texture_count < 4096)
    (hnc : (HeaderC.ofBytes hb).node_count <
      (HeaderC.ofBytes hb).node_array_size)
    (hto : r1.offset = (HeaderC.ofBytes hb).textures_offset)
    (hts : readTextureInfos (HeaderC.ofBytes hb).texture_count r1 =
      .ok (ts, r2))
    (hmo : r2.offset = (HeaderC.ofBytes hb).materials_offset)
    (hms : readMaterials r2 ts = .ok (ms, r3))
    (hho : r3.offset = (HeaderC.ofBytes hb).meshes_offset)
    (hhs : readMeshes r3 (HeaderC.ofBytes hb).nodes_offset =
      .ok (hs, r4))
    (hmm : r4.offset ≠ (HeaderC.ofBytes hb).nodes_offset) :
    readGamez readMaterials readMeshes readNodes r =
      .error (.assertion "nodes offset" r4.offset) := by
  unfold readGamez
  rw [hre, ok_bind]
  dsimp only
  rw [guardA_true _ _ _ hsig, ok_bind, guardA_true _ _ _ hver, ok_bind,
    guardA_true _ _ _ htc, ok_bind, guardA_true _ _ _ hnc, ok_bind,
    guardA_true _ _ _ hto, ok_bind, hts, ok_bind]
  dsimp only
  rw [guardA_true _ _ _ hmo, ok_bind, hms, ok_bind]
  dsimp only
  rw [guardA_true _ _ _ hho, ok_bind, hhs, ok_bind]
  dsimp only
  rw [guardA_false _ _ _ hmm, error_bind]

/-- C1: for every supported variant kind (object-motion,
object-connector, object-motion-from-to, light-animation,
object-opacity-state, call-object-connector, activation-prerequisite) and
every legally constructed semantic value `v`, decoding the bytes produced
by encoding `v` under the same cross-reference context yields `v`. -/
theorem claim_C1 :
    (∀ ad v o p, ObjectMotion.Wf ad v →
      ∃ bs r2, ObjectMotion.write v ad = .ok bs ∧
        ObjectMotion.read ⟨bs, o, p⟩ ad 320 = .ok (v, r2)) ∧
    (∀ ad v o p, ObjectConnector.Wf ad v →
      ∃ bs r2, ObjectConnector.write v ad = .ok bs ∧
        ObjectConnector.read ⟨bs, o, p⟩ ad 76 = .ok (v, r2)) ∧
    (∀ ad v o p, ObjectMotionFromTo.Wf ad v →
      ∃ bs r2, ObjectMotionFromTo.write v ad = .ok bs ∧
        ObjectMotionFromTo.read ⟨bs, o, p⟩ ad 132 = .ok (v, r2)) ∧
    (∀ ad v o p, LightAnimation.Wf ad v →
      ∃ bs r2, LightAnimation.write v ad = .ok bs ∧
        LightAnimation.read ⟨bs, o, p⟩ ad 100 = .ok (v, r2)) ∧
    (∀ ad v o p, ObjectOpacityState.Wf ad v →
      ∃ bs r2, ObjectOpacityState.write v ad = .ok bs ∧
        ObjectOpacityState.read ⟨bs, o, p⟩ ad 12 = .ok (v, r2)) ∧
    (∀ ad v o p, CallObjectConnector.Wf ad v →
      ∃ bs r2, CallObjectConnector.write v ad = .ok bs ∧
        CallObjectConnector.read ⟨bs, o, p⟩ ad 68 = .ok (v, r2)) ∧
    (∀ (v : ActivationPrereq) o p, v.Wf →
      ∃ r2, read_activ_prereq ⟨write_activ_prereq v, o, p⟩ =
        .ok (v, r2)) := by
  refine ⟨ObjectMotion.roundtrip_motion, ObjectConnector.roundtrip_conn,
    ObjectMotionFromTo.roundtrip_ft, LightAnimation.roundtrip_light,
    ObjectOpacityState.roundtrip_opac, CallObjectConnector.roundtrip_call,
    fun v o p h => ?_⟩
  match v, h with
  | .animation name, h => exact activ_prereq_anim_roundtrip name o p h
  | .object obj, h =>
    exact activ_prereq_object_roundtrip obj o p h.1 h.2.1 h.2.2
  | .parent obj, h =>
    exact activ_prereq_parent_roundtrip obj o p h.1 h.2.1 h.2.2.1 h.2.2.2

/-- C1 witness: each variant's round trip at a concrete well-formed
value. -/
theorem claim_C1_witness :
    (∃ bs r2, ObjectMotion.write vMotionW adW = .ok bs ∧
      ObjectMotion.read ⟨bs, 0, 0⟩ adW 320 = .ok (vMotionW, r2)) ∧
    (∃ bs r2, ObjectConnector.write vConnW adW = .ok bs ∧
      ObjectConnector.read ⟨bs, 0, 0⟩ adW 76 = .ok (vConnW, r2)) ∧
    (∃ bs r2, ObjectMotionFromTo.write vFromToW adW = .ok bs ∧
      ObjectMotionFromTo.read ⟨bs, 0, 0⟩ adW 132 = .ok (vFromToW, r2)) ∧
    (∃ bs r2, LightAnimation.write vLightW adW = .ok bs ∧
      LightAnimation.read ⟨bs, 0, 0⟩ adW 100 = .ok (vLightW, r2)) ∧
    (∃ bs r2, ObjectOpacityState.write vOpacW adC5 = .ok bs ∧
      ObjectOpacityState.read ⟨bs, 0, 0⟩ adC5 12 = .ok (vOpacW, r2)) ∧
    (∃ bs r2, CallObjectConnector.write vCallW adW = .ok bs ∧
      CallObjectConnector.read ⟨bs, 0, 0⟩ adW 68 = .ok (vCallW, r2)) ∧
    (∃ r2, read_activ_prereq
      ⟨write_activ_prereq (.animation [65]), 0, 0⟩ =
      .ok (.animation [65], r2)) :=
  ⟨claim_C1.1 adW vMotionW 0 0 (by decide),
    claim_C1.2.1 adW vConnW 0 0 (by decide),
    claim_C1.2.2.1 adW vFromToW 0 0 (by decide),
    claim_C1.2.2.2.1 adW vLightW 0 0 (by decide),
    claim_C1.2.2.2.2.1 adC5 vOpacW 0 0 (by decide),
    claim_C1.2.2.2.2.2.1 adW vCallW 0 0 (by decide),
    claim_C1.2.2.2.2.2.2 (.animation [65]) 0 0 (by decide)⟩

/-- C3: for every bit-flag variant (object-motion,
object-motion-from-to, object-connector), decoding a record whose 32-bit
flag word is all-ones fails as an unknown discriminant at the offset of
the flags field (the record start). -/
theorem claim_C3 (r : CountingReader) (ad : AnimDef) :
    (320 ≤ r.inner.length → field r.inner 0 4 = 0xFFFFFFFF →
      ObjectMotion.read r ad 320 =
        .error (.unknownDiscriminant 0xFFFFFFFF r.offset)) ∧
    (132 ≤ r.inner.length → field r.inner 0 4 = 0xFFFFFFFF →
      ObjectMotionFromTo.read r ad 132 =
        .error (.unknownDiscriminant 0xFFFFFFFF r.offset)) ∧
    (76 ≤ r.inner.length → field r.inner 0 4 = 0xFFFFFFFF →
      ObjectConnector.read r ad 76 =
        .error (.unknownDiscriminant 0xFFFFFFFF r.offset)) :=
  ⟨motion_read_allones r ad, fromTo_read_allones r ad,
    conn_read_allones r ad⟩

set_option maxRecDepth 8000 in
/-- C3 witness: all three decoders reject 0xFF-filled input. -/
theorem claim_C3_witness :
    ObjectMotion.read rAllOnes adW 320 =
      .error (.unknownDiscriminant 0xFFFFFFFF 0) ∧
    ObjectMotionFromTo.read rAllOnes adW 132 =
      .error (.unknownDiscriminant 0xFFFFFFFF 0) ∧
    ObjectConnector.read rAllOnes adW 76 =
      .error (.unknownDiscriminant 0xFFFFFFFF 0) :=
  ⟨(claim_C3 rAllOnes adW).1 (by decide) (by decide),
    (claim_C3 rAllOnes adW).2.1 (by decide) (by decide),
    (claim_C3 rAllOnes adW).2.2 (by decide) (by decide)⟩

/-- C4: every successful `read_u16`/`read_i16`/`read_u32`/`read_i32`/
`read_f32` consumes exactly its width from the stream, advances the
offset by exactly that width (modulo the wrapping u32 arithmetic, hence
exactly when no wraparound occurs), and sets the previous-offset field to
the offset held before the read. -/
theorem claim_C4 (r r2 : CountingReader) (v : Nat) :
    (r.readU16 = .ok (v, r2) →
      r2.inner = r.inner.drop 2 ∧ 2 ≤ r.inner.length ∧
        r2.offset = (r.offset + 2) % U32 ∧
        (r.offset + 2 < U32 → r2.offset = r.offset + 2) ∧
        r2.prev = r.offset) ∧
    (r.readI16 = .ok (v, r2) →
      r2.inner = r.inner.drop 2 ∧ 2 ≤ r.inner.length ∧
        r2.offset = (r.offset + 2) % U32 ∧
        (r.offset + 2 < U32 → r2.offset = r.offset + 2) ∧
        r2.prev = r.offset) ∧
    (r.readU32 = .ok (v, r2) →
      r2.inner = r.inner.drop 4 ∧ 4 ≤ r.inner.length ∧
        r2.offset = (r.offset + 4) % U32 ∧
        (r.offset + 4 < U32 → r2.offset = r.offset + 4) ∧
        r2.prev = r.offset) ∧
    (r.readI32 = .ok (v, r2) →
      r2.inner = r.inner.drop 4 ∧ 4 ≤ r.inner.length ∧
        r2.offset = (r.offset + 4) % U32 ∧
        (r.offset + 4 < U32 → r2.offset = r.offset + 4) ∧
        r2.prev = r.offset) ∧
    (r.readF32 = .ok (v, r2) →
      r2.inner = r.inner.drop 4 ∧ 4 ≤ r.inner.length ∧
        r2.offset = (r.offset + 4) % U32 ∧
        (r.offset + 4 < U32 → r2.offset = r.offset + 4) ∧
        r2.prev = r.offset) := by
  refine ⟨fun h => ?_, fun h => ?_, fun h => ?_, fun h => ?_,
    fun h => ?_⟩
  · obtain ⟨h1, h2, h3, h4, -⟩ := readU16_ok h
    exact ⟨h1, h2, h3,
      fun hlt => by rw [h3]; exact Nat.mod_eq_of_lt hlt, h4⟩
  · obtain ⟨h1, h2, h3, h4, -⟩ := readU16_ok h
    exact ⟨h1, h2, h3,
      fun hlt => by rw [h3]; exact Nat.mod_eq_of_lt hlt, h4⟩
  · obtain ⟨h1, h2, h3, h4, -⟩ := readU32_ok h
    exact ⟨h1, h2, h3,
      fun hlt => by rw [h3]; exact Nat.mod_eq_of_lt hlt, h4⟩
  · obtain ⟨h1, h2, h3, h4, -⟩ := readU32_ok h
    exact ⟨h1, h2, h3,
      fun hlt => by rw [h3]; exact Nat.mod_eq_of_lt hlt, h4⟩
  · obtain ⟨h1, h2, h3, h4, -⟩ := readU32_ok h
    exact ⟨h1, h2, h3,
      fun hlt => by rw [h3]; exact Nat.mod_eq_of_lt hlt, h4⟩

/-- C4 witness: the five primitives on a concrete four-byte stream. -/
theorem claim_C4_witness :
    (([3, 4] : List Nat) = ([1, 2, 3, 4] : List Nat).drop 2 ∧
      2 ≤ ([1, 2, 3, 4] : List Nat).length ∧
      (2 : Nat) = (0 + 2) % U32 ∧
      ((0 : Nat) + 2 < U32 → (2 : Nat) = 0 + 2) ∧ (0 : Nat) = 0) ∧
    (([3, 4] : List Nat) = ([1, 2, 3, 4] : List Nat).drop 2 ∧
      2 ≤ ([1, 2, 3, 4] : List Nat).length ∧
      (2 : Nat) = (0 + 2) % U32 ∧
      ((0 : Nat) + 2 < U32 → (2 : Nat) = 0 + 2) ∧ (0 : Nat) = 0) ∧
    (([] : List Nat) = ([1, 2, 3, 4] : List Nat).drop 4 ∧
      4 ≤ ([1, 2, 3, 4] : List Nat).length ∧
      (4 : Nat) = (0 + 4) % U32 ∧
      ((0 : Nat) + 4 < U32 → (4 : Nat) = 0 + 4) ∧ (0 : Nat) = 0) ∧
    (([] : List Nat) = ([1, 2, 3, 4] : List Nat).drop 4 ∧
      4 ≤ ([1, 2, 3, 4] : List Nat).length ∧
      (4 : Nat) = (0 + 4) % U32 ∧
      ((0 : Nat) + 4 < U32 → (4 : Nat) = 0 + 4) ∧ (0 : Nat) = 0) ∧
    (([] : List Nat) = ([1, 2, 3, 4] : List Nat).drop 4 ∧
      4 ≤ ([1, 2, 3, 4] : List Nat).length ∧
      (4 : Nat) = (0 + 4) % U32 ∧
      ((0 : Nat) + 4 < U32 → (4 : Nat) = 0 + 4) ∧ (0 : Nat) = 0) :=
  ⟨(claim_C4 ⟨[1, 2, 3, 4], 0, 7⟩ ⟨[3, 4], 2, 0⟩ 513).1 rfl,
    (claim_C4 ⟨[1, 2, 3, 4], 0, 7⟩ ⟨[3, 4], 2, 0⟩ 513).2.1 rfl,
    (claim_C4 ⟨[1, 2, 3, 4], 0, 7⟩ ⟨[], 4, 0⟩ 67305985).2.2.1 rfl,
    (claim_C4 ⟨[1, 2, 3, 4], 0, 7⟩ ⟨[], 4, 0⟩ 67305985).2.2.2.1 rfl,
    (claim_C4 ⟨[1, 2, 3, 4], 0, 7⟩ ⟨[], 4, 0⟩ 67305985).2.2.2.2 rfl⟩

/-- C5: the twelve object-opacity-state bytes
`[01 00, 00 00, 00 00 00 3F, 05 00 00 00]` decode under a context whose
node table has a name at index 5 to is_set = true, state = false,
opacity = 0.5 (bit pattern 0x3F000000) and that node's name, and that
value re-encodes to the identical twelve bytes. -/
theorem claim_C5 :
    ObjectOpacityState.read
        ⟨[1, 0, 0, 0, 0, 0, 0, 0x3F, 5, 0, 0, 0], 0, 0⟩ adC5 12 =
      .ok (⟨[70], true, false, 0x3F000000⟩, ⟨[], 12, 0⟩) ∧
    ObjectOpacityState.write ⟨[70], true, false, 0x3F000000⟩ adC5 =
      .ok [1, 0, 0, 0, 0, 0, 0, 0x3F, 5, 0, 0, 0] :=
  ⟨rfl, rfl⟩

/-- C10: a failed `read_exact` (the stream ending early) returns the
transport error and leaves both the offset and the previous-offset field
of the cursor unchanged. -/
theorem claim_C10 (r : CountingReader) (n : Nat) :
    (r.inner.length < n → (r.readExactSt n).1 = .error .transport) ∧
    (∀ e, (r.readExactSt n).1 = .error e →
      (r.readExactSt n).2.offset = r.offset ∧
      (r.readExactSt n).2.prev = r.prev) := by
  refine ⟨fun h => ?_, fun e h => ?_⟩
  · rw [readExactSt_err r n h]
  · rw [readExactSt_err_state h]
    exact ⟨rfl, rfl⟩

/-- C10 witness: a two-byte request against a one-byte stream. -/
theorem claim_C10_witness :
    ((CountingReader.readExactSt ⟨[9], 4, 5⟩ 2).1 =
      .error .transport) ∧
    (CountingReader.readExactSt ⟨[9], 4, 5⟩ 2).2.offset = 4 ∧
    (CountingReader.readExactSt ⟨[9], 4, 5⟩ 2).2.prev = 5 :=
  ⟨(claim_C10 ⟨[9], 4, 5⟩ 2).1 (by decide),
    (claim_C10 ⟨[9], 4, 5⟩ 2).2 .transport rfl⟩

/-- C2 (amended): for the flag-controlled optional groups of the
object-motion-from-to and object-motion records, encoding `None`
sentinel-fills the group's slot and leaves its flag bit clear; and a
successful decode with a group's flag bit clear forces that group's slot
to hold its sentinel under the decoder's own comparison — IEEE-754 float
equality with `0.0` for float slots (which also accepts the negative-zero
bit pattern, so a byte-for-byte check is *not* implied), zero indices,
and all-zero name buffers. -/
theorem claim_C2 :
    (∀ (ad : AnimDef) (v : ObjectMotionFromTo) (bs : List Nat),
      ObjectMotionFromTo.write v ad = .ok bs →
      (v.morph = none → bytesAt bs 8 12 = List.replicate 12 0 ∧
        (field bs 0 4).testBit 3 = false) ∧
      (v.translate = none → bytesAt bs 20 36 = List.replicate 36 0 ∧
        (field bs 0 4).testBit 0 = false) ∧
      (v.rotate = none → bytesAt bs 56 36 = List.replicate 36 0 ∧
        (field bs 0 4).testBit 1 = false) ∧
      (v.scale = none → bytesAt bs 92 36 = List.replicate 36 0 ∧
        (field bs 0 4).testBit 2 = false)) ∧
    (∀ (c : ObjectMotionFromToC) (prev : Nat) (ad : AnimDef)
      (v : ObjectMotionFromTo),
      ObjectMotionFromTo.validate c prev ad = .ok v →
      (c.flags.testBit 3 = false →
        f32Eq c.morph_from fZero = true ∧
          f32Eq c.morph_to fZero = true ∧
          f32Eq c.morph_delta fZero = true) ∧
      (c.flags.testBit 0 = false →
        vec3EqZero c.translate_from = true ∧
          vec3EqZero c.translate_to = true ∧
          vec3EqZero c.translate_delta = true) ∧
      (c.flags.testBit 1 = false →
        vec3EqZero c.rotate_from = true ∧
          vec3EqZero c.rotate_to = true ∧
          vec3EqZero c.rotate_delta = true) ∧
      (c.flags.testBit 2 = false →
        vec3EqZero c.scale_from = true ∧
          vec3EqZero c.scale_to = true ∧
          vec3EqZero c.scale_delta = true)) ∧
    (∀ (ad : AnimDef) (v : ObjectMotion) (bs : List Nat),
      ObjectMotion.Wf ad v → ObjectMotion.write v ad = .ok bs →
      (v.gravity = none → field bs 12 4 = 0 ∧
        (field bs 0 4).testBit 0 = false) ∧
      (v.translation_range_min = none →
        (field bs 20 4 = 0 ∧ field bs 28 4 = 0 ∧ field bs 36 4 = 0 ∧
          field bs 44 4 = 0) ∧
        (field bs 0 4).testBit 3 = false) ∧
      (v.translation_range_max = none →
        (field bs 24 4 = 0 ∧ field bs 32 4 = 0 ∧ field bs 40 4 = 0 ∧
          field bs 48 4 = 0) ∧
        (field bs 0 4).testBit 4 = false) ∧
      (v.translation = none →
        (vec3At bs 52 = Vec3.EMPTY ∧ vec3At bs 64 = Vec3.EMPTY ∧
          vec3At bs 100 = Vec3.EMPTY) ∧
        (field bs 0 4).testBit 2 = false) ∧
      (v.forward_rotation = none →
        (field bs 112 4 = 0 ∧ field bs 116 4 = 0) ∧
        (field bs 0 4).testBit 7 = false ∧
          (field bs 0 4).testBit 6 = false) ∧
      (v.xyz_rotation = none →
        (vec3At bs 124 = Vec3.EMPTY ∧ vec3At bs 136 = Vec3.EMPTY) ∧
        (field bs 0 4).testBit 5 = false) ∧
      (v.scale = none →
        (vec3At bs 160 = Vec3.EMPTY ∧ vec3At bs 172 = Vec3.EMPTY) ∧
        (field bs 0 4).testBit 8 = false) ∧
      (v.bounce_sequence = none →
        (bytesAt bs 196 32 = List.replicate 32 0 ∧
          bytesAt bs 236 32 = List.replicate 32 0 ∧
          bytesAt bs 276 32 = List.replicate 32 0) ∧
        (field bs 0 4).testBit 11 = false) ∧
      (v.bounce_sound = none →
        (field bs 230 2 = 0 ∧ field bs 232 4 = 0) ∧
        (field bs 0 4).testBit 12 = false) ∧
      (v.runtime = none → field bs 316 4 = 0 ∧
        (field bs 0 4).testBit 10 = false)) ∧
    (∀ (c : ObjectMotionC) (prev : Nat) (ad : AnimDef)
      (v : ObjectMotion),
      ObjectMotion.validate c prev ad = .ok v →
      (c.flags.testBit 0 = false → f32Eq c.gravity fZero = true) ∧
      (c.flags.testBit 3 = false →
        f32Eq c.trans_range_min_1 fZero = true ∧
          f32Eq c.trans_range_min_2 fZero = true ∧
          f32Eq c.trans_range_min_3 fZero = true ∧
          f32Eq c.trans_range_min_4 fZero = true) ∧
      (c.flags.testBit 4 = false →
        f32Eq c.trans_range_max_1 fZero = true ∧
          f32Eq c.trans_range_max_2 fZero = true ∧
          f32Eq c.trans_range_max_3 fZero = true ∧
          f32Eq c.trans_range_max_4 fZero = true) ∧
      (c.flags.testBit 2 = false →
        vec3EqZero c.trans_delta = true ∧
          vec3EqZero c.trans_initial = true ∧
          vec3EqZero c.unk100 = true) ∧
      (c.flags.testBit 7 = false → c.flags.testBit 6 = false →
        f32Eq c.forward_rotation_1 fZero = true ∧
          f32Eq c.forward_rotation_2 fZero = true) ∧
      (c.flags.testBit 5 = false →
        vec3EqZero c.xyz_rotation = true ∧
          vec3EqZero c.unk136 = true) ∧
      (c.flags.testBit 8 = false →
        vec3EqZero c.scale = true ∧ vec3EqZero c.unk172 = true) ∧
      (c.flags.testBit 11 = false →
        c.bounce_seq0_name.all (fun b => b == 0) = true ∧
          c.bounce_seq1_name.all (fun b => b == 0) = true ∧
          c.bounce_seq2_name.all (fun b => b == 0) = true) ∧
      (c.flags.testBit 12 = false →
        c.bounce_snd0_index = 0 ∧
          f32Eq c.bounce_snd0_volume fZero = true) ∧
      (c.flags.testBit 10 = false → f32Eq c.runtime fZero = true)) :=
  ⟨fun ad v bs hw => fromTo_write_none_sentinel hw,
    fun c prev ad v h => fromTo_validate_sentinels h,
    fun ad v bs hwf hw => motion_write_none_sentinel hwf hw,
    fun c prev ad v h => motion_validate_sentinels h⟩

set_option maxRecDepth 8000 in
/-- C2 counterexample: a from-to record whose morph flag bit is clear
while its morph slot holds the non-zero byte 0x80 (the negative-zero
IEEE-754 pattern, bytes 8–11 = 00 00 00 80) decodes successfully — so
decoding bytes with a clear flag bit and a non-sentinel byte in the slot
does not always fail. -/
theorem claim_C2_counterexample :
    (field ce2bytes 0 4).testBit 3 = false ∧
    bytesAt ce2bytes 8 12 ≠ List.replicate 12 0 ∧
    ObjectMotionFromTo.read ⟨ce2bytes, 0, 0⟩ ⟨[[65]], [], []⟩ 132 =
      .ok (⟨[65], 0x3F800000, none, none, none, none⟩, ⟨[], 132, 0⟩) :=
  ⟨by decide, by decide, rfl⟩

set_option maxRecDepth 8000 in
/-- C2 witness: the encoder and decoder halves at concrete instances
(an all-groups-absent from-to value and the all-zero record). -/
theorem claim_C2_witness :
    ((vFromToW.morph = none →
        bytesAt wFromToBytes 8 12 = List.replicate 12 0 ∧
        (field wFromToBytes 0 4).testBit 3 = false) ∧
      (vFromToW.translate = none →
        bytesAt wFromToBytes 20 36 = List.replicate 36 0 ∧
        (field wFromToBytes 0 4).testBit 0 = false) ∧
      (vFromToW.rotate = none →
        bytesAt wFromToBytes 56 36 = List.replicate 36 0 ∧
        (field wFromToBytes 0 4).testBit 1 = false) ∧
      (vFromToW.scale = none →
        bytesAt wFromToBytes 92 36 = List.replicate 36 0 ∧
        (field wFromToBytes 0 4).testBit 2 = false)) ∧
    ((cw2C.flags.testBit 3 = false →
        f32Eq cw2C.morph_from fZero = true ∧
          f32Eq cw2C.morph_to fZero = true ∧
          f32Eq cw2C.morph_delta fZero = true) ∧
      (cw2C.flags.testBit 0 = false →
        vec3EqZero cw2C.translate_from = true ∧
          vec3EqZero cw2C.translate_to = true ∧
          vec3EqZero cw2C.translate_delta = true) ∧
      (cw2C.flags.testBit 1 = false →
        vec3EqZero cw2C.rotate_from = true ∧
          vec3EqZero cw2C.rotate_to = true ∧
          vec3EqZero cw2C.rotate_delta = true) ∧
      (cw2C.flags.testBit 2 = false →
        vec3EqZero cw2C.scale_from = true ∧
          vec3EqZero cw2C.scale_to = true ∧
          vec3EqZero cw2C.scale_delta = true)) :=
  ⟨claim_C2.1 adW vFromToW wFromToBytes rfl,
    claim_C2.2.1 cw2C 0 ⟨[[65]], [], []⟩
      ⟨[65], 0x3F800000, none, none, none, none⟩ rfl⟩

/-- C6: a light-animation record whose embedded 32-byte literal name
disagrees with the name resolved from its light index fails with the
labeled mismatch assertion at offset start + 32; a successful decode
forces the two names to agree (both resolve to the decoded name). -/
theorem claim_C6 (r : CountingReader) (ad : AnimDef) :
    (∀ (hidx : field r.inner 32 4 < ad.lights.length),
      100 ≤ r.inner.length →
      utf8Valid (takeUntilNul (bytesAt r.inner 0 32)) = true →
      takeUntilNul (bytesAt r.inner 0 32) ≠
        ad.lights.get ⟨field r.inner 32 4, hidx⟩ →
      LightAnimation.read r ad 100 =
        .error (.assertion "light anim name" (r.offset + 32))) ∧
    (∀ size v r2, LightAnimation.read r ad size = .ok (v, r2) →
      strFromC "light anim name" (r.offset + 0)
          (bytesAt r.inner 0 32) = .ok v.name ∧
        lookupName ad.lights "light anim light" (field r.inner 32 4)
          (r.offset + 32) = .ok v.name) :=
  ⟨fun hidx h1 h2 h3 => light_read_name_mismatch r ad h1 h2 hidx h3,
    fun size v r2 h => light_read_ok_names_agree h⟩

set_option maxRecDepth 8000 in
/-- C6 witness: literal name "B" against a light table resolving index 0
to "C". -/
theorem claim_C6_witness :
    LightAnimation.read ⟨lightMismatchBytes, 0, 0⟩ ⟨[], [[67]], []⟩ 100 =
      .error (.assertion "light anim name" (0 + 32)) :=
  (claim_C6 ⟨lightMismatchBytes, 0, 0⟩ ⟨[], [[67]], []⟩).1 (by decide)
    (by decide) (by decide) (by decide)

/-- C7: an object-connector record with both the FROM_NODE bit (1 << 0)
and the FROM_INPUT_NODE bit (1 << 1) set never decodes successfully, and
on an otherwise well-formed prefix it fails with the mutual-exclusivity
assertion at the flags field's offset. -/
theorem claim_C7 (r : CountingReader) (ad : AnimDef) :
    (∀ size v r2, (field r.inner 0 4).testBit 0 = true →
      (field r.inner 0 4).testBit 1 = true →
      ObjectConnector.read r ad size ≠ .ok (v, r2)) ∧
    (76 ≤ r.inner.length → field r.inner 0 4 &&& 0xFFFF7C84 = 0 →
      (field r.inner 0 4).testBit 0 = true →
      (field r.inner 0 4).testBit 1 = true →
      field r.inner 10 2 = 0 → field r.inner 4 2 < ad.nodes.length →
      ObjectConnector.read r ad 76 =
        .error (.assertion "object connector from input node"
          r.offset)) :=
  ⟨fun size v r2 h0 h1 h => conn_read_both_not_ok h0 h1 h,
    conn_read_both_error r ad⟩

set_option maxRecDepth 8000 in
/-- C7 witness: flag word 3 on an otherwise zero record. -/
theorem claim_C7_witness :
    ObjectConnector.read ⟨connBothBytes, 0, 0⟩ adW 76 =
      .error (.assertion "object connector from input node" 0) :=
  (claim_C7 ⟨connBothBytes, 0, 0⟩ adW).2 (by decide) (by decide)
    (by decide) (by decide) (by decide) (by decide)

/-- C8: an activation-prerequisite record with type discriminant
Animation (1) and leading 32-bit optional boolean 1 fails with the
required-assertion; on any successful decode, Animation implies the
optional boolean was 0, and for Object and Parent the decoded `required`
is the logical negation of the raw optional boolean. -/
theorem claim_C8 (r : CountingReader) :
    (8 ≤ r.inner.length → r.offset + 4 < U32 →
      field r.inner 0 4 = 1 → field r.inner 4 4 = 1 →
      read_activ_prereq r =
        .error (.assertion "anim def activ prereq required" r.offset)) ∧
    (∀ v r2, read_activ_prereq r = .ok (v, r2) →
      (∀ name, v = .animation name → field r.inner 0 4 = 0) ∧
      (∀ obj, v = .object obj ∨ v = .parent obj →
        (field r.inner 0 4 = 0 ∧ obj.required = true) ∨
        (field r.inner 0 4 = 1 ∧ obj.required = false))) :=
  ⟨activ_prereq_anim_optional_fails r,
    fun v r2 h => activ_prereq_ok_required h⟩

set_option maxRecDepth 8000 in
/-- C8 witness: optional = 1 with type Animation fails; a successful
Animation decode has optional = 0. -/
theorem claim_C8_witness :
    (read_activ_prereq ⟨activFailBytes, 0, 0⟩ =
      .error (.assertion "anim def activ prereq required" 0)) ∧
    ∀ name, (ActivationPrereq.animation [65] : ActivationPrereq) =
      .animation name → field activOkBytes 0 4 = 0 :=
  ⟨(claim_C8 ⟨activFailBytes, 0, 0⟩).1 (by decide) (by decide)
      (by decide) (by decide),
    ((claim_C8 ⟨activOkBytes, 0, 0⟩).2 (.animation [65])
      ⟨[], 48 % U32, 8 % U32⟩ rfl).1⟩

/-- C9: after the 36-byte GameZ header, a successful decode forces each
of the four stored section offsets (textures, materials, meshes, nodes)
to equal the reader's running offset at the moment that section's
decoding begins, with the sections decoded in the order textures →
materials → meshes → nodes; and a mismatch at any of the four points
fails the decode with the corresponding assertion error. -/
theorem claim_C9 :
    (∀ (α β γ : Type)
      (rm : CountingReader → List (List Nat) →
        Except Error ((α × Nat) × CountingReader))
      (rh : CountingReader → Nat →
        Except Error ((β × Nat) × CountingReader))
      (rn : CountingReader → Nat →
        Except Error (γ × CountingReader))
      (r : CountingReader) (g : GameZ α β γ),
      readGamez rm rh rn r = .ok g →
      ∃ hb r1 ts r2 ms r3 hs r4,
        r.readExact 36 = .ok (hb, r1) ∧
        r1.offset = (HeaderC.ofBytes hb).textures_offset ∧
        readTextureInfos (HeaderC.ofBytes hb).texture_count r1 =
          .ok (ts, r2) ∧
        r2.offset = (HeaderC.ofBytes hb).materials_offset ∧
        rm r2 ts = .ok (ms, r3) ∧
        r3.offset = (HeaderC.ofBytes hb).meshes_offset ∧
        rh r3 (HeaderC.ofBytes hb).nodes_offset = .ok (hs, r4) ∧
        r4.offset = (HeaderC.ofBytes hb).nodes_offset) ∧
    (∀ (α β γ : Type)
      (rm : CountingReader → List (List Nat) →
        Except Error ((α × Nat) × CountingReader))
      (rh : CountingReader → Nat →
        Except Error ((β × Nat) × CountingReader))
      (rn : CountingReader → Nat →
        Except Error (γ × CountingReader))
      (r : CountingReader) (hb : List Nat) (r1 : CountingReader),
      r.readExact 36 = .ok (hb, r1) →
      (HeaderC.ofBytes hb).signature = SIGNATURE →
      (HeaderC.ofBytes hb).version = VERSION_MW →
      (HeaderC.ofBytes hb).texture_count < 4096 →
      (HeaderC.ofBytes hb).node_count <
        (HeaderC.ofBytes hb).node_array_size →
      r1.offset ≠ (HeaderC.ofBytes hb).textures_offset →
      readGamez rm rh rn r =
        .error (.assertion "textures offset" r1.offset)) ∧
    (∀ (α β γ : Type)
      (rm : CountingReader → List (List Nat) →
        Except Error ((α × Nat) × CountingReader))
      (rh : CountingReader → Nat →
        Except Error ((β × Nat) × CountingReader))
      (rn : CountingReader → Nat →
        Except Error (γ × CountingReader))
      (r : CountingReader) (hb : List Nat) (r1 : CountingReader)
      (ts : List (List Nat)) (r2 : CountingReader),
      r.readExact 36 = .ok (hb, r1) →
      (HeaderC.ofBytes hb).signature = SIGNATURE →
      (HeaderC.ofBytes hb).version = VERSION_MW →
      (HeaderC.ofBytes hb).texture_count < 4096 →
      (HeaderC.ofBytes hb).node_count <
        (HeaderC.ofBytes hb).node_array_size →
      r1.offset = (HeaderC.ofBytes hb).textures_offset →
      readTextureInfos (HeaderC.ofBytes hb).texture_count r1 =
        .ok (ts, r2) →
      r2.offset ≠ (HeaderC.ofBytes hb).materials_offset →
      readGamez rm rh rn r =
        .error (.assertion "materials offset" r2.offset)) ∧
    (∀ (α β γ : Type)
      (rm : CountingReader → List (List Nat) →
        Except Error ((α × Nat) × CountingReader))
      (rh : CountingReader → Nat →
        Except Error ((β × Nat) × CountingReader))
      (rn : CountingReader → Nat →
        Except Error (γ × CountingReader))
      (r : CountingReader) (hb : List Nat) (r1 : CountingReader)
      (ts : List (List Nat)) (r2 : CountingReader) (ms : α × Nat)
      (r3 : CountingReader),
      r.readExact 36 = .ok (hb, r1) →
      (HeaderC.ofBytes hb).signature = SIGNATURE →
      (HeaderC.ofBytes hb).version = VERSION_MW →
      (HeaderC.ofBytes hb).texture_count < 4096 →
      (HeaderC.ofBytes hb).node_count <
        (HeaderC.ofBytes hb).node_array_size →
      r1.offset = (HeaderC.ofBytes hb).textures_offset →
      readTextureInfos (HeaderC.ofBytes hb).texture_count r1 =
        .ok (ts, r2) →
      r2.offset = (HeaderC.ofBytes hb).materials_offset →
      rm r2 ts = .ok (ms, r3) →
      r3.offset ≠ (HeaderC.ofBytes hb).meshes_offset →
      readGamez rm rh rn r =
        .error (.assertion "meshes offset" r3.offset)) ∧
    (∀ (α β γ : Type)
      (rm : CountingReader → List (List Nat) →
        Except Error ((α × Nat) × CountingReader))
      (rh : CountingReader → Nat →
        Except Error ((β × Nat) × CountingReader))
      (rn : CountingReader → Nat →
        Except Error (γ × CountingReader))
      (r : CountingReader) (hb : List Nat) (r1 : CountingReader)
      (ts : List (List Nat)) (r2 : CountingReader) (ms : α × Nat)
      (r3 : CountingReader) (hs : β × Nat) (r4 : CountingReader),
      r.readExact 36 = .ok (hb, r1) →
      (HeaderC.ofBytes hb).signature = SIGNATURE →
      (HeaderC.ofBytes hb).version = VERSION_MW →
      (HeaderC.ofBytes hb).texture_count < 4096 →
      (HeaderC.ofBytes hb).node_count <
        (HeaderC.ofBytes hb).node_array_size →
      r1.offset = (HeaderC.ofBytes hb).textures_offset →
      readTextureInfos (HeaderC.ofBytes hb).texture_count r1 =
        .ok (ts, r2) →
      r2.offset = (HeaderC.ofBytes hb).materials_offset →
      rm r2 ts = .ok (ms, r3) →
      r3.offset = (HeaderC.ofBytes hb).meshes_offset →
      rh r3 (HeaderC.ofBytes hb).nodes_offset = .ok (hs, r4) →
      r4.offset ≠ (HeaderC.ofBytes hb).nodes_offset →
      readGamez rm rh rn r =
        .error (.assertion "nodes offset" r4.offset)) :=
  ⟨fun α β γ rm rh rn r g h => readGamez_offsets h,
    fun α β γ rm rh rn r hb r1 => readGamez_textures_mismatch rm rh rn,
    fun α β γ rm rh rn r hb r1 ts r2 =>
      readGamez_materials_mismatch rm rh rn,
    fun α β γ rm rh rn r hb r1 ts r2 ms r3 =>
      readGamez_meshes_mismatch rm rh rn,
    fun α β γ rm rh rn r hb r1 ts r2 ms r3 hs r4 =>
      readGamez_nodes_mismatch rm rh rn⟩

set_option maxRecDepth 8000 in
/-- C9 witness: a well-formed header decodes (yielding the offset
equalities), and a header with a wrong textures offset fails with the
textures-offset assertion. -/
theorem claim_C9_witness :
    (∃ hb r1 ts r2 ms r3 hs r4,
      CountingReader.readExact ⟨hdrOkBytes, 0, 0⟩ 36 = .ok (hb, r1) ∧
      r1.offset = (HeaderC.ofBytes hb).textures_offset ∧
      readTextureInfos (HeaderC.ofBytes hb).texture_count r1 =
        .ok (ts, r2) ∧
      r2.offset = (HeaderC.ofBytes hb).materials_offset ∧
      trivMaterials r2 ts = .ok (ms, r3) ∧
      r3.offset = (HeaderC.ofBytes hb).meshes_offset ∧
      trivMeshes r3 (HeaderC.ofBytes hb).nodes_offset = .ok (hs, r4) ∧
      r4.offset = (HeaderC.ofBytes hb).nodes_offset) ∧
    readGamez trivMaterials trivMeshes trivNodes
      ⟨hdrBadBytes, 0, 0⟩ =
      .error (.assertion "textures offset" 36) :=
  ⟨claim_C9.1 Nat Nat Nat trivMaterials trivMeshes trivNodes
      ⟨hdrOkBytes, 0, 0⟩ ⟨0, 0, 1, 0, [], 0, 0, 0⟩ rfl,
    claim_C9.2.1 Nat Nat Nat trivMaterials trivMeshes trivNodes
      ⟨hdrBadBytes, 0, 0⟩ hdrBadBytes ⟨[], 36, 0⟩ rfl (by decide)
      (by decide) (by decide) (by decide) (by decide)⟩

end Mech3ax

